import Mathlib

/-!
# AVR instruction selection and machine-code emission

A shallow embedding of `lib/Target/AVR/AVRISelDAGToDAG.cpp` and
`lib/Target/AVR/MCTargetDesc/AVRMCCodeEmitter.cpp`.

Conventions of the embedding:

* a selection-DAG node is a term (opcode, result types, operands, payload);
  an `SDValue` is a node together with a result number;
* a function that can hit an `assert`, a failing `cast<>` or an
  `llvm_unreachable` returns `Except Fatal _`; the error side is the hard
  failure;
* a `bool` result with out-parameters is an `Option` of the out-parameters;
* a function that takes the fixup vector by reference returns the vector it
  leaves behind next to its value;
* debug locations (`SDLoc`) carry no behaviour and are left out.
-/

/-! ## Machine integers -/

/-- The conversion of an unsigned 64-bit value to `int`: the low 32 bits read
as a two's complement number. -/
def toInt32 (z : Int) : Int :=
  let m := z % 2 ^ 32
  if m < 2 ^ 31 then m else m - 2 ^ 32

/-- The conversion of a signed value to `uint64_t`. -/
def toUInt64 (i : Int) : Nat := (i % 2 ^ 64).toNat

/-- The conversion of a signed value to `unsigned` (32 bits). -/
def toUInt32 (i : Int) : Nat := (i % 2 ^ 32).toNat

/-- The template `isUInt<N>(uint64_t x)` of MathExtras. -/
def isUInt (N : Nat) (x : Nat) : Bool := decide (64 ≤ N) || decide (x < 2 ^ N)

/-! ## Value types, registers, opcodes -/

/-- The simple value types that occur in the two files (and their
neighbours). -/
inductive MVT where
  | i1 | i8 | i16 | i32 | i64 | Other | Glue
  deriving DecidableEq, Repr

namespace MVT

/-- Width in bits of a value type (`Other` and `Glue` carry no bits). -/
def getSizeInBits : MVT → Nat
  | i1 => 1
  | i8 => 8
  | i16 => 16
  | i32 => 32
  | i64 => 64
  | Other => 0
  | Glue => 0

end MVT

/-- Registers: the physical registers named in the sources, any other
physical register, and virtual registers. -/
inductive Reg where
  | SP
  | R27R26
  | R29R28
  | R31R30
  | physical (n : Nat)
  | virt (n : Nat)
  deriving DecidableEq, Repr

namespace AVR

/-- The machine opcodes named in the instruction selector. -/
inductive Instr where
  | FRMIDX
  | STDSPQRr | STDWSPQRr
  | LDRdPtrPi | LDRdPtrPd | LDWRdPtrPi | LDWRdPtrPd
  | LPMRdZ | LPMWRdZ | LPMRdZPi | LPMWRdZPi
  | ICALL | IJMP
  deriving DecidableEq, Repr

/-- The fixup kinds of `AVRFixupKinds.h` that the emitter names. -/
inductive Fixups where
  | fixup_brcond
  | fixup_other (n : Nat)
  deriving DecidableEq, Repr

end AVR

namespace ISD

/-- The target-independent node opcodes the selector looks at; every other
one is `other n`. -/
inductive NodeType where
  | FrameIndex | TargetFrameIndex
  | Constant | TargetConstant
  | Register | CopyToReg | CopyFromReg
  | ADD | SUB | OR
  | LOAD | STORE
  | BRIND
  | TargetGlobalAddress | TargetExternalSymbol
  | UNDEF
  | other (n : Nat)
  deriving DecidableEq, Repr

/-- Addressing modes of an indexed memory operation. -/
inductive MemIndexedMode where
  | UNINDEXED | PRE_INC | PRE_DEC | POST_INC | POST_DEC
  deriving DecidableEq, Repr

/-- Extension kinds of a load. -/
inductive LoadExtType where
  | NON_EXTLOAD | EXTLOAD | SEXTLOAD | ZEXTLOAD
  deriving DecidableEq, Repr

end ISD

namespace AVRISD

/-- The AVR-specific node opcodes; the selector names `CALL` only. -/
inductive NodeType where
  | CALL
  | other (n : Nat)
  deriving DecidableEq, Repr

end AVRISD

/-- What `SDNode::getOpcode` distinguishes: a target-independent opcode, an
AVR-specific one, or an already selected machine opcode. -/
inductive Opcode where
  | isd (o : ISD.NodeType)
  | avrisd (o : AVRISD.NodeType)
  | machine (o : AVR.Instr)
  deriving DecidableEq, Repr

/-- An arbitrary-precision integer: a width and a value that is read modulo
two to the width. -/
structure APInt where
  BitWidth : Nat
  VAL : Int
  deriving DecidableEq, Repr

namespace APInt

/-- The value zero-extended. -/
def getZExtValue (a : APInt) : Int := a.VAL % 2 ^ a.BitWidth

/-- The value sign-extended. -/
def getSExtValue (a : APInt) : Int :=
  let z := a.VAL % 2 ^ a.BitWidth
  if a.BitWidth ≠ 0 ∧ 2 ^ (a.BitWidth - 1) ≤ z then z - 2 ^ a.BitWidth else z

end APInt

/-- The IR type of the value behind a memory reference: a pointer into an
address space, or anything else. -/
inductive IRType where
  | pointer (AddressSpace : Nat)
  | nonPointer
  deriving DecidableEq, Repr

/-- A machine memory operand; only the IR value it refers to (if any) is
looked at, and of that only the type. -/
structure MachineMemOperand where
  V : Option IRType
  ident : Nat
  deriving DecidableEq, Repr

/-- The fields of a `MemSDNode` / `LoadSDNode` / `StoreSDNode`. -/
structure MemInfo where
  MemoryVT : MVT
  AM : ISD.MemIndexedMode
  ExtType : ISD.LoadExtType
  MMO : MachineMemOperand
  deriving DecidableEq, Repr

/-- The payload a node carries apart from its operands. -/
inductive NodeInfo where
  | none
  | frameIndex (FI : Int)
  | constant (Value : APInt)
  | register (R : Reg)
  | mem (m : MemInfo)
  | memRefs (refs : List MachineMemOperand)
  deriving DecidableEq, Repr

mutual
/-- A selection-DAG node. -/
inductive SDNode where
  | mk (opc : Opcode) (vts : List MVT) (ops : List SDValue) (info : NodeInfo)
/-- A use of one result of a node. -/
inductive SDValue where
  | mk (node : SDNode) (resNo : Nat)
end

/-- The hard failures. -/
inductive Fatal where
  | castFailed
  | operandOutOfRange
  | valueOutOfRange
  | assertion
  | unsupportedVT
  | xPointerRegister
  | registerNotSupported
  | sizeZero
  | cannotSelect
  | nullDereference
  deriving DecidableEq, Repr

namespace SDNode

def getOpcode : SDNode → Opcode
  | mk opc _ _ _ => opc

def getVTs : SDNode → List MVT
  | mk _ vts _ _ => vts

def getOps : SDNode → List SDValue
  | mk _ _ ops _ => ops

def getInfo : SDNode → NodeInfo
  | mk _ _ _ info => info

def isMachineOpcode (N : SDNode) : Bool :=
  match N.getOpcode with
  | Opcode.machine _ => true
  | _ => false

def getNumOperands (N : SDNode) : Nat := N.getOps.length

/-- The accessor `getOperand(i)`; an index past the end is an assertion
failure. -/
def getOperand (N : SDNode) (i : Nat) : Except Fatal SDValue :=
  match N.getOps.get? i with
  | some v => Except.ok v
  | none => Except.error Fatal.operandOutOfRange

/-- The accessor `getValueType(i)`; a result number past the end is an
assertion failure. -/
def getValueType (N : SDNode) (i : Nat) : Except Fatal MVT :=
  match N.getVTs.get? i with
  | some v => Except.ok v
  | none => Except.error Fatal.valueOutOfRange

end SDNode

namespace SDValue

def getNode : SDValue → SDNode
  | mk n _ => n

def getResNo : SDValue → Nat
  | mk _ r => r

def getOpcode (V : SDValue) : Opcode := V.getNode.getOpcode

def getOperand (V : SDValue) (i : Nat) : Except Fatal SDValue := V.getNode.getOperand i

def getValueType (V : SDValue) : Except Fatal MVT := V.getNode.getValueType V.getResNo

/-- The accessor `getValue(R)`: result `R` of the same node. -/
def getValue (V : SDValue) (R : Nat) : SDValue := SDValue.mk V.getNode R

end SDValue

/-! ## Node classification (`isa`, `dyn_cast`, `cast`) -/

/-- The `FrameIndexSDNode` view of a node (`FrameIndex` or
`TargetFrameIndex`): the frame index. -/
def dyn_cast_FrameIndexSDNode (N : SDNode) : Option Int :=
  match N with
  | SDNode.mk (Opcode.isd ISD.NodeType.FrameIndex) _ _ (NodeInfo.frameIndex FI) => some FI
  | SDNode.mk (Opcode.isd ISD.NodeType.TargetFrameIndex) _ _ (NodeInfo.frameIndex FI) => some FI
  | _ => none

/-- The `ConstantSDNode` view of a node (`Constant` or `TargetConstant`):
the constant. -/
def dyn_cast_ConstantSDNode (N : SDNode) : Option APInt :=
  match N with
  | SDNode.mk (Opcode.isd ISD.NodeType.Constant) _ _ (NodeInfo.constant C) => some C
  | SDNode.mk (Opcode.isd ISD.NodeType.TargetConstant) _ _ (NodeInfo.constant C) => some C
  | _ => none

/-- The `RegisterSDNode` view of a node: the register. -/
def dyn_cast_RegisterSDNode (N : SDNode) : Option Reg :=
  match N with
  | SDNode.mk (Opcode.isd ISD.NodeType.Register) _ _ (NodeInfo.register R) => some R
  | _ => none

/-- The `MemSDNode` view of a node: a load or a store. -/
def dyn_cast_MemSDNode (N : SDNode) : Option MemInfo :=
  match N with
  | SDNode.mk (Opcode.isd ISD.NodeType.LOAD) _ _ (NodeInfo.mem m) => some m
  | SDNode.mk (Opcode.isd ISD.NodeType.STORE) _ _ (NodeInfo.mem m) => some m
  | _ => none

/-- The `LoadSDNode` view of a node. -/
def dyn_cast_LoadSDNode (N : SDNode) : Option MemInfo :=
  match N with
  | SDNode.mk (Opcode.isd ISD.NodeType.LOAD) _ _ (NodeInfo.mem m) => some m
  | _ => none

/-- The `StoreSDNode` view of a node. -/
def dyn_cast_StoreSDNode (N : SDNode) : Option MemInfo :=
  match N with
  | SDNode.mk (Opcode.isd ISD.NodeType.STORE) _ _ (NodeInfo.mem m) => some m
  | _ => none

/-- The checked cast `cast<T>`: a failing cast is an assertion failure. -/
def checkedCast {α : Type} (o : Option α) : Except Fatal α :=
  match o with
  | some a => Except.ok a
  | none => Except.error Fatal.castFailed

/-! ## Node construction (`SelectionDAG`) -/

/-- Modelled from the spec: `TargetLowering::getPointerTy` is defined outside
the two files; the target's pointers are 16 bits wide. -/
def getPointerTy : MVT := MVT.i16

/-- Modelled from the spec: `SelectionDAG::getTargetFrameIndex` is defined
outside the two files; it builds the target frame index node for a frame
slot. -/
def getTargetFrameIndex (FI : Int) (VT : MVT) : SDValue :=
  SDValue.mk
    (SDNode.mk (Opcode.isd ISD.NodeType.TargetFrameIndex) [VT] [] (NodeInfo.frameIndex FI)) 0

/-- Modelled from the spec: `SelectionDAG::getTargetConstant` is defined
outside the two files; it builds the target constant node of the given value
and type. -/
def getTargetConstant (Val : Int) (VT : MVT) : SDValue :=
  SDValue.mk
    (SDNode.mk (Opcode.isd ISD.NodeType.TargetConstant) [VT] []
      (NodeInfo.constant (APInt.mk VT.getSizeInBits Val))) 0

/-- Modelled from the spec: `SelectionDAG::getRegister` is defined outside the
two files; it builds the register node. -/
def getRegister (R : Reg) (VT : MVT) : SDValue :=
  SDValue.mk (SDNode.mk (Opcode.isd ISD.NodeType.Register) [VT] [] (NodeInfo.register R)) 0

/-- Modelled from the spec: `SelectionDAG::getMachineNode` is defined outside
the two files; it builds a machine node with the given opcode, result types
and operands, and no memory references. -/
def getMachineNode (Opc : AVR.Instr) (VTs : List MVT) (Ops : List SDValue) : SDNode :=
  SDNode.mk (Opcode.machine Opc) VTs Ops (NodeInfo.memRefs [])

/-- The method `MachineSDNode::setMemRefs`: replace the memory references of a
machine node. -/
def setMemRefs (N : SDNode) (refs : List MachineMemOperand) : SDNode :=
  match N with
  | SDNode.mk opc vts ops _ => SDNode.mk opc vts ops (NodeInfo.memRefs refs)

/-! ## Address selection -/

/-- The method `AVRDAGToDAGISel::SelectAddr`.  `Op` is the memory operation,
`N` the address.  The predicate `isBaseWithConstantOffset` of the DAG is
defined outside the two files and is a parameter.  `some (Base, Disp)` is
`true` with the out-parameters set, `none` is `false`.

The negation `RHSC = -RHSC` is the exact negation: the one `int` whose
negation overflows has no defined result in C++. -/
def SelectAddr (isBaseWithConstantOffset : SDValue → Bool) (Op : SDNode) (N : SDValue) :
    Except Fatal (Option (SDValue × SDValue)) :=
  -- if N (the address) is a FI get the TargetFrameIndex.
  match dyn_cast_FrameIndexSDNode N.getNode with
  | some FIN =>
    Except.ok (some (getTargetFrameIndex FIN getPointerTy, getTargetConstant 0 MVT.i8))
  | none =>
    -- Match simple Reg + uimm6 operands.
    if N.getOpcode ≠ Opcode.isd ISD.NodeType.ADD ∧ N.getOpcode ≠ Opcode.isd ISD.NodeType.SUB
        ∧ isBaseWithConstantOffset N = false then
      Except.ok none
    else
      match N.getOperand 1 with
      | Except.error e => Except.error e
      | Except.ok Op1 =>
        match dyn_cast_ConstantSDNode Op1.getNode with
        | none => Except.ok none
        | some RHS =>
          let RHSC0 : Int := toInt32 RHS.getZExtValue
          -- Convert negative offsets into positives ones.
          let RHSC : Int := if N.getOpcode = Opcode.isd ISD.NodeType.SUB then -RHSC0 else RHSC0
          match N.getOperand 0 with
          | Except.error e => Except.error e
          | Except.ok Op0 =>
            -- <#FI + const>
            if Op0.getOpcode = Opcode.isd ISD.NodeType.FrameIndex then
              match checkedCast (dyn_cast_FrameIndexSDNode Op0.getNode) with
              | Except.error e => Except.error e
              | Except.ok FI =>
                Except.ok (some (getTargetFrameIndex FI getPointerTy,
                                 getTargetConstant RHSC MVT.i16))
            else
              -- The value type of the memory instruction determines what is
              -- the maximum offset allowed.
              match checkedCast (dyn_cast_MemSDNode Op) with
              | Except.error e => Except.error e
              | Except.ok M =>
                let VT := M.MemoryVT
                -- We only accept offsets that fit in 6 bits (unsigned).
                if (VT = MVT.i8 ∧ isUInt 6 (toUInt64 RHSC) = true)
                    ∨ (VT = MVT.i16 ∧ RHSC ≥ 0 ∧ RHSC < 63) then
                  Except.ok (some (Op0, getTargetConstant RHSC MVT.i8))
                else
                  Except.ok none

/-! ## Indexed loads -/

/-- The method `AVRDAGToDAGISel::SelectIndexedLoad`; `none` is the null
result (no match), `some` the machine node built. -/
def SelectIndexedLoad (N : SDNode) : Except Fatal (Option SDNode) :=
  match checkedCast (dyn_cast_LoadSDNode N) with
  | Except.error e => Except.error e
  | Except.ok LD =>
    let AM := LD.AM
    let VT := LD.MemoryVT
    -- Only care if this load uses a POSTINC or PREDEC mode.
    if LD.ExtType ≠ ISD.LoadExtType.NON_EXTLOAD
        ∨ (AM ≠ ISD.MemIndexedMode.POST_INC ∧ AM ≠ ISD.MemIndexedMode.PRE_DEC) then
      Except.ok none
    else
      let isPre : Bool := decide (AM = ISD.MemIndexedMode.PRE_DEC)
      match N.getOperand 2 with
      | Except.error e => Except.error e
      | Except.ok Offset =>
        match checkedCast (dyn_cast_ConstantSDNode Offset.getNode) with
        | Except.error e => Except.error e
        | Except.ok OffsC =>
          let Offs : Int := toInt32 OffsC.getSExtValue
          let build (Opcode : AVR.Instr) : Except Fatal (Option SDNode) :=
            match N.getOperand 1, N.getOperand 0 with
            | Except.ok BasePtr, Except.ok Chain =>
              Except.ok (some (getMachineNode Opcode [VT, getPointerTy, MVT.Other]
                [BasePtr, Chain]))
            | Except.error e, _ => Except.error e
            | _, Except.error e => Except.error e
          match VT with
          | MVT.i8 =>
            if (isPre = false ∧ Offs ≠ 1) ∨ (isPre = true ∧ Offs ≠ -1) then
              Except.ok none
            else
              build (if isPre then AVR.Instr.LDRdPtrPd else AVR.Instr.LDRdPtrPi)
          | MVT.i16 =>
            if (isPre = false ∧ Offs ≠ 2) ∨ (isPre = true ∧ Offs ≠ -2) then
              Except.ok none
            else
              build (if isPre then AVR.Instr.LDWRdPtrPd else AVR.Instr.LDWRdPtrPi)
          | _ => Except.ok none

/-- The method `AVRDAGToDAGISel::SelectIndexedProgMemLoad`.  The `unsigned`
result is an opcode or 0; the opcode enumerators of the target are all
different from 0, so 0 is rendered as `none` and an opcode as `some`. -/
def SelectIndexedProgMemLoad (LD : SDNode) (VT : MVT) : Except Fatal (Option AVR.Instr) :=
  match checkedCast (dyn_cast_LoadSDNode LD) with
  | Except.error e => Except.error e
  | Except.ok L =>
    let AM := L.AM
    -- Progmem indexed loads only work in POSTINC mode.
    if L.ExtType ≠ ISD.LoadExtType.NON_EXTLOAD ∨ AM ≠ ISD.MemIndexedMode.POST_INC then
      Except.ok none
    else
      match LD.getOperand 2 with
      | Except.error e => Except.error e
      | Except.ok Offset =>
        match checkedCast (dyn_cast_ConstantSDNode Offset.getNode) with
        | Except.error e => Except.error e
        | Except.ok OffsC =>
          let Offs : Int := toInt32 OffsC.getSExtValue
          match VT with
          | MVT.i8 =>
            if Offs ≠ 1 then Except.ok none else Except.ok (some AVR.Instr.LPMRdZPi)
          | MVT.i16 =>
            if Offs ≠ 2 then Except.ok none else Except.ok (some AVR.Instr.LPMWRdZPi)
          | _ => Except.ok none

/-! ## Register copies -/

/-- Modelled from the spec: `SelectionDAG::getCopyToReg(Chain, dl, Reg, N)` is
defined outside the two files; the copy node has the inputs chain, register
and copied value, and a chain result. -/
def getCopyToReg (Chain : SDValue) (R : Reg) (N : SDValue) : Except Fatal SDValue :=
  match N.getValueType with
  | Except.error e => Except.error e
  | Except.ok VT =>
    Except.ok (SDValue.mk (SDNode.mk (Opcode.isd ISD.NodeType.CopyToReg) [MVT.Other]
      [Chain, getRegister R VT, N] NodeInfo.none) 0)

/-- Modelled from the spec: `SelectionDAG::getCopyToReg(Chain, dl, Reg, N,
Glue)` is defined outside the two files; the copy node has the inputs chain,
register, copied value and the incoming glue when that is not the empty
value (`none`), and a chain result and a glue result. -/
def getCopyToRegGlue (Chain : SDValue) (R : Reg) (N : SDValue) (Glue : Option SDValue) :
    Except Fatal SDValue :=
  match N.getValueType with
  | Except.error e => Except.error e
  | Except.ok VT =>
    Except.ok (SDValue.mk (SDNode.mk (Opcode.isd ISD.NodeType.CopyToReg) [MVT.Other, MVT.Glue]
      ([Chain, getRegister R VT, N] ++ Glue.toList) NodeInfo.none) 0)

/-- Modelled from the spec: `SelectionDAG::getCopyFromReg(Chain, dl, Reg, VT,
Glue)` is defined outside the two files; the node reads the register after
the chain (and glue) and has a value, a chain and a glue result. -/
def getCopyFromRegGlue (Chain : SDValue) (R : Reg) (VT : MVT) (Glue : Option SDValue) :
    SDValue :=
  SDValue.mk (SDNode.mk (Opcode.isd ISD.NodeType.CopyFromReg) [VT, MVT.Other, MVT.Glue]
    ([Chain, getRegister R VT] ++ Glue.toList) NodeInfo.none) 0

/-! ## The selection dispatcher -/

/-- What one call of `Select` leaves behind: the node it returns (`none` is
the null pointer) and the `ReplaceUses(From, To)` calls it made, in order.
A node built and then given memory references appears with them
everywhere, as it is one object in the source. -/
structure SelectResult where
  ResNode : Option SDNode
  Replaced : List (SDValue × SDValue)

/-- Modelled from the spec: `SelectionDAG::SelectNodeTo` is defined outside
the two files; it turns the node into the machine node of the given opcode,
result type and operands and returns it. -/
def SelectNodeTo (_N : SDNode) (Opc : AVR.Instr) (VT : MVT) (Op1 Op2 : SDValue) : SDNode :=
  getMachineNode Opc [VT] [Op1, Op2]

/-- The loop `for (i = 2, e = LastOpNum + 1; i != e; ++i) Ops.push_back(
N->getOperand(i))` of the call case, started at `i`.  An operand access past
the end fails, so the loop body runs at most once per operand: `fuel` is the
number of operands plus one. -/
def mapOperands (N : SDNode) (e : Nat) : Nat → Nat → Except Fatal (List SDValue)
  | 0, _ => Except.error Fatal.operandOutOfRange
  | fuel + 1, i =>
    if i = e then Except.ok []
    else
      match N.getOperand i with
      | Except.error err => Except.error err
      | Except.ok v =>
        match mapOperands N e fuel (i + 1) with
        | Except.error err => Except.error err
        | Except.ok rest => Except.ok (v :: rest)

/-- The case `ISD::FrameIndex` of `Select`. -/
def SelectFrameIndex (N : SDNode) : Except Fatal SelectResult :=
  -- Convert the frameindex into a temp instruction that will hold the
  -- effective address of the final stack slot.
  match checkedCast (dyn_cast_FrameIndexSDNode N) with
  | Except.error e => Except.error e
  | Except.ok FI =>
    let TFI := getTargetFrameIndex FI getPointerTy
    Except.ok (SelectResult.mk
      (some (SelectNodeTo N AVR.Instr.FRMIDX getPointerTy TFI (getTargetConstant 0 MVT.i16)))
      [])

/-- The case `ISD::STORE` of `Select`; `Fallthrough` is what follows the
switch (the call of the generic matcher). -/
def SelectStore (Fallthrough : Except Fatal SelectResult) (N : SDNode) :
    Except Fatal SelectResult :=
  match checkedCast (dyn_cast_StoreSDNode N) with
  | Except.error e => Except.error e
  | Except.ok ST =>
    match N.getOperand 2 with
    | Except.error e => Except.error e
    | Except.ok BasePtr =>
      -- Early exit when the base pointer is a frame index node or a constant.
      if (dyn_cast_FrameIndexSDNode BasePtr.getNode).isSome
          ∨ (dyn_cast_ConstantSDNode BasePtr.getNode).isSome then
        Fallthrough
      else
        match BasePtr.getOperand 0 with
        | Except.error e => Except.error e
        | Except.ok Base0 =>
          -- Only stores where SP is the base pointer are valid.
          if dyn_cast_RegisterSDNode Base0.getNode ≠ some Reg.SP then
            Fallthrough
          else
            match BasePtr.getOperand 1 with
            | Except.error e => Except.error e
            | Except.ok Base1 =>
              match checkedCast (dyn_cast_ConstantSDNode Base1.getNode) with
              | Except.error e => Except.error e
              | Except.ok C =>
                let CST : Int := toInt32 C.getZExtValue
                match N.getOperand 0, N.getOperand 1 with
                | Except.error e, _ => Except.error e
                | _, Except.error e => Except.error e
                | Except.ok Chain, Except.ok StoredVal =>
                  let Offset := getTargetConstant CST MVT.i16
                  let Ops := [Base0, Offset, StoredVal, Chain]
                  match StoredVal.getValueType with
                  | Except.error e => Except.error e
                  | Except.ok SVT =>
                    let Opc := if SVT = MVT.i16 then AVR.Instr.STDWSPQRr
                               else AVR.Instr.STDSPQRr
                    -- Transfer memoperands.
                    let ResNode := setMemRefs (getMachineNode Opc [MVT.Other] Ops) [ST.MMO]
                    Except.ok (SelectResult.mk (some ResNode)
                      [(SDValue.mk N 0, SDValue.mk ResNode 0)])

/-- The test `SV && cast<PointerType>(SV->getType())->getAddressSpace() == 1`
on the IR value of a load's memory operand. -/
def isProgMemValue (V : Option IRType) : Except Fatal Bool :=
  match V with
  | none => Except.ok false
  | some (IRType.pointer AS) => Except.ok (decide (AS = 1))
  | some IRType.nonPointer => Except.error Fatal.castFailed

/-- The flash-memory branch of the case `ISD::LOAD` of `Select`. -/
def SelectProgMemLoad (N : SDNode) (LD : MemInfo) : Except Fatal SelectResult :=
  -- This is a flash memory load, move the pointer into R31R30 and emit
  -- the lpm instruction.
  let VT := LD.MemoryVT
  match N.getOperand 0, N.getOperand 1 with
  | Except.error e, _ => Except.error e
  | _, Except.error e => Except.error e
  | Except.ok Chain0, Except.ok Ptr0 =>
    match getCopyToRegGlue Chain0 Reg.R31R30 Ptr0 none with
    | Except.error e => Except.error e
    | Except.ok Chain =>
      let Ptr := getCopyFromRegGlue Chain Reg.R31R30 MVT.i16 (some (Chain.getValue 1))
      let MemOp := [LD.MMO]
      -- Check if the opcode can be converted into an indexed load.
      match SelectIndexedProgMemLoad N VT with
      | Except.error e => Except.error e
      | Except.ok (some LPMOpc) =>
        -- It is legal to fold the load into an indexed load.
        let ResNode := setMemRefs
          (getMachineNode LPMOpc [VT, MVT.i16, MVT.Other] [Ptr, Ptr.getValue 1]) MemOp
        Except.ok (SelectResult.mk (some ResNode)
          [(SDValue.mk N 2, SDValue.mk ResNode 2),
           (SDValue.mk N 0, SDValue.mk ResNode 0),
           (SDValue.mk N 1, SDValue.mk ResNode 1)])
      | Except.ok none =>
        -- Selecting an indexed load is not legal, fallback to a normal load.
        match VT with
        | MVT.i8 =>
          let ResNode := setMemRefs
            (getMachineNode AVR.Instr.LPMRdZ [MVT.i8, MVT.Other] [Ptr, Ptr.getValue 1]) MemOp
          Except.ok (SelectResult.mk (some ResNode)
            [(SDValue.mk N 0, SDValue.mk ResNode 0),
             (SDValue.mk N 1, SDValue.mk ResNode 1)])
        | MVT.i16 =>
          let ResNode := setMemRefs
            (getMachineNode AVR.Instr.LPMWRdZ [MVT.i16, MVT.i16, MVT.Other]
              [Ptr, Ptr.getValue 1]) MemOp
          Except.ok (SelectResult.mk (some ResNode)
            [(SDValue.mk N 2, SDValue.mk ResNode 2),
             (SDValue.mk N 0, SDValue.mk ResNode 0),
             (SDValue.mk N 1, SDValue.mk ResNode 1)])
        | _ => Except.error Fatal.unsupportedVT

/-- The case `ISD::LOAD` of `Select`. -/
def SelectLoad (Fallthrough : Except Fatal SelectResult) (N : SDNode) :
    Except Fatal SelectResult :=
  match checkedCast (dyn_cast_LoadSDNode N) with
  | Except.error e => Except.error e
  | Except.ok LD =>
    match isProgMemValue LD.MMO.V with
    | Except.error e => Except.error e
    | Except.ok true => SelectProgMemLoad N LD
    | Except.ok false =>
      -- Check if the opcode can be converted into an indexed load.
      match SelectIndexedLoad N with
      | Except.error e => Except.error e
      | Except.ok (some ResNode) => Except.ok (SelectResult.mk (some ResNode) [])
      -- Other cases are autogenerated.
      | Except.ok none => Fallthrough

/-- The case `AVRISD::CALL` of `Select`. -/
def SelectCall (Fallthrough : Except Fatal SelectResult) (N : SDNode) :
    Except Fatal SelectResult :=
  -- Handle indirect calls because ICALL can only take R31R30 as its source
  -- operand.
  let InFlag : Option SDValue := none
  match N.getOperand 0, N.getOperand 1 with
  | Except.error e, _ => Except.error e
  | _, Except.error e => Except.error e
  | Except.ok Chain0, Except.ok Callee =>
    let LastOpNum0 := N.getNumOperands - 1
    -- Direct calls are autogenerated.
    if Callee.getOpcode = Opcode.isd ISD.NodeType.TargetGlobalAddress
        ∨ Callee.getOpcode = Opcode.isd ISD.NodeType.TargetExternalSymbol then
      Fallthrough
    else
      match N.getOperand LastOpNum0 with
      | Except.error e => Except.error e
      | Except.ok Last =>
        match Last.getValueType with
        | Except.error e => Except.error e
        | Except.ok LastVT =>
          -- Skip the incoming flag if present
          let LastOpNum := if LastVT = MVT.Glue then LastOpNum0 - 1 else LastOpNum0
          match getCopyToRegGlue Chain0 Reg.R31R30 Callee InFlag with
          | Except.error e => Except.error e
          | Except.ok Chain =>
            -- Map all operands into the new node.
            match mapOperands N (LastOpNum + 1) (N.getNumOperands + 1) 2 with
            | Except.error e => Except.error e
            | Except.ok Mapped =>
              let Ops := [getRegister Reg.R31R30 MVT.i16] ++ Mapped
                ++ [Chain, Chain.getValue 1]
              let ResNode := getMachineNode AVR.Instr.ICALL [MVT.Other, MVT.Glue] Ops
              Except.ok (SelectResult.mk (some ResNode)
                [(SDValue.mk N 0, SDValue.mk ResNode 0),
                 (SDValue.mk N 1, SDValue.mk ResNode 1)])

/-- The case `ISD::BRIND` of `Select`. -/
def SelectBrind (N : SDNode) : Except Fatal SelectResult :=
  -- Move the destination address of the indirect branch into R31R30.
  match N.getOperand 0, N.getOperand 1 with
  | Except.error e, _ => Except.error e
  | _, Except.error e => Except.error e
  | Except.ok Chain0, Except.ok JmpAddr =>
    match getCopyToReg Chain0 Reg.R31R30 JmpAddr with
    | Except.error e => Except.error e
    | Except.ok Chain =>
      let ResNode := getMachineNode AVR.Instr.IJMP [MVT.Other] [Chain]
      Except.ok (SelectResult.mk (some ResNode) [(SDValue.mk N 0, SDValue.mk ResNode 0)])

/-- The method `AVRDAGToDAGISel::Select`.  The generated matcher `SelectCode`
is the generic oracle and a parameter: it may return a node or none, replace
uses, or fail. -/
def Select (SelectCode : SDNode → Except Fatal SelectResult) (N : SDNode) :
    Except Fatal SelectResult :=
  -- If we have a custom node, we already have selected!
  if N.isMachineOpcode then
    Except.ok (SelectResult.mk none [])
  else
    match N.getOpcode with
    | Opcode.isd ISD.NodeType.FrameIndex => SelectFrameIndex N
    | Opcode.isd ISD.NodeType.STORE => SelectStore (SelectCode N) N
    | Opcode.isd ISD.NodeType.LOAD => SelectLoad (SelectCode N) N
    | Opcode.avrisd AVRISD.NodeType.CALL => SelectCall (SelectCode N) N
    | Opcode.isd ISD.NodeType.BRIND => SelectBrind N
    | _ => SelectCode N

/-! ## Machine-code emission -/

/-- A machine-code expression: a symbol reference, a constant, or a unary,
binary or target-specific expression over expressions. -/
inductive MCExpr where
  | Binary (Op : Nat) (LHS RHS : MCExpr)
  | Constant (Value : Int)
  | SymbolRef (Symbol : Nat)
  | Unary (Op : Nat) (Sub : MCExpr)
  | Target (Kind : Nat) (Sub : MCExpr)
  deriving DecidableEq, Repr

namespace MCExpr

/-- The expression kinds, as `MCExpr::getKind` returns them. -/
inductive ExprKind where
  | Binary | Constant | SymbolRef | Unary | Target
  deriving DecidableEq, Repr

def getKind : MCExpr → ExprKind
  | MCExpr.Binary _ _ _ => ExprKind.Binary
  | MCExpr.Constant _ => ExprKind.Constant
  | MCExpr.SymbolRef _ => ExprKind.SymbolRef
  | MCExpr.Unary _ _ => ExprKind.Unary
  | MCExpr.Target _ _ => ExprKind.Target

end MCExpr

/-- An instruction operand; a floating-point immediate is kept as the 64 bits
of the double. -/
inductive MCOperand where
  | kInvalid
  | kRegister (R : Reg)
  | kImmediate (Val : Int)
  | kFPImmediate (Bits : Nat)
  | kExpr (E : MCExpr)
  | kInst (Id : Nat)
  deriving DecidableEq, Repr

namespace MCOperand

def isReg : MCOperand → Bool
  | kRegister _ => true
  | _ => false

def isImm : MCOperand → Bool
  | kImmediate _ => true
  | _ => false

def isFPImm : MCOperand → Bool
  | kFPImmediate _ => true
  | _ => false

def isExpr : MCOperand → Bool
  | kExpr _ => true
  | _ => false

/-- The accessor `getReg`; it asserts that the operand is a register. -/
def getReg : MCOperand → Except Fatal Reg
  | kRegister R => Except.ok R
  | _ => Except.error Fatal.assertion

/-- The accessor `getImm`; it asserts that the operand is an immediate. -/
def getImm : MCOperand → Except Fatal Int
  | kImmediate V => Except.ok V
  | _ => Except.error Fatal.assertion

/-- The accessor `getExpr`; it asserts that the operand is an expression. -/
def getExpr : MCOperand → Except Fatal MCExpr
  | kExpr E => Except.ok E
  | _ => Except.error Fatal.assertion

end MCOperand

/-- A machine instruction: opcode number, operands, source location. -/
structure MCInst where
  Opcode : Nat
  Operands : List MCOperand
  Loc : Nat
  deriving DecidableEq, Repr

namespace MCInst

/-- The accessor `getOperand(i)`; an index past the end is an assertion
failure. -/
def getOperand (MI : MCInst) (i : Nat) : Except Fatal MCOperand :=
  match MI.Operands.get? i with
  | some MO => Except.ok MO
  | none => Except.error Fatal.operandOutOfRange

end MCInst

/-- A fixup record, with the fields `MCFixup::Create(Offset, Value, Kind,
Loc)` stores. -/
structure MCFixup where
  Offset : Nat
  Value : MCExpr
  Kind : AVR.Fixups
  Loc : Nat
  deriving DecidableEq, Repr

/-- The method `AVRMCCodeEmitter::getMemriEncoding`: the encoding of a pointer
register plus displacement operand, and the fixup vector afterwards. -/
def getMemriEncoding (MI : MCInst) (OpNo : Nat) (Fixups : List MCFixup) :
    Except Fatal (Nat × List MCFixup) :=
  match MI.getOperand OpNo, MI.getOperand (OpNo + 1) with
  | Except.error e, _ => Except.error e
  | _, Except.error e => Except.error e
  | Except.ok MO0, Except.ok MO1 =>
    -- the first operand should be the pointer register.
    if MO0.isReg = false then Except.error Fatal.assertion
    -- the second operand should be the displacement as an immediate value.
    else if MO1.isImm = false then Except.error Fatal.assertion
    else
      match MO1.getImm, MO0.getReg with
      | Except.error e, _ => Except.error e
      | _, Except.error e => Except.error e
      | Except.ok Imm, Except.ok R =>
        -- displacement bits, a uint8_t
        let disp_bits : Nat := (Imm % 256).toNat
        let enc (reg_bit : Nat) : Except Fatal (Nat × List MCFixup) :=
          Except.ok (((disp_bits <<< 1) ||| reg_bit) % 2 ^ 32, Fixups)
        match R with
        | Reg.R29R28 => enc 1  -- Y pointer register
        | Reg.R31R30 => enc 0  -- Z pointer register
        | Reg.R27R26 => Except.error Fatal.xPointerRegister
        | _ => Except.error Fatal.registerNotSupported

/-- The method `AVRMCCodeEmitter::getBreakTargetEncoding`: the encoded field
(an `unsigned`) and the fixup vector afterwards. -/
def getBreakTargetEncoding (MI : MCInst) (OpNo : Nat) (Fixups : List MCFixup) :
    Except Fatal (Nat × List MCFixup) :=
  match MI.getOperand OpNo with
  | Except.error e => Except.error e
  | Except.ok MO =>
    if MO.isExpr then
      match MO.getExpr with
      | Except.error e => Except.error e
      | Except.ok Expr =>
        let Kind := AVR.Fixups.fixup_brcond
        -- All of the information is in the fixup.
        Except.ok (0, Fixups ++ [MCFixup.mk 0 Expr Kind MI.Loc])
    else
      match MO.getImm with
      | Except.error e => Except.error e
      | Except.ok Imm => Except.ok (toUInt32 (Imm >>> (1 : Nat)), Fixups)

/-- The method `AVRMCCodeEmitter::getExprOpValue`. -/
def getExprOpValue (Expr : MCExpr) (Fixups : List MCFixup) :
    Except Fatal (Nat × List MCFixup) :=
  let Expr1 : MCExpr :=
    match Expr with
    | MCExpr.Binary _ LHS _ => LHS
    | E => E
  let Kind := Expr1.getKind
  if Kind ≠ MCExpr.ExprKind.SymbolRef then Except.error Fatal.assertion
  else
    -- All of the information is in the fixup.
    Except.ok (0, Fixups)

/-- The method `AVRMCCodeEmitter::getMachineOpValue`.  The encoding values of
the registers come from the generated register description and are a
parameter. -/
def getMachineOpValue (getEncodingValue : Reg → Nat) (_MI : MCInst) (MO : MCOperand)
    (Fixups : List MCFixup) : Except Fatal (Nat × List MCFixup) :=
  match MO with
  | MCOperand.kRegister R => Except.ok (getEncodingValue R % 2 ^ 32, Fixups)
  | MCOperand.kImmediate V => Except.ok (toUInt32 V, Fixups)
  | MCOperand.kFPImmediate Bits => Except.ok ((Bits / 2 ^ 32) % 2 ^ 32, Fixups)
  | MCOperand.kExpr E =>
    -- MO must be an Expr.
    getExprOpValue E Fixups
  | _ => Except.error Fatal.assertion

/-! ## Byte emission -/

/-- The emitter object; of its fields only the byte-order flag is read by the
functions below. -/
structure AVRMCCodeEmitter where
  IsLittleEndian : Bool
  deriving DecidableEq, Repr

/-- The function `createAVRMCCodeEmitter`: `new AVRMCCodeEmitter(MCII, Ctx,
false)`.  Modelled from the spec: the constructor is declared in the header,
outside the two files; its third argument is the value of the byte-order
flag. -/
def createAVRMCCodeEmitter : AVRMCCodeEmitter := AVRMCCodeEmitter.mk false

/-- The method `AVRMCCodeEmitter::EmitByte`: one byte is appended to the
stream. -/
def EmitByte (C : Nat) (OS : List Nat) : List Nat := OS ++ [C % 256]

/-- The method `AVRMCCodeEmitter::EmitInstruction`: the loop over `i` from 0
to `Size - 1`. -/
def EmitInstruction (E : AVRMCCodeEmitter) (Val Size : Nat) (OS : List Nat) : List Nat :=
  (List.range Size).foldl
    (fun (Out : List Nat) (i : Nat) =>
      let Shift := if !E.IsLittleEndian then i * 8 else (Size - 1 - i) * 8
      EmitByte ((Val >>> Shift) &&& 0xff) Out)
    OS

/-- The method `AVRMCCodeEmitter::EncodeInstruction`.  The generated function
`getBinaryCodeForInstr` and the size table of the instruction descriptions
are parameters; the binary code is a `uint32_t`.  The result is the output
stream and the fixup vector afterwards. -/
def EncodeInstruction (E : AVRMCCodeEmitter)
    (getBinaryCodeForInstr : MCInst → List MCFixup → Except Fatal (Nat × List MCFixup))
    (getSize : Nat → Nat) (MI : MCInst) (OS : List Nat) (Fixups : List MCFixup) :
    Except Fatal (List Nat × List MCFixup) :=
  match getBinaryCodeForInstr MI Fixups with
  | Except.error e => Except.error e
  | Except.ok (Code, Fixups1) =>
    let Binary := Code % 2 ^ 32
    -- Get byte count of instruction
    let Size := getSize MI.Opcode
    if Size = 0 then Except.error Fatal.sizeZero
    else Except.ok (EmitInstruction E Binary Size OS, Fixups1)

/-! ## Inline assembly memory operands -/

/-- Register classes: the class of the pointer registers that take a
displacement, and every other class. -/
inductive RegClass where
  | PTRDISPREGS
  | other (n : Nat)
  deriving DecidableEq, Repr

/-- The register information of the machine function.  The lookup
`getRegClass` is defined outside the two files: it is a field here and may
fail; `NumVirtRegs` is the number of virtual registers created so far. -/
structure MachineRegisterInfo where
  getRegClass : Reg → Except Fatal RegClass
  NumVirtRegs : Nat

/-- Modelled from the spec: `MachineRegisterInfo::createVirtualRegister` is
defined outside the two files; it returns a virtual register that was not in
use before, of the class asked for, and leaves the other registers as they
were. -/
def createVirtualRegister (RI : MachineRegisterInfo) (RC : RegClass) :
    Reg × MachineRegisterInfo :=
  (Reg.virt RI.NumVirtRegs,
   MachineRegisterInfo.mk
     (fun R => if R = Reg.virt RI.NumVirtRegs then Except.ok RC else RI.getRegClass R)
     (RI.NumVirtRegs + 1))

/-- The test `TargetRegisterInfo::isVirtualRegister`. -/
def isVirtualRegister : Reg → Bool
  | Reg.virt _ => true
  | _ => false

/-- Modelled from the spec: `SelectionDAG::getCopyFromReg(Chain, dl, Reg, VT)`
is defined outside the two files; the node reads the register after the chain
and has a value result and a chain result. -/
def getCopyFromReg (Chain : SDValue) (R : Reg) (VT : MVT) : SDValue :=
  SDValue.mk (SDNode.mk (Opcode.isd ISD.NodeType.CopyFromReg) [VT, MVT.Other]
    [Chain, getRegister R VT] NodeInfo.none) 0

/-- The end of `SelectInlineAsmMemoryOperand` (the more generic case): create
a chain that puts `Op` into a pointer register and return that register. -/
def SelectInlineAsmGeneric (RI : MachineRegisterInfo) (Op : SDValue) (OutOps : List SDValue) :
    Except Fatal (Bool × List SDValue × MachineRegisterInfo) :=
  let VReg := (createVirtualRegister RI RegClass.PTRDISPREGS).1
  let RI1 := (createVirtualRegister RI RegClass.PTRDISPREGS).2
  match getCopyToReg Op VReg Op with
  | Except.error e => Except.error e
  | Except.ok CopyToReg =>
    let CopyFromReg := getCopyFromReg CopyToReg VReg getPointerTy
    Except.ok (false, OutOps ++ [CopyFromReg], RI1)

/-- The body of the test `Op is ADD or SUB` of
`SelectInlineAsmMemoryOperand`.  A null `ImmNode` is dereferenced by the
second update of `CanHandleRegImmOpt`, which is a hard failure. -/
def SelectInlineAsmRegImm (PTRDISPREGS_contains : Reg → Bool) (RI : MachineRegisterInfo)
    (Op : SDValue) (OutOps : List SDValue) :
    Except Fatal (Bool × List SDValue × MachineRegisterInfo) :=
  match Op.getOperand 0, Op.getOperand 1 with
  | Except.error e, _ => Except.error e
  | _, Except.error e => Except.error e
  | Except.ok CopyFromRegOp, Except.ok ImmOp =>
    match dyn_cast_ConstantSDNode ImmOp.getNode with
    | none => Except.error Fatal.nullDereference
    | some ImmNode =>
      let Can0 : Bool := true && decide (ImmNode.getZExtValue < 64)
      let finish (CanHandleRegImmOpt : Bool) (R : Option Reg) :
          Except Fatal (Bool × List SDValue × MachineRegisterInfo) :=
        match CanHandleRegImmOpt, R with
        | true, some RegNo =>
          -- If we detect proper case - correct virtual register class
          -- if needed and go to another inlineasm operand.
          match RI.getRegClass RegNo with
          | Except.error e => Except.error e
          | Except.ok RC =>
            let BaseAndRI : Except Fatal (SDValue × MachineRegisterInfo) :=
              if RC ≠ RegClass.PTRDISPREGS then
                let VReg := (createVirtualRegister RI RegClass.PTRDISPREGS).1
                let RI1 := (createVirtualRegister RI RegClass.PTRDISPREGS).2
                match getCopyToReg CopyFromRegOp VReg CopyFromRegOp with
                | Except.error e => Except.error e
                | Except.ok CopyToReg =>
                  Except.ok (getCopyFromReg CopyToReg VReg getPointerTy, RI1)
              else Except.ok (CopyFromRegOp, RI)
            match BaseAndRI with
            | Except.error e => Except.error e
            | Except.ok (Base, RI2) =>
              match ImmOp.getNode.getValueType 0 with
              | Except.error e => Except.error e
              | Except.ok ImmVT =>
                let Disp := if ImmVT ≠ MVT.i8 then
                    getTargetConstant ImmNode.getZExtValue MVT.i8
                  else ImmOp
                Except.ok (false, OutOps ++ [Base, Disp], RI2)
        | _, _ => SelectInlineAsmGeneric RI Op OutOps
      if CopyFromRegOp.getOpcode = Opcode.isd ISD.NodeType.CopyFromReg then
        match CopyFromRegOp.getOperand 1 with
        | Except.error e => Except.error e
        | Except.ok RegOp =>
          match checkedCast (dyn_cast_RegisterSDNode RegOp.getNode) with
          | Except.error e => Except.error e
          | Except.ok RegNo =>
            finish (Can0 && (isVirtualRegister RegNo || PTRDISPREGS_contains RegNo))
              (some RegNo)
      else
        finish false none

/-- The method `AVRDAGToDAGISel::SelectInlineAsmMemoryOperand`.  The result is
the returned flag (`false` reports success), the vector `OutOps` and the
register information afterwards.  The membership test of the register class
`PTRDISPREGS` comes from the generated register description and is a
parameter, as is `isBaseWithConstantOffset` for `SelectAddr`. -/
def SelectInlineAsmMemoryOperand (PTRDISPREGS_contains : Reg → Bool)
    (isBaseWithConstantOffset : SDValue → Bool) (RI : MachineRegisterInfo)
    (Op : SDValue) (ConstraintCode : Char) (OutOps : List SDValue) :
    Except Fatal (Bool × List SDValue × MachineRegisterInfo) :=
  -- Yes hardcoded 'm' symbol.
  if ConstraintCode ≠ 'm' then Except.error Fatal.assertion
  else
    let rest : Except Fatal (Bool × List SDValue × MachineRegisterInfo) :=
      if Op.getOpcode = Opcode.isd ISD.NodeType.FrameIndex then
        match SelectAddr isBaseWithConstantOffset Op.getNode Op with
        | Except.error e => Except.error e
        | Except.ok (some (Base, Disp)) => Except.ok (false, OutOps ++ [Base, Disp], RI)
        | Except.ok none => Except.ok (true, OutOps, RI)
      -- If Op is add reg, imm and
      -- reg is either virtual register or register of PTRDISPREGSRegClass
      else if Op.getOpcode = Opcode.isd ISD.NodeType.ADD
          ∨ Op.getOpcode = Opcode.isd ISD.NodeType.SUB then
        SelectInlineAsmRegImm PTRDISPREGS_contains RI Op OutOps
      else
        SelectInlineAsmGeneric RI Op OutOps
    -- If address operand is of PTRDISPREGS class, all is OK, then.
    match dyn_cast_RegisterSDNode Op.getNode with
    | some RegNo =>
      match RI.getRegClass RegNo with
      | Except.error e => Except.error e
      | Except.ok RC =>
        if RC = RegClass.PTRDISPREGS then Except.ok (false, OutOps ++ [Op], RI)
        else rest
    | none => rest

/-! ## Expected nodes of the call lowering -/

/-- The register copy as the call lowering is specified: `CopyToReg(chain,
R31R30, callee)`, with a chain result and a glue result. -/
def expectedCallCopy (Chain Callee : SDValue) (CalleeVT : MVT) : SDNode :=
  SDNode.mk (Opcode.isd ISD.NodeType.CopyToReg) [MVT.Other, MVT.Glue]
    [Chain, getRegister Reg.R31R30 CalleeVT, Callee] NodeInfo.none

/-- The `ICALL` as the call lowering is specified: the operands are the
register R31R30, the arguments in their order, and the chain result and the
glue result of the copy; the results are a chain and a glue. -/
def expectedICALL (args : List SDValue) (Copy : SDNode) : SDNode :=
  SDNode.mk (Opcode.machine AVR.Instr.ICALL) [MVT.Other, MVT.Glue]
    ([getRegister Reg.R31R30 MVT.i16] ++ args ++ [SDValue.mk Copy 0, SDValue.mk Copy 1])
    (NodeInfo.memRefs [])

/-! ## Expected node of the stack-pointer store lowering -/

/-- The stack-pointer store as the lowering is specified: `STDWSPQRr` for a
16-bit stored value and `STDSPQRr` otherwise, with the operands stack-pointer
register, displacement (a 16-bit target constant), stored value and chain, a
chain result, and the memory reference of the store attached. -/
def expectedSPStore (SP : SDValue) (c : Int) (StoredVal Chain : SDValue) (StoredVT : MVT)
    (MMO : MachineMemOperand) : SDNode :=
  SDNode.mk
    (Opcode.machine (if StoredVT = MVT.i16 then AVR.Instr.STDWSPQRr else AVR.Instr.STDSPQRr))
    [MVT.Other] [SP, getTargetConstant c MVT.i16, StoredVal, Chain] (NodeInfo.memRefs [MMO])

/-! ## Expected nodes of the program-memory load lowering -/

/-- The copy of the load's base pointer into R31R30 as the lowering is
specified: `CopyToReg(chain, R31R30, pointer)` with a chain result and a glue
result. -/
def expectedProgMemCopy (Chain Ptr : SDValue) (PtrVT : MVT) : SDNode :=
  SDNode.mk (Opcode.isd ISD.NodeType.CopyToReg) [MVT.Other, MVT.Glue]
    [Chain, getRegister Reg.R31R30 PtrVT, Ptr] NodeInfo.none

/-- The read back of R31R30 as the lowering is specified: `CopyFromReg` after
the chain and the glue of the copy, with the results pointer (16 bits), chain
and glue. -/
def expectedProgMemRead (Copy : SDNode) : SDNode :=
  SDNode.mk (Opcode.isd ISD.NodeType.CopyFromReg) [MVT.i16, MVT.Other, MVT.Glue]
    [SDValue.mk Copy 0, getRegister Reg.R31R30 MVT.i16, SDValue.mk Copy 1] NodeInfo.none

/-- The program-memory load instruction of the given opcode and result types:
its operands are results 0 and 1 of the read back, and the memory reference
of the load is attached. -/
def expectedLPM (Opc : AVR.Instr) (VTs : List MVT) (Read : SDNode) (MMO : MachineMemOperand) :
    SDNode :=
  SDNode.mk (Opcode.machine Opc) VTs [SDValue.mk Read 0, SDValue.mk Read 1]
    (NodeInfo.memRefs [MMO])

/-! ## Sample inputs -/

/-- A pointer value read from a virtual register (a base that is not a frame
index). -/
def sampleBase : SDValue :=
  SDValue.mk (SDNode.mk (Opcode.isd ISD.NodeType.CopyFromReg) [MVT.i16, MVT.Other]
    [SDValue.mk (SDNode.mk (Opcode.isd (ISD.NodeType.other 0)) [MVT.Other] [] NodeInfo.none) 0,
     getRegister (Reg.virt 0) MVT.i16] NodeInfo.none) 0

/-- A 16-bit constant node. -/
def sampleConst (v : Int) : SDValue :=
  SDValue.mk (SDNode.mk (Opcode.isd ISD.NodeType.Constant) [MVT.i16] []
    (NodeInfo.constant (APInt.mk 16 v))) 0

/-- A frame index node. -/
def sampleFrameIndex (FI : Int) : SDValue :=
  SDValue.mk (SDNode.mk (Opcode.isd ISD.NodeType.FrameIndex) [MVT.i16] []
    (NodeInfo.frameIndex FI)) 0

/-- The entry token, a chain. -/
def sampleChain : SDValue :=
  SDValue.mk (SDNode.mk (Opcode.isd (ISD.NodeType.other 0)) [MVT.Other] [] NodeInfo.none) 0

/-- The memory fields of an unindexed, non-extending access of the given
width to data memory. -/
def sampleMem (VT : MVT) : MemInfo :=
  MemInfo.mk VT ISD.MemIndexedMode.UNINDEXED ISD.LoadExtType.NON_EXTLOAD
    (MachineMemOperand.mk (some (IRType.pointer 0)) 0)

/-- A load of the given width from the given address. -/
def sampleLoad (VT : MVT) (Addr : SDValue) : SDNode :=
  SDNode.mk (Opcode.isd ISD.NodeType.LOAD) [VT, MVT.Other]
    [sampleChain, Addr,
     SDValue.mk (SDNode.mk (Opcode.isd ISD.NodeType.UNDEF) [MVT.i16] [] NodeInfo.none) 0]
    (NodeInfo.mem (sampleMem VT))

/-- The 16-bit sum of two values. -/
def sampleAdd (a b : SDValue) : SDValue :=
  SDValue.mk (SDNode.mk (Opcode.isd ISD.NodeType.ADD) [MVT.i16] [a, b] NodeInfo.none) 0

/-- The 16-bit difference of two values. -/
def sampleSub (a b : SDValue) : SDValue :=
  SDValue.mk (SDNode.mk (Opcode.isd ISD.NodeType.SUB) [MVT.i16] [a, b] NodeInfo.none) 0

/-- An argument register operand of a call. -/
def sampleArg : SDValue := getRegister (Reg.physical 24) MVT.i8

/-- The glue result of a copy into an argument register. -/
def sampleGlue : SDValue :=
  SDValue.mk (SDNode.mk (Opcode.isd ISD.NodeType.CopyToReg) [MVT.Other, MVT.Glue]
    [sampleChain, getRegister (Reg.physical 24) MVT.i8, sampleConst 7] NodeInfo.none) 1

/-- An indirect call through `sampleBase` with one argument register and an
incoming glue. -/
def sampleIndirectCall : SDNode :=
  SDNode.mk (Opcode.avrisd AVRISD.NodeType.CALL) [MVT.Other, MVT.Glue]
    ([sampleChain, sampleBase] ++ [sampleArg] ++ (some sampleGlue).toList) NodeInfo.none

/-- An oracle that matches nothing. -/
def sampleOracle : SDNode → Except Fatal SelectResult :=
  fun _ => Except.error Fatal.cannotSelect

/-- The stack-pointer register as an operand. -/
def sampleSP : SDValue := getRegister Reg.SP MVT.i16

/-- An 8-bit value read from a virtual register. -/
def sampleVal8 : SDValue :=
  SDValue.mk (SDNode.mk (Opcode.isd ISD.NodeType.CopyFromReg) [MVT.i8, MVT.Other]
    [sampleChain, getRegister (Reg.virt 1) MVT.i8] NodeInfo.none) 0

/-- An 8-bit constant node. -/
def sampleConst8 (v : Int) : SDValue :=
  SDValue.mk (SDNode.mk (Opcode.isd ISD.NodeType.Constant) [MVT.i8] []
    (NodeInfo.constant (APInt.mk 8 v))) 0

/-- An undefined 16-bit value, a node without operands. -/
def sampleUndef : SDValue :=
  SDValue.mk (SDNode.mk (Opcode.isd ISD.NodeType.UNDEF) [MVT.i16] [] NodeInfo.none) 0

/-- An unindexed store of the given value to the given address in data
memory. -/
def sampleStore (Val Addr : SDValue) : SDNode :=
  SDNode.mk (Opcode.isd ISD.NodeType.STORE) [MVT.Other]
    [sampleChain, Val, Addr, sampleUndef] (NodeInfo.mem (sampleMem MVT.i8))

/-- The memory fields of a non-extending access of the given width and
addressing mode to program memory (address space 1). -/
def sampleProgMem (VT : MVT) (AM : ISD.MemIndexedMode) : MemInfo :=
  MemInfo.mk VT AM ISD.LoadExtType.NON_EXTLOAD
    (MachineMemOperand.mk (some (IRType.pointer 1)) 1)

/-- An unindexed load of the given width from program memory, through the
pointer `sampleBase`; its results are the loaded value and the chain. -/
def sampleProgMemLoad (VT : MVT) : SDNode :=
  SDNode.mk (Opcode.isd ISD.NodeType.LOAD) [VT, MVT.Other]
    [sampleChain, sampleBase, sampleUndef]
    (NodeInfo.mem (sampleProgMem VT ISD.MemIndexedMode.UNINDEXED))

/-- The membership test of the class of the pointer registers Y and Z. -/
def samplePtrDispRegs : Reg → Bool :=
  fun R => decide (R = Reg.R29R28 ∨ R = Reg.R31R30)

/-- A register information with the two virtual registers of the samples,
both of a class other than `PTRDISPREGS`.  It holds no class for any other
register: `MachineRegisterInfo::getRegClass` is the lookup of the class of a
virtual register. -/
def sampleRegInfo : MachineRegisterInfo :=
  MachineRegisterInfo.mk
    (fun R => match R with
      | Reg.virt 0 => Except.ok (RegClass.other 0)
      | Reg.virt 1 => Except.ok (RegClass.other 1)
      | _ => Except.error Fatal.assertion)
    2

/-- A pointer value read from a physical pointer register (Y is `R29R28`, Z is
`R31R30`). -/
def samplePhysBase (R : Reg) : SDValue :=
  SDValue.mk (SDNode.mk (Opcode.isd ISD.NodeType.CopyFromReg) [MVT.i16, MVT.Other]
    [sampleChain, getRegister R MVT.i16] NodeInfo.none) 0

/-- The base that the promotion of `sampleBase` produces: the read of the
fresh virtual register 2 after the copy of `sampleBase` into it. -/
def samplePromotedBase : SDValue :=
  getCopyFromReg
    (SDValue.mk (SDNode.mk (Opcode.isd ISD.NodeType.CopyToReg) [MVT.Other]
      [sampleBase, getRegister (Reg.virt 2) MVT.i16, sampleBase] NodeInfo.none) 0)
    (Reg.virt 2) MVT.i16

/-! ## The address an operand denotes -/

/-- The 16-bit value that a node denotes, as the preservation of the address
by the inline-operand promotion is worded: a constant denotes its
zero-extended value, an ADD the sum and a SUB the difference of its two
operands modulo 2^16, and a read of register `R` denotes the value that the
copy it is chained to has put into `R`, or else the content `regs R` the
register had before.  The recursion is by fuel; any other node denotes
nothing. -/
def denotedValue (regs : Reg → Nat) : Nat → SDValue → Option Nat
  | 0, _ => none
  | fuel + 1, V =>
    match V.getOpcode, V.getNode.getOps, V.getNode.getInfo with
    | Opcode.isd ISD.NodeType.Constant, _, NodeInfo.constant v =>
      some (v.getZExtValue.toNat % 2 ^ 16)
    | Opcode.isd ISD.NodeType.TargetConstant, _, NodeInfo.constant v =>
      some (v.getZExtValue.toNat % 2 ^ 16)
    | Opcode.isd ISD.NodeType.ADD, [a, b], _ =>
      match denotedValue regs fuel a, denotedValue regs fuel b with
      | some x, some y => some ((x + y) % 2 ^ 16)
      | _, _ => none
    | Opcode.isd ISD.NodeType.SUB, [a, b], _ =>
      match denotedValue regs fuel a, denotedValue regs fuel b with
      | some x, some y => some ((x + 2 ^ 16 - y) % 2 ^ 16)
      | _, _ => none
    | Opcode.isd ISD.NodeType.CopyFromReg, Chain :: RegOp :: _, _ =>
      match dyn_cast_RegisterSDNode RegOp.getNode with
      | none => none
      | some R =>
        match Chain.getOpcode, Chain.getNode.getOps with
        | Opcode.isd ISD.NodeType.CopyToReg, [_, DstOp, Src] =>
          if dyn_cast_RegisterSDNode DstOp.getNode = some R then denotedValue regs fuel Src
          else some (regs R % 2 ^ 16)
        | _, _ => some (regs R % 2 ^ 16)
    | _, _, _ => none

/-- The address that a pair (base, displacement) denotes: the value of the
base plus the value of the displacement, modulo 2^16. -/
def denotedAddress (regs : Reg → Nat) (fuel : Nat) (Base Disp : SDValue) : Option Nat :=
  match denotedValue regs fuel Base, denotedValue regs fuel Disp with
  | some b, some d => some ((b + d) % 2 ^ 16)
  | _, _ => none

/-! ## Basic lemmas -/

theorem List.get?_append_cons_length {α : Type} (pre : List α) (a : α) (rest : List α) :
    (pre ++ a :: rest).get? pre.length = some a := by
  induction pre with
  | nil => rfl
  | cons x xs ih => simpa using ih

theorem List.get?_append_cons_length_succ {α : Type} (pre : List α) (a b : α)
    (rest : List α) : (pre ++ a :: b :: rest).get? (pre.length + 1) = some b := by
  induction pre with
  | nil => rfl
  | cons x xs ih => simpa using ih

@[simp] theorem SDValue.getNode_mk (n : SDNode) (r : Nat) : (SDValue.mk n r).getNode = n := rfl

@[simp] theorem SDValue.getResNo_mk (n : SDNode) (r : Nat) : (SDValue.mk n r).getResNo = r := rfl

@[simp] theorem SDNode.getOpcode_mk (o : Opcode) (vts : List MVT) (ops : List SDValue)
    (info : NodeInfo) : (SDNode.mk o vts ops info).getOpcode = o := rfl

@[simp] theorem SDNode.getOps_mk (o : Opcode) (vts : List MVT) (ops : List SDValue)
    (info : NodeInfo) : (SDNode.mk o vts ops info).getOps = ops := rfl

@[simp] theorem SDNode.getVTs_mk (o : Opcode) (vts : List MVT) (ops : List SDValue)
    (info : NodeInfo) : (SDNode.mk o vts ops info).getVTs = vts := rfl

theorem toInt32_range (z : Int) : -2 ^ 31 ≤ toInt32 z ∧ toInt32 z < 2 ^ 31 := by
  unfold toInt32
  have h1 : 0 ≤ z % 2 ^ 32 := Int.emod_nonneg _ (by norm_num)
  have h2 : z % 2 ^ 32 < 2 ^ 32 := Int.emod_lt_of_pos _ (by norm_num)
  simp only
  split <;> constructor <;> omega

theorem isUInt_six_toUInt64 (d : Int) (hlo : -2 ^ 63 ≤ d) (hhi : d < 2 ^ 63) :
    isUInt 6 (toUInt64 d) = true ↔ 0 ≤ d ∧ d ≤ 63 := by
  simp only [isUInt, toUInt64, Bool.or_eq_true, decide_eq_true_eq]
  have h1 : 0 ≤ d % 2 ^ 64 := Int.emod_nonneg _ (by norm_num)
  have h2 : d % 2 ^ 64 < 2 ^ 64 := Int.emod_lt_of_pos _ (by norm_num)
  constructor
  · rintro (h | h)
    · omega
    · have : d % 2 ^ 64 < 64 := by
        have := (Int.toNat_lt h1).mp h
        simpa using this
      omega
  · rintro ⟨h3, h4⟩
    right
    have : d % 2 ^ 64 = d := Int.emod_eq_of_lt h3 (by omega)
    rw [this]
    have : d.toNat < 64 := by omega
    simpa using this

/-! ## Address selection: properties -/

/-- C1: for a memory operation of memory type i8 (resp. i16) and an address
that is an ADD of a base that is not a frame index and a constant whose value
read as an `int` is `d`, `SelectAddr` succeeds exactly when `0 ≤ d ≤ 63`
(resp. `0 ≤ d ≤ 62`); on success `Base` is the first operand of the ADD and
`Disp` is the target constant `d` of type i8, and otherwise the result is
`false`. -/
theorem SelectAddr_add_reg_const (isBaseWithConstantOffset : SDValue → Bool)
    (Op : SDNode) (M : MemInfo) (vts : List MVT) (Base CstV : SDValue) (C : APInt)
    (info : NodeInfo) (r : Nat)
    (hOp : dyn_cast_MemSDNode Op = some M)
    (hC : dyn_cast_ConstantSDNode CstV.getNode = some C)
    (hBase : Base.getOpcode ≠ Opcode.isd ISD.NodeType.FrameIndex) :
    (M.MemoryVT = MVT.i8 →
      SelectAddr isBaseWithConstantOffset Op
          (SDValue.mk (SDNode.mk (Opcode.isd ISD.NodeType.ADD) vts [Base, CstV] info) r)
        = Except.ok (if 0 ≤ toInt32 C.getZExtValue ∧ toInt32 C.getZExtValue ≤ 63
            then some (Base, getTargetConstant (toInt32 C.getZExtValue) MVT.i8) else none))
    ∧ (M.MemoryVT = MVT.i16 →
      SelectAddr isBaseWithConstantOffset Op
          (SDValue.mk (SDNode.mk (Opcode.isd ISD.NodeType.ADD) vts [Base, CstV] info) r)
        = Except.ok (if 0 ≤ toInt32 C.getZExtValue ∧ toInt32 C.getZExtValue ≤ 62
            then some (Base, getTargetConstant (toInt32 C.getZExtValue) MVT.i8) else none)) := by
  have hN : dyn_cast_FrameIndexSDNode
      (SDNode.mk (Opcode.isd ISD.NodeType.ADD) vts [Base, CstV] info) = none := by
    simp [dyn_cast_FrameIndexSDNode]
  have hr := toInt32_range C.getZExtValue
  have hu := isUInt_six_toUInt64 (toInt32 C.getZExtValue) (by omega) (by omega)
  have hBase1 : Base.getNode.getOpcode ≠ Opcode.isd ISD.NodeType.FrameIndex := hBase
  constructor
  · intro hVT
    simp [SelectAddr, hN, SDValue.getOpcode, SDValue.getOperand, SDNode.getOperand, hC, hBase1,
      checkedCast, hOp, hVT, hu]
    split_ifs <;> rfl
  · intro hVT
    have h62 : toInt32 C.getZExtValue < 63 ↔ toInt32 C.getZExtValue ≤ 62 := by omega
    simp [SelectAddr, hN, SDValue.getOpcode, SDValue.getOperand, SDNode.getOperand, hC, hBase1,
      checkedCast, hOp, hVT, h62]
    split_ifs <;> rfl

/-- The instance of C1 at displacement 63: it resolves for an 8-bit load and
does not for a 16-bit load. -/
theorem SelectAddr_add_reg_const_witness :
    SelectAddr (fun _ => false) (sampleLoad MVT.i8 (sampleAdd sampleBase (sampleConst 63)))
        (sampleAdd sampleBase (sampleConst 63))
      = Except.ok (some (sampleBase, getTargetConstant 63 MVT.i8))
    ∧ SelectAddr (fun _ => false) (sampleLoad MVT.i16 (sampleAdd sampleBase (sampleConst 63)))
        (sampleAdd sampleBase (sampleConst 63))
      = Except.ok none :=
  ⟨(SelectAddr_add_reg_const (fun _ => false)
      (sampleLoad MVT.i8 (sampleAdd sampleBase (sampleConst 63))) (sampleMem MVT.i8)
      [MVT.i16] sampleBase (sampleConst 63) (APInt.mk 16 63) NodeInfo.none 0 rfl rfl
      (by decide)).1 rfl,
   (SelectAddr_add_reg_const (fun _ => false)
      (sampleLoad MVT.i16 (sampleAdd sampleBase (sampleConst 63))) (sampleMem MVT.i16)
      [MVT.i16] sampleBase (sampleConst 63) (APInt.mk 16 63) NodeInfo.none 0 rfl rfl
      (by decide)).2 rfl⟩

/-- C2: a bare frame index resolves to (target frame index, 0); an ADD of a
frame index and a constant `c` resolves to (target frame index, `c`) and a SUB
to (target frame index, `-c`), whatever the memory operation and however large
`c` is; an ADD of a base that is not a frame index and the constant 1000 does
not resolve. -/
theorem SelectAddr_frame_index_unbounded (isBaseWithConstantOffset : SDValue → Bool)
    (Op : SDNode) (F CstV : SDValue) (FI : Int) (C : APInt)
    (hF : F.getOpcode = Opcode.isd ISD.NodeType.FrameIndex)
    (hFI : dyn_cast_FrameIndexSDNode F.getNode = some FI)
    (hC : dyn_cast_ConstantSDNode CstV.getNode = some C) :
    SelectAddr isBaseWithConstantOffset Op F
        = Except.ok (some (getTargetFrameIndex FI getPointerTy, getTargetConstant 0 MVT.i8))
    ∧ (∀ (vts : List MVT) (info : NodeInfo) (r : Nat),
        SelectAddr isBaseWithConstantOffset Op
            (SDValue.mk (SDNode.mk (Opcode.isd ISD.NodeType.ADD) vts [F, CstV] info) r)
          = Except.ok (some (getTargetFrameIndex FI getPointerTy,
              getTargetConstant (toInt32 C.getZExtValue) MVT.i16)))
    ∧ (∀ (vts : List MVT) (info : NodeInfo) (r : Nat),
        SelectAddr isBaseWithConstantOffset Op
            (SDValue.mk (SDNode.mk (Opcode.isd ISD.NodeType.SUB) vts [F, CstV] info) r)
          = Except.ok (some (getTargetFrameIndex FI getPointerTy,
              getTargetConstant (-(toInt32 C.getZExtValue)) MVT.i16)))
    ∧ (∀ (vts : List MVT) (info : NodeInfo) (r : Nat) (Base : SDValue) (M : MemInfo),
        Base.getOpcode ≠ Opcode.isd ISD.NodeType.FrameIndex →
        dyn_cast_MemSDNode Op = some M →
        toInt32 C.getZExtValue = 1000 →
        SelectAddr isBaseWithConstantOffset Op
            (SDValue.mk (SDNode.mk (Opcode.isd ISD.NodeType.ADD) vts [Base, CstV] info) r)
          = Except.ok none) := by
  have hF1 : F.getNode.getOpcode = Opcode.isd ISD.NodeType.FrameIndex := hF
  have hAdd : ∀ (vts : List MVT) (ops : List SDValue) (info : NodeInfo),
      dyn_cast_FrameIndexSDNode (SDNode.mk (Opcode.isd ISD.NodeType.ADD) vts ops info)
        = none := fun _ _ _ => rfl
  have hSub : ∀ (vts : List MVT) (ops : List SDValue) (info : NodeInfo),
      dyn_cast_FrameIndexSDNode (SDNode.mk (Opcode.isd ISD.NodeType.SUB) vts ops info)
        = none := fun _ _ _ => rfl
  refine ⟨?_, ?_, ?_, ?_⟩
  · simp [SelectAddr, hFI]
  · intro vts info r
    simp [SelectAddr, hAdd, SDValue.getOpcode, SDValue.getOperand,
      SDNode.getOperand, hC, hF1, hFI, checkedCast]
  · intro vts info r
    simp [SelectAddr, hSub, SDValue.getOpcode, SDValue.getOperand,
      SDNode.getOperand, hC, hF1, hFI, checkedCast]
  · intro vts info r Base M hBase hOp hd
    have hBase1 : Base.getNode.getOpcode ≠ Opcode.isd ISD.NodeType.FrameIndex := hBase
    have hu : isUInt 6 (toUInt64 1000) = false := by decide
    simp [SelectAddr, hAdd, SDValue.getOpcode, SDValue.getOperand,
      SDNode.getOperand, hC, hBase1, checkedCast, hOp, hd, hu]

/-- The instance of C2 at frame index 3 and the constant 1000. -/
theorem SelectAddr_frame_index_unbounded_witness :
    SelectAddr (fun _ => false) (sampleLoad MVT.i8 (sampleFrameIndex 3)) (sampleFrameIndex 3)
        = Except.ok (some (getTargetFrameIndex 3 MVT.i16, getTargetConstant 0 MVT.i8))
    ∧ SelectAddr (fun _ => false) (sampleLoad MVT.i8 (sampleFrameIndex 3))
          (sampleAdd (sampleFrameIndex 3) (sampleConst 1000))
        = Except.ok (some (getTargetFrameIndex 3 MVT.i16, getTargetConstant 1000 MVT.i16))
    ∧ SelectAddr (fun _ => false) (sampleLoad MVT.i8 (sampleFrameIndex 3))
          (sampleSub (sampleFrameIndex 3) (sampleConst 1000))
        = Except.ok (some (getTargetFrameIndex 3 MVT.i16, getTargetConstant (-1000) MVT.i16))
    ∧ SelectAddr (fun _ => false) (sampleLoad MVT.i8 (sampleFrameIndex 3))
          (sampleAdd sampleBase (sampleConst 1000))
        = Except.ok none :=
  have h := SelectAddr_frame_index_unbounded (fun _ => false)
    (sampleLoad MVT.i8 (sampleFrameIndex 3)) (sampleFrameIndex 3) (sampleConst 1000) 3
    (APInt.mk 16 1000) rfl rfl rfl
  ⟨h.1, h.2.1 [MVT.i16] NodeInfo.none 0, h.2.2.1 [MVT.i16] NodeInfo.none 0,
   h.2.2.2 [MVT.i16] NodeInfo.none 0 sampleBase (sampleMem MVT.i8) (by decide) rfl rfl⟩

/-! ## Indexed loads: properties -/

set_option maxHeartbeats 1000000 in
theorem SelectIndexedLoad_some_iff (vts : List MVT) (Chain BasePtr Offset : SDValue)
    (m : MemInfo) :
    (∀ R : SDNode,
      SelectIndexedLoad
          (SDNode.mk (Opcode.isd ISD.NodeType.LOAD) vts [Chain, BasePtr, Offset] (NodeInfo.mem m))
        = Except.ok (some R)
      ↔ m.ExtType = ISD.LoadExtType.NON_EXTLOAD
        ∧ ∃ C : APInt, dyn_cast_ConstantSDNode Offset.getNode = some C
          ∧ ((m.AM = ISD.MemIndexedMode.POST_INC ∧ m.MemoryVT = MVT.i8
                ∧ toInt32 C.getSExtValue = 1
                ∧ R = getMachineNode AVR.Instr.LDRdPtrPi [MVT.i8, MVT.i16, MVT.Other]
                      [BasePtr, Chain])
            ∨ (m.AM = ISD.MemIndexedMode.POST_INC ∧ m.MemoryVT = MVT.i16
                ∧ toInt32 C.getSExtValue = 2
                ∧ R = getMachineNode AVR.Instr.LDWRdPtrPi [MVT.i16, MVT.i16, MVT.Other]
                      [BasePtr, Chain])
            ∨ (m.AM = ISD.MemIndexedMode.PRE_DEC ∧ m.MemoryVT = MVT.i8
                ∧ toInt32 C.getSExtValue = -1
                ∧ R = getMachineNode AVR.Instr.LDRdPtrPd [MVT.i8, MVT.i16, MVT.Other]
                      [BasePtr, Chain])
            ∨ (m.AM = ISD.MemIndexedMode.PRE_DEC ∧ m.MemoryVT = MVT.i16
                ∧ toInt32 C.getSExtValue = -2
                ∧ R = getMachineNode AVR.Instr.LDWRdPtrPd [MVT.i16, MVT.i16, MVT.Other]
                      [BasePtr, Chain]))) := by
  obtain ⟨VT, AM, Ext, MMO⟩ := m
  intro R
  rcases hO : dyn_cast_ConstantSDNode Offset.getNode with _ | C
  · cases Ext <;> cases AM <;>
      simp [SelectIndexedLoad, dyn_cast_LoadSDNode, checkedCast, SDNode.getOperand, hO]
  · generalize ho : toInt32 C.getSExtValue = o
    simp only [SelectIndexedLoad, dyn_cast_LoadSDNode, checkedCast, SDNode.getOperand,
      SDNode.getOps_mk, hO, List.get?, Option.some.injEq, exists_eq_left', ho, getPointerTy]
    cases Ext <;> cases AM <;> cases VT <;> simp <;>
      split_ifs with h <;> simp [h, eq_comm]

set_option maxHeartbeats 1000000 in
theorem SelectIndexedLoad_none_iff (vts : List MVT) (Chain BasePtr Offset : SDValue)
    (m : MemInfo) :
    (SelectIndexedLoad
          (SDNode.mk (Opcode.isd ISD.NodeType.LOAD) vts [Chain, BasePtr, Offset] (NodeInfo.mem m))
        = Except.ok none
      ↔ m.ExtType ≠ ISD.LoadExtType.NON_EXTLOAD
        ∨ (m.AM ≠ ISD.MemIndexedMode.POST_INC ∧ m.AM ≠ ISD.MemIndexedMode.PRE_DEC)
        ∨ ∃ C : APInt, dyn_cast_ConstantSDNode Offset.getNode = some C
          ∧ ¬ ((m.AM = ISD.MemIndexedMode.POST_INC ∧ m.MemoryVT = MVT.i8
                  ∧ toInt32 C.getSExtValue = 1)
              ∨ (m.AM = ISD.MemIndexedMode.POST_INC ∧ m.MemoryVT = MVT.i16
                  ∧ toInt32 C.getSExtValue = 2)
              ∨ (m.AM = ISD.MemIndexedMode.PRE_DEC ∧ m.MemoryVT = MVT.i8
                  ∧ toInt32 C.getSExtValue = -1)
              ∨ (m.AM = ISD.MemIndexedMode.PRE_DEC ∧ m.MemoryVT = MVT.i16
                  ∧ toInt32 C.getSExtValue = -2))) := by
  obtain ⟨VT, AM, Ext, MMO⟩ := m
  rcases hO : dyn_cast_ConstantSDNode Offset.getNode with _ | C
  · cases Ext <;> cases AM <;>
      simp [SelectIndexedLoad, dyn_cast_LoadSDNode, checkedCast, SDNode.getOperand, hO]
  · generalize ho : toInt32 C.getSExtValue = o
    simp only [SelectIndexedLoad, dyn_cast_LoadSDNode, checkedCast, SDNode.getOperand,
      SDNode.getOps_mk, hO, List.get?, Option.some.injEq, exists_eq_left', ho, getPointerTy]
    cases Ext <;> cases AM <;> cases VT <;> simp

/-- C3: for every load node, `SelectIndexedLoad` returns an instruction exactly
when the load is non-extending and (mode, memory type, offset read as an
`int`) is one of (POST_INC, i8, 1), (POST_INC, i16, 2), (PRE_DEC, i8, -1),
(PRE_DEC, i16, -2); the instruction then has the opcode `LDRdPtrPi`,
`LDWRdPtrPi`, `LDRdPtrPd`, `LDWRdPtrPd` respectively, the operands (base
pointer, chain) of the load and the results (loaded value, pointer, chain).
It returns no match exactly when the load is extending, or its mode is
neither POST_INC nor PRE_DEC, or its constant offset is not the exact one. -/
theorem SelectIndexedLoad_exact_width (vts : List MVT) (Chain BasePtr Offset : SDValue)
    (m : MemInfo) :
    (∀ R : SDNode,
      SelectIndexedLoad
          (SDNode.mk (Opcode.isd ISD.NodeType.LOAD) vts [Chain, BasePtr, Offset] (NodeInfo.mem m))
        = Except.ok (some R)
      ↔ m.ExtType = ISD.LoadExtType.NON_EXTLOAD
        ∧ ∃ C : APInt, dyn_cast_ConstantSDNode Offset.getNode = some C
          ∧ ((m.AM = ISD.MemIndexedMode.POST_INC ∧ m.MemoryVT = MVT.i8
                ∧ toInt32 C.getSExtValue = 1
                ∧ R = getMachineNode AVR.Instr.LDRdPtrPi [MVT.i8, MVT.i16, MVT.Other]
                      [BasePtr, Chain])
            ∨ (m.AM = ISD.MemIndexedMode.POST_INC ∧ m.MemoryVT = MVT.i16
                ∧ toInt32 C.getSExtValue = 2
                ∧ R = getMachineNode AVR.Instr.LDWRdPtrPi [MVT.i16, MVT.i16, MVT.Other]
                      [BasePtr, Chain])
            ∨ (m.AM = ISD.MemIndexedMode.PRE_DEC ∧ m.MemoryVT = MVT.i8
                ∧ toInt32 C.getSExtValue = -1
                ∧ R = getMachineNode AVR.Instr.LDRdPtrPd [MVT.i8, MVT.i16, MVT.Other]
                      [BasePtr, Chain])
            ∨ (m.AM = ISD.MemIndexedMode.PRE_DEC ∧ m.MemoryVT = MVT.i16
                ∧ toInt32 C.getSExtValue = -2
                ∧ R = getMachineNode AVR.Instr.LDWRdPtrPd [MVT.i16, MVT.i16, MVT.Other]
                      [BasePtr, Chain])))
    ∧ (SelectIndexedLoad
          (SDNode.mk (Opcode.isd ISD.NodeType.LOAD) vts [Chain, BasePtr, Offset] (NodeInfo.mem m))
        = Except.ok none
      ↔ m.ExtType ≠ ISD.LoadExtType.NON_EXTLOAD
        ∨ (m.AM ≠ ISD.MemIndexedMode.POST_INC ∧ m.AM ≠ ISD.MemIndexedMode.PRE_DEC)
        ∨ ∃ C : APInt, dyn_cast_ConstantSDNode Offset.getNode = some C
          ∧ ¬ ((m.AM = ISD.MemIndexedMode.POST_INC ∧ m.MemoryVT = MVT.i8
                  ∧ toInt32 C.getSExtValue = 1)
              ∨ (m.AM = ISD.MemIndexedMode.POST_INC ∧ m.MemoryVT = MVT.i16
                  ∧ toInt32 C.getSExtValue = 2)
              ∨ (m.AM = ISD.MemIndexedMode.PRE_DEC ∧ m.MemoryVT = MVT.i8
                  ∧ toInt32 C.getSExtValue = -1)
              ∨ (m.AM = ISD.MemIndexedMode.PRE_DEC ∧ m.MemoryVT = MVT.i16
                  ∧ toInt32 C.getSExtValue = -2))) :=
  ⟨SelectIndexedLoad_some_iff vts Chain BasePtr Offset m,
   SelectIndexedLoad_none_iff vts Chain BasePtr Offset m⟩

/-- An 8-bit post-increment load with step 1 is matched, the same load with
step 2 is not. -/
theorem SelectIndexedLoad_post_inc_i8_steps :
    SelectIndexedLoad
        (SDNode.mk (Opcode.isd ISD.NodeType.LOAD) [MVT.i8, MVT.i16, MVT.Other]
          [sampleChain, sampleBase, sampleConst 1]
          (NodeInfo.mem (MemInfo.mk MVT.i8 ISD.MemIndexedMode.POST_INC
            ISD.LoadExtType.NON_EXTLOAD (MachineMemOperand.mk none 0))))
      = Except.ok (some (getMachineNode AVR.Instr.LDRdPtrPi [MVT.i8, MVT.i16, MVT.Other]
          [sampleBase, sampleChain]))
    ∧ SelectIndexedLoad
        (SDNode.mk (Opcode.isd ISD.NodeType.LOAD) [MVT.i8, MVT.i16, MVT.Other]
          [sampleChain, sampleBase, sampleConst 2]
          (NodeInfo.mem (MemInfo.mk MVT.i8 ISD.MemIndexedMode.POST_INC
            ISD.LoadExtType.NON_EXTLOAD (MachineMemOperand.mk none 0))))
      = Except.ok none :=
  ⟨rfl, rfl⟩

/-- C4: `SelectIndexedProgMemLoad` never matches pre-decrement: whatever the
load's extension kind, type and offset operand, a PRE_DEC load gives 0 (no
opcode); and it gives an opcode exactly when the load is non-extending, the
mode is POST_INC and (type, offset read as an `int`) is (i8, 1), giving
`LPMRdZPi`, or (i16, 2), giving `LPMWRdZPi`. -/
theorem SelectIndexedProgMemLoad_post_inc_only (vts : List MVT)
    (Chain BasePtr Offset : SDValue) (memVT VT : MVT) (AM : ISD.MemIndexedMode)
    (Ext : ISD.LoadExtType) (MMO : MachineMemOperand) :
    SelectIndexedProgMemLoad
        (SDNode.mk (Opcode.isd ISD.NodeType.LOAD) vts [Chain, BasePtr, Offset]
          (NodeInfo.mem (MemInfo.mk memVT ISD.MemIndexedMode.PRE_DEC Ext MMO))) VT
      = Except.ok none
    ∧ (∀ Opc : AVR.Instr,
        SelectIndexedProgMemLoad
            (SDNode.mk (Opcode.isd ISD.NodeType.LOAD) vts [Chain, BasePtr, Offset]
              (NodeInfo.mem (MemInfo.mk memVT AM Ext MMO))) VT
          = Except.ok (some Opc)
        ↔ Ext = ISD.LoadExtType.NON_EXTLOAD ∧ AM = ISD.MemIndexedMode.POST_INC
          ∧ ∃ C : APInt, dyn_cast_ConstantSDNode Offset.getNode = some C
            ∧ ((VT = MVT.i8 ∧ toInt32 C.getSExtValue = 1 ∧ Opc = AVR.Instr.LPMRdZPi)
              ∨ (VT = MVT.i16 ∧ toInt32 C.getSExtValue = 2
                  ∧ Opc = AVR.Instr.LPMWRdZPi))) := by
  constructor
  · simp [SelectIndexedProgMemLoad, dyn_cast_LoadSDNode, checkedCast]
  · intro Opc
    rcases hO : dyn_cast_ConstantSDNode Offset.getNode with _ | C
    · cases Ext <;> cases AM <;>
        simp [SelectIndexedProgMemLoad, dyn_cast_LoadSDNode, checkedCast, SDNode.getOperand, hO]
    · generalize ho : toInt32 C.getSExtValue = o
      simp only [SelectIndexedProgMemLoad, dyn_cast_LoadSDNode, checkedCast,
        SDNode.getOperand, SDNode.getOps_mk, hO, List.get?, Option.some.injEq,
        exists_eq_left', ho]
      cases Ext <;> cases AM <;> cases VT <;> simp <;>
        split_ifs with h <;> simp [h, eq_comm]

/-! ## Machine-code emission: properties -/

theorem memri_bits (d : Nat) (hd : d ≤ 63) :
    (((d : Int) % 256).toNat = d)
    ∧ ((d <<< 1) ||| 1) < 128 ∧ ((d <<< 1) ||| 0) < 128
    ∧ ((d <<< 1) ||| 1) % 2 = 1 ∧ ((d <<< 1) ||| 0) % 2 = 0
    ∧ ((d <<< 1) ||| 1) >>> 1 = d ∧ ((d <<< 1) ||| 0) >>> 1 = d := by
  interval_cases d <;> decide

/-- C5: for a displacement `d` with `0 ≤ d ≤ 63`, the memory operand
(R29R28, `d`) encodes to `(d << 1) | 1` and (R31R30, `d`) to `(d << 1) | 0`;
the result is below 128, its bit 0 is the register selector and shifting it
right by one gives `d` back; for R27R26 and for every other register the
encoding is a hard failure. The fixup vector is left as it was. -/
theorem getMemriEncoding_pack (Opc Loc : Nat) (pre post : List MCOperand)
    (Fixups : List MCFixup) (d : Nat) (hd : d ≤ 63) :
    getMemriEncoding
        (MCInst.mk Opc (pre ++ [MCOperand.kRegister Reg.R29R28, MCOperand.kImmediate d] ++ post)
          Loc) pre.length Fixups
      = Except.ok ((d <<< 1) ||| 1, Fixups)
    ∧ getMemriEncoding
        (MCInst.mk Opc (pre ++ [MCOperand.kRegister Reg.R31R30, MCOperand.kImmediate d] ++ post)
          Loc) pre.length Fixups
      = Except.ok ((d <<< 1) ||| 0, Fixups)
    ∧ ((d <<< 1) ||| 1) < 128 ∧ ((d <<< 1) ||| 0) < 128
    ∧ ((d <<< 1) ||| 1) % 2 = 1 ∧ ((d <<< 1) ||| 0) % 2 = 0
    ∧ ((d <<< 1) ||| 1) >>> 1 = d ∧ ((d <<< 1) ||| 0) >>> 1 = d
    ∧ getMemriEncoding
        (MCInst.mk Opc (pre ++ [MCOperand.kRegister Reg.R27R26, MCOperand.kImmediate d] ++ post)
          Loc) pre.length Fixups
      = Except.error Fatal.xPointerRegister
    ∧ ∀ R : Reg, R ≠ Reg.R29R28 → R ≠ Reg.R31R30 →
        ∃ e : Fatal, getMemriEncoding
          (MCInst.mk Opc (pre ++ [MCOperand.kRegister R, MCOperand.kImmediate d] ++ post) Loc)
          pre.length Fixups = Except.error e := by
  have hb := memri_bits d hd
  have h0 : ∀ R : Reg, (pre ++ [MCOperand.kRegister R, MCOperand.kImmediate (d : Int)] ++ post).get?
      pre.length = some (MCOperand.kRegister R) := by
    intro R
    simpa using List.get?_append_cons_length pre (MCOperand.kRegister R)
      (MCOperand.kImmediate (d : Int) :: post)
  have h1 : ∀ R : Reg, (pre ++ [MCOperand.kRegister R, MCOperand.kImmediate (d : Int)] ++ post).get?
      (pre.length + 1) = some (MCOperand.kImmediate d) := by
    intro R
    simpa using List.get?_append_cons_length_succ pre (MCOperand.kRegister R)
      (MCOperand.kImmediate (d : Int)) post
  have hlt : ((d <<< 1) ||| 1) % 2 ^ 32 = (d <<< 1) ||| 1 := Nat.mod_eq_of_lt (by omega)
  have hlt0 : ((d <<< 1) ||| 0) % 2 ^ 32 = (d <<< 1) ||| 0 := Nat.mod_eq_of_lt (by omega)
  refine ⟨?_, ?_, hb.2.1, hb.2.2.1, hb.2.2.2.1, hb.2.2.2.2.1, hb.2.2.2.2.2.1, hb.2.2.2.2.2.2,
    ?_, ?_⟩
  · simp only [getMemriEncoding, MCInst.getOperand, h0, h1, MCOperand.isReg, MCOperand.isImm,
      MCOperand.getImm, MCOperand.getReg, hb.1, hlt]
    simp
  · simp only [getMemriEncoding, MCInst.getOperand, h0, h1, MCOperand.isReg, MCOperand.isImm,
      MCOperand.getImm, MCOperand.getReg, hb.1, hlt0]
    simp
  · simp only [getMemriEncoding, MCInst.getOperand, h0, h1, MCOperand.isReg, MCOperand.isImm,
      MCOperand.getImm, MCOperand.getReg, hb.1]
    simp
  · intro R hY hZ
    simp only [getMemriEncoding, MCInst.getOperand, h0, h1, MCOperand.isReg, MCOperand.isImm,
      MCOperand.getImm, MCOperand.getReg, hb.1]
    cases R <;> simp at hY hZ ⊢

/-- The instance of C5 at displacement 5: `(5 << 1) | 1 = 11` for Y and
`(5 << 1) | 0 = 10` for Z. -/
theorem getMemriEncoding_pack_witness :
    5 ≤ 63
    ∧ getMemriEncoding
        (MCInst.mk 0 [MCOperand.kRegister Reg.R29R28, MCOperand.kImmediate 5] 0) 0 []
      = Except.ok (11, [])
    ∧ getMemriEncoding
        (MCInst.mk 0 [MCOperand.kRegister Reg.R31R30, MCOperand.kImmediate 5] 0) 0 []
      = Except.ok (10, []) :=
  ⟨by decide, (getMemriEncoding_pack 0 0 [] [] [] 5 (by decide)).1,
   (getMemriEncoding_pack 0 0 [] [] [] 5 (by decide)).2.1⟩

theorem toUInt32_shiftRight_one (o : Int) :
    toUInt32 (o >>> (1 : Nat)) = ((o / 2) % 2 ^ 32).toNat := by
  rw [toUInt32, Int.shiftRight_eq_div_pow]
  norm_num

/-- C6 fails as stated: the concrete branch target 0 is encoded as the field
0, which is not nonzero. -/
theorem getBreakTargetEncoding_imm_zero :
    getBreakTargetEncoding (MCInst.mk 0 [MCOperand.kImmediate 0] 0) 0 [] = Except.ok (0, [])
    ∧ ¬ ∃ v : Nat, v ≠ 0
        ∧ getBreakTargetEncoding (MCInst.mk 0 [MCOperand.kImmediate 0] 0) 0 []
          = Except.ok (v, []) := by
  have h : getBreakTargetEncoding (MCInst.mk 0 [MCOperand.kImmediate 0] 0) 0 []
      = Except.ok (0, []) := rfl
  refine ⟨h, ?_⟩
  rintro ⟨v, hv, hEq⟩
  rw [h] at hEq
  simp at hEq
  exact hv hEq.symm

/-- C6 as amended: for a branch-target operand that is the concrete immediate
`o`, `getBreakTargetEncoding` leaves the fixup vector as it was and returns
`o` divided by two, rounded down and reduced to 32 bits; for `0 ≤ o < 2^33`
that is `o / 2` itself, and it is nonzero exactly when `2 ≤ o`. -/
theorem getBreakTargetEncoding_imm (Opc Loc : Nat) (pre post : List MCOperand)
    (Fixups : List MCFixup) (o : Int) :
    getBreakTargetEncoding (MCInst.mk Opc (pre ++ [MCOperand.kImmediate o] ++ post) Loc)
        pre.length Fixups
      = Except.ok (((o / 2) % 2 ^ 32).toNat, Fixups)
    ∧ (0 ≤ o → o < 2 ^ 33 →
        ((((o / 2) % 2 ^ 32).toNat : Int) = o / 2
          ∧ (((o / 2) % 2 ^ 32).toNat ≠ 0 ↔ 2 ≤ o))) := by
  constructor
  · have h0 : (pre ++ [MCOperand.kImmediate o] ++ post).get? pre.length
        = some (MCOperand.kImmediate o) := by
      simpa using List.get?_append_cons_length pre (MCOperand.kImmediate o) post
    simp only [getBreakTargetEncoding, MCInst.getOperand, h0, MCOperand.isExpr,
      MCOperand.getImm, toUInt32_shiftRight_one]
    simp
  · intro h0 h1
    have h2 : 0 ≤ o / 2 := by omega
    have h3 : o / 2 < 2 ^ 32 := by omega
    have h4 : (o / 2) % 2 ^ 32 = o / 2 := Int.emod_eq_of_lt h2 h3
    rw [h4]
    constructor
    · exact Int.toNat_of_nonneg h2
    · omega

/-- The instance of the amended C6 at the offset 4: the field is 2. -/
theorem getBreakTargetEncoding_imm_witness :
    getBreakTargetEncoding (MCInst.mk 0 [MCOperand.kImmediate 4] 0) 0 [] = Except.ok (2, [])
    ∧ (((((4 : Int) / 2) % 2 ^ 32).toNat : Int) = 4 / 2
        ∧ ((((4 : Int) / 2) % 2 ^ 32).toNat ≠ 0 ↔ (2 : Int) ≤ 4)) :=
  ⟨(getBreakTargetEncoding_imm 0 0 [] [] [] 4).1,
   (getBreakTargetEncoding_imm 0 0 [] [] [] 4).2 (by decide) (by decide)⟩

/-- C7: for a branch-target operand that is the symbolic expression `E` and a
prior fixup vector `F`, `getBreakTargetEncoding` returns 0 and the vector
afterwards is `F` followed by one record, with kind `fixup_brcond`, offset 0
and expression `E`. -/
theorem getBreakTargetEncoding_expr (Opc Loc : Nat) (pre post : List MCOperand)
    (F : List MCFixup) (E : MCExpr) :
    getBreakTargetEncoding (MCInst.mk Opc (pre ++ [MCOperand.kExpr E] ++ post) Loc)
        pre.length F
      = Except.ok (0, F ++ [MCFixup.mk 0 E AVR.Fixups.fixup_brcond Loc]) := by
  have h0 : (pre ++ [MCOperand.kExpr E] ++ post).get? pre.length
      = some (MCOperand.kExpr E) := by
    simpa using List.get?_append_cons_length pre (MCOperand.kExpr E) post
  simp only [getBreakTargetEncoding, MCInst.getOperand, h0, MCOperand.isExpr,
    MCOperand.getExpr]
  simp

/-- C8 on the code: an operand that is a symbol reference, or a binary
expression whose left operand is one, is encoded by `getMachineOpValue` as 0
and the fixup vector is returned as it was: no fixup record is added for
it. -/
theorem getMachineOpValue_symbol_adds_no_fixup (getEncodingValue : Reg → Nat) (MI : MCInst)
    (S Op : Nat) (RHS : MCExpr) (F : List MCFixup) :
    getMachineOpValue getEncodingValue MI (MCOperand.kExpr (MCExpr.SymbolRef S)) F
      = Except.ok (0, F)
    ∧ getMachineOpValue getEncodingValue MI
        (MCOperand.kExpr (MCExpr.Binary Op (MCExpr.SymbolRef S) RHS)) F
      = Except.ok (0, F) := by
  constructor <;> simp [getMachineOpValue, getExprOpValue, MCExpr.getKind]

/-! ## The selection dispatcher: properties -/

theorem mapOperands_append (N : SDNode) (args : List SDValue) :
    ∀ (pre post : List SDValue) (fuel : Nat), N.getOps = pre ++ args ++ post →
      args.length < fuel →
      mapOperands N (pre.length + args.length) fuel pre.length = Except.ok args := by
  induction args with
  | nil =>
    intro pre post fuel _ hf
    cases fuel with
    | zero => omega
    | succ f => simp [mapOperands]
  | cons a as ih =>
    intro pre post fuel hops hf
    cases fuel with
    | zero => omega
    | succ f =>
      have hget : N.getOps.get? pre.length = some a := by
        rw [hops, List.append_assoc]
        exact List.get?_append_cons_length pre a (as ++ post)
      have hne : ¬ pre.length = pre.length + (a :: as).length := by
        simp
      have hrec := ih (pre ++ [a]) post f (by simp [hops]) (by simpa using hf)
      have hlen : (pre ++ [a]).length + as.length = pre.length + (a :: as).length := by
        simp; omega
      rw [hlen] at hrec
      have hlen2 : (pre ++ [a]).length = pre.length + 1 := by simp
      rw [hlen2] at hrec
      simp only [mapOperands, hne, if_false, SDNode.getOperand, hget, hrec]

theorem SDValue.ne_of_mem_ops (V : SDValue) (o : Opcode) (vts : List MVT) (ops : List SDValue)
    (info : NodeInfo) (r : Nat) (h : V ∈ ops) : V ≠ SDValue.mk (SDNode.mk o vts ops info) r := by
  intro hEq
  have h1 : sizeOf V < sizeOf ops := List.sizeOf_lt_of_mem h
  have h2 := congrArg sizeOf hEq
  simp at h2
  omega

theorem SelectCall_indirect (Fallthrough : Except Fatal SelectResult) (vts : List MVT)
    (info : NodeInfo) (Chain Callee : SDValue) (args : List SDValue) (glue : Option SDValue)
    (cvt : MVT)
    (hInd1 : Callee.getOpcode ≠ Opcode.isd ISD.NodeType.TargetGlobalAddress)
    (hInd2 : Callee.getOpcode ≠ Opcode.isd ISD.NodeType.TargetExternalSymbol)
    (hCallee : Callee.getValueType = Except.ok cvt)
    (hGlue : ∀ g ∈ glue, g.getValueType = Except.ok MVT.Glue)
    (hLast : glue = none → ∃ vt : MVT,
      ((Callee :: args).getLast (List.cons_ne_nil Callee args)).getValueType = Except.ok vt
        ∧ vt ≠ MVT.Glue) :
    SelectCall Fallthrough
        (SDNode.mk (Opcode.avrisd AVRISD.NodeType.CALL) vts
          ([Chain, Callee] ++ args ++ glue.toList) info)
      = Except.ok (SelectResult.mk
          (some (expectedICALL args (expectedCallCopy Chain Callee cvt)))
          [(SDValue.mk (SDNode.mk (Opcode.avrisd AVRISD.NodeType.CALL) vts
              ([Chain, Callee] ++ args ++ glue.toList) info) 0,
            SDValue.mk (expectedICALL args (expectedCallCopy Chain Callee cvt)) 0),
           (SDValue.mk (SDNode.mk (Opcode.avrisd AVRISD.NodeType.CALL) vts
              ([Chain, Callee] ++ args ++ glue.toList) info) 1,
            SDValue.mk (expectedICALL args (expectedCallCopy Chain Callee cvt)) 1)]) := by
  have hI1 : Callee.getNode.getOpcode ≠ Opcode.isd ISD.NodeType.TargetGlobalAddress := hInd1
  have hI2 : Callee.getNode.getOpcode ≠ Opcode.isd ISD.NodeType.TargetExternalSymbol := hInd2
  have hmap : ∀ post : List SDValue,
      mapOperands (SDNode.mk (Opcode.avrisd AVRISD.NodeType.CALL) vts
          (Chain :: Callee :: (args ++ post)) info) (args.length + 1 + 1)
          ((Chain :: Callee :: (args ++ post)).length + 1) 2
        = Except.ok args := by
    intro post
    have h := mapOperands_append (SDNode.mk (Opcode.avrisd AVRISD.NodeType.CALL) vts
      (Chain :: Callee :: (args ++ post)) info) args [Chain, Callee] post
      ((Chain :: Callee :: (args ++ post)).length + 1) (by simp) (by simp; omega)
    have e1 : [Chain, Callee].length + args.length = args.length + 1 + 1 := by simp; omega
    have e2 : [Chain, Callee].length = 2 := rfl
    rw [e1, e2] at h
    exact h
  cases glue with
  | some g =>
    have hg : g.getValueType = Except.ok MVT.Glue := hGlue g rfl
    have hm := hmap [g]
    simp only [List.length_cons, List.length_append, List.length_nil] at hm
    simp only [SelectCall, SDNode.getOperand, SDNode.getOps_mk, SDNode.getNumOperands,
      SDValue.getOpcode, hI1, hI2]
    simp [hI1, hI2, hg, getCopyToRegGlue, hCallee, hm, expectedICALL, expectedCallCopy, getMachineNode,
      SDValue.getValue]
  | none =>
    obtain ⟨vt, hvt, hne⟩ := hLast rfl
    have hm := hmap []
    simp only [List.length_cons, List.length_append, List.length_nil, List.append_nil] at hm
    have hvt2 := hvt
    simp only [List.getLast_eq_getElem, List.length_cons, Nat.add_sub_cancel] at hvt2
    simp only [SelectCall, SDNode.getOperand, SDNode.getOps_mk, SDNode.getNumOperands,
      SDValue.getOpcode, hI1, hI2]
    simp [hI1, hI2, hvt2, hne, getCopyToRegGlue, hCallee, hm, expectedICALL, expectedCallCopy,
      getMachineNode, SDValue.getValue]

/-- C9: for an `AVRISD::CALL` node with the operands chain, callee, arguments
and an optional incoming glue, whose callee is neither a `TargetGlobalAddress`
nor a `TargetExternalSymbol`, `Select` returns an `ICALL` whose operands are
exactly the register R31R30, the arguments in their order, and the chain and
glue results of the copy `CopyToReg(chain, R31R30, callee)`; both results of
the call are replaced by results 0 and 1 of the `ICALL`; the callee is an
operand of the copy and, when it is not one of the arguments, not of the
`ICALL`. A call whose callee is a `TargetGlobalAddress` or a
`TargetExternalSymbol` goes to the generic matcher unchanged. -/
theorem Select_indirect_call (SelectCode : SDNode → Except Fatal SelectResult)
    (vts : List MVT) (info : NodeInfo) (Chain Callee : SDValue) (args : List SDValue)
    (glue : Option SDValue) (cvt : MVT)
    (hInd1 : Callee.getOpcode ≠ Opcode.isd ISD.NodeType.TargetGlobalAddress)
    (hInd2 : Callee.getOpcode ≠ Opcode.isd ISD.NodeType.TargetExternalSymbol)
    (hReg : Callee.getOpcode ≠ Opcode.isd ISD.NodeType.Register)
    (hCallee : Callee.getValueType = Except.ok cvt)
    (hGlue : ∀ g ∈ glue, g.getValueType = Except.ok MVT.Glue)
    (hLast : glue = none → ∃ vt : MVT,
      ((Callee :: args).getLast (List.cons_ne_nil Callee args)).getValueType = Except.ok vt
        ∧ vt ≠ MVT.Glue) :
    Select SelectCode
        (SDNode.mk (Opcode.avrisd AVRISD.NodeType.CALL) vts
          ([Chain, Callee] ++ args ++ glue.toList) info)
      = Except.ok (SelectResult.mk
          (some (expectedICALL args (expectedCallCopy Chain Callee cvt)))
          [(SDValue.mk (SDNode.mk (Opcode.avrisd AVRISD.NodeType.CALL) vts
              ([Chain, Callee] ++ args ++ glue.toList) info) 0,
            SDValue.mk (expectedICALL args (expectedCallCopy Chain Callee cvt)) 0),
           (SDValue.mk (SDNode.mk (Opcode.avrisd AVRISD.NodeType.CALL) vts
              ([Chain, Callee] ++ args ++ glue.toList) info) 1,
            SDValue.mk (expectedICALL args (expectedCallCopy Chain Callee cvt)) 1)])
    ∧ Callee ∈ (expectedCallCopy Chain Callee cvt).getOps
    ∧ (Callee ∉ args →
        Callee ∉ (expectedICALL args (expectedCallCopy Chain Callee cvt)).getOps)
    ∧ (∀ (D : SDValue) (rest : List SDValue),
        (D.getOpcode = Opcode.isd ISD.NodeType.TargetGlobalAddress
          ∨ D.getOpcode = Opcode.isd ISD.NodeType.TargetExternalSymbol) →
        Select SelectCode
            (SDNode.mk (Opcode.avrisd AVRISD.NodeType.CALL) vts (Chain :: D :: rest) info)
          = SelectCode
            (SDNode.mk (Opcode.avrisd AVRISD.NodeType.CALL) vts (Chain :: D :: rest) info)) := by
  refine ⟨?_, ?_, ?_, ?_⟩
  · have h := SelectCall_indirect
      (SelectCode (SDNode.mk (Opcode.avrisd AVRISD.NodeType.CALL) vts
        ([Chain, Callee] ++ args ++ glue.toList) info))
      vts info Chain Callee args glue cvt hInd1 hInd2 hCallee hGlue hLast
    simpa [Select, SDNode.isMachineOpcode] using h
  · simp [expectedCallCopy]
  · intro hna hmem
    have hc0 := SDValue.ne_of_mem_ops Callee (Opcode.isd ISD.NodeType.CopyToReg)
      [MVT.Other, MVT.Glue] [Chain, getRegister Reg.R31R30 cvt, Callee] NodeInfo.none 0
      (by simp)
    have hc1 := SDValue.ne_of_mem_ops Callee (Opcode.isd ISD.NodeType.CopyToReg)
      [MVT.Other, MVT.Glue] [Chain, getRegister Reg.R31R30 cvt, Callee] NodeInfo.none 1
      (by simp)
    have hr : Callee ≠ getRegister Reg.R31R30 MVT.i16 := by
      intro hEq
      apply hReg
      rw [hEq]
      rfl
    simp [expectedICALL, expectedCallCopy] at hmem
    rcases hmem with h | h | h | h
    · exact hr h
    · exact hna h
    · exact hc0 h
    · exact hc1 h
  · intro D rest hD
    have hD1 : D.getNode.getOpcode = Opcode.isd ISD.NodeType.TargetGlobalAddress
        ∨ D.getNode.getOpcode = Opcode.isd ISD.NodeType.TargetExternalSymbol := hD
    simp [Select, SDNode.isMachineOpcode, SelectCall, SDNode.getOperand, SDValue.getOpcode, hD1]

/-- The instance of C9 at a call through a pointer read from a virtual
register, with one argument register and an incoming glue. -/
theorem Select_indirect_call_witness :
    Select sampleOracle sampleIndirectCall
      = Except.ok (SelectResult.mk
          (some (expectedICALL [sampleArg] (expectedCallCopy sampleChain sampleBase MVT.i16)))
          [(SDValue.mk sampleIndirectCall 0,
            SDValue.mk
              (expectedICALL [sampleArg] (expectedCallCopy sampleChain sampleBase MVT.i16)) 0),
           (SDValue.mk sampleIndirectCall 1,
            SDValue.mk
              (expectedICALL [sampleArg] (expectedCallCopy sampleChain sampleBase MVT.i16))
              1)]) :=
  (Select_indirect_call sampleOracle [MVT.Other, MVT.Glue] NodeInfo.none sampleChain sampleBase
    [sampleArg] (some sampleGlue) MVT.i16 (by decide) (by decide) (by decide) rfl
    (by intro g hg; simp at hg; subst hg; rfl) (by intro h; cases h)).1

/-- C10 fails as stated: the incoming glue operand of the sample indirect
call is an operand of the call other than the callee, and after lowering it
is an input neither of the `ICALL` nor of the register copy that feeds it. -/
theorem Select_indirect_call_drops_glue :
    Select sampleOracle sampleIndirectCall
      = Except.ok (SelectResult.mk
          (some (expectedICALL [sampleArg] (expectedCallCopy sampleChain sampleBase MVT.i16)))
          [(SDValue.mk sampleIndirectCall 0,
            SDValue.mk
              (expectedICALL [sampleArg] (expectedCallCopy sampleChain sampleBase MVT.i16)) 0),
           (SDValue.mk sampleIndirectCall 1,
            SDValue.mk
              (expectedICALL [sampleArg] (expectedCallCopy sampleChain sampleBase MVT.i16))
              1)])
    ∧ sampleGlue ∈ sampleIndirectCall.getOps
    ∧ sampleIndirectCall.getOperand 1 = Except.ok sampleBase
    ∧ sampleGlue ≠ sampleBase
    ∧ sampleGlue ∉
        (expectedICALL [sampleArg] (expectedCallCopy sampleChain sampleBase MVT.i16)).getOps
    ∧ sampleGlue ∉ (expectedCallCopy sampleChain sampleBase MVT.i16).getOps := by
  refine ⟨rfl, ?_, rfl, ?_, ?_, ?_⟩
  · simp [sampleIndirectCall]
  · simp [sampleGlue, sampleBase]
  · simp [expectedICALL, expectedCallCopy, sampleGlue, sampleArg, sampleChain, sampleBase,
      getRegister]
  · simp [expectedCallCopy, sampleGlue, sampleChain, sampleBase, getRegister]

/-- C10 as amended: for an indirect `AVRISD::CALL` node, every operand of the
call other than the callee and the incoming glue (the chain and each
argument) is after lowering an input of the new `ICALL` or of the register
copy that feeds it; the copy has exactly the inputs chain, register and
callee, and the `ICALL` exactly the register, the arguments and the two
results of the copy, so the incoming glue is given no input of its own. -/
theorem Select_indirect_call_keeps_chain_and_args
    (SelectCode : SDNode → Except Fatal SelectResult)
    (vts : List MVT) (info : NodeInfo) (Chain Callee : SDValue) (args : List SDValue)
    (glue : Option SDValue) (cvt : MVT)
    (hInd1 : Callee.getOpcode ≠ Opcode.isd ISD.NodeType.TargetGlobalAddress)
    (hInd2 : Callee.getOpcode ≠ Opcode.isd ISD.NodeType.TargetExternalSymbol)
    (hCallee : Callee.getValueType = Except.ok cvt)
    (hGlue : ∀ g ∈ glue, g.getValueType = Except.ok MVT.Glue)
    (hLast : glue = none → ∃ vt : MVT,
      ((Callee :: args).getLast (List.cons_ne_nil Callee args)).getValueType = Except.ok vt
        ∧ vt ≠ MVT.Glue) :
    Except.map SelectResult.ResNode
        (Select SelectCode
          (SDNode.mk (Opcode.avrisd AVRISD.NodeType.CALL) vts
            ([Chain, Callee] ++ args ++ glue.toList) info))
      = Except.ok (some (expectedICALL args (expectedCallCopy Chain Callee cvt)))
    ∧ (expectedICALL args (expectedCallCopy Chain Callee cvt)).getOps
        = [getRegister Reg.R31R30 MVT.i16] ++ args
          ++ [SDValue.mk (expectedCallCopy Chain Callee cvt) 0,
              SDValue.mk (expectedCallCopy Chain Callee cvt) 1]
    ∧ (expectedCallCopy Chain Callee cvt).getOps
        = [Chain, getRegister Reg.R31R30 cvt, Callee]
    ∧ ∀ x ∈ Chain :: args,
        x ∈ (expectedICALL args (expectedCallCopy Chain Callee cvt)).getOps
          ∨ x ∈ (expectedCallCopy Chain Callee cvt).getOps := by
  refine ⟨?_, rfl, rfl, ?_⟩
  · have h := SelectCall_indirect
      (SelectCode (SDNode.mk (Opcode.avrisd AVRISD.NodeType.CALL) vts
        ([Chain, Callee] ++ args ++ glue.toList) info))
      vts info Chain Callee args glue cvt hInd1 hInd2 hCallee hGlue hLast
    have h2 : Select SelectCode (SDNode.mk (Opcode.avrisd AVRISD.NodeType.CALL) vts
        ([Chain, Callee] ++ args ++ glue.toList) info)
        = SelectCall (SelectCode (SDNode.mk (Opcode.avrisd AVRISD.NodeType.CALL) vts
            ([Chain, Callee] ++ args ++ glue.toList) info))
          (SDNode.mk (Opcode.avrisd AVRISD.NodeType.CALL) vts
            ([Chain, Callee] ++ args ++ glue.toList) info) := by
      simp [Select, SDNode.isMachineOpcode]
    rw [h2, h]
    rfl
  · intro x hx
    rcases List.mem_cons.mp hx with h | h
    · right
      simp [expectedCallCopy, h]
    · left
      simp [expectedICALL, h]

/-- The instance of the amended C10 at the sample indirect call. -/
theorem Select_indirect_call_keeps_chain_and_args_witness :
    Except.map SelectResult.ResNode (Select sampleOracle sampleIndirectCall)
      = Except.ok (some
          (expectedICALL [sampleArg] (expectedCallCopy sampleChain sampleBase MVT.i16)))
    ∧ ∀ x ∈ sampleChain :: [sampleArg],
        x ∈ (expectedICALL [sampleArg]
              (expectedCallCopy sampleChain sampleBase MVT.i16)).getOps
          ∨ x ∈ (expectedCallCopy sampleChain sampleBase MVT.i16).getOps :=
  have h := Select_indirect_call_keeps_chain_and_args sampleOracle [MVT.Other, MVT.Glue]
    NodeInfo.none sampleChain sampleBase [sampleArg] (some sampleGlue) MVT.i16 (by decide)
    (by decide) rfl (by intro g hg; simp at hg; subst hg; rfl) (by intro h; cases h)
  ⟨h.1, h.2.2.2⟩

/-! ## Expression operands: properties -/

/-- C20 fails as stated: arithmetic on symbols nested on the left, here
`(a + b) + c`, does not pass the shape assertion of `getExprOpValue`. -/
theorem getExprOpValue_nested_binary_fails :
    getExprOpValue
        (MCExpr.Binary 0 (MCExpr.Binary 0 (MCExpr.SymbolRef 0) (MCExpr.SymbolRef 1))
          (MCExpr.SymbolRef 2)) []
      = Except.error Fatal.assertion := rfl

/-- C20 as amended: `getExprOpValue` passes its shape assertion and returns 0
(leaving the fixup vector as it was) exactly for a direct symbol reference
and for a binary expression whose left operand is a direct symbol reference,
whatever the right operand; for every other expression, in particular a
binary expression whose left operand is again a binary expression, the
assertion fails. -/
theorem getExprOpValue_recognized_shapes (E : MCExpr) (F : List MCFixup) :
    (getExprOpValue E F = Except.ok (0, F)
      ↔ (∃ S : Nat, E = MCExpr.SymbolRef S)
        ∨ ∃ (Op S : Nat) (RHS : MCExpr), E = MCExpr.Binary Op (MCExpr.SymbolRef S) RHS)
    ∧ (getExprOpValue E F = Except.error Fatal.assertion
      ↔ ¬ ((∃ S : Nat, E = MCExpr.SymbolRef S)
        ∨ ∃ (Op S : Nat) (RHS : MCExpr), E = MCExpr.Binary Op (MCExpr.SymbolRef S) RHS)) := by
  cases E with
  | Binary Op LHS RHS =>
    cases LHS <;> simp [getExprOpValue, MCExpr.getKind]
  | Constant v => simp [getExprOpValue, MCExpr.getKind]
  | SymbolRef S => simp [getExprOpValue, MCExpr.getKind]
  | Unary Op Sub => simp [getExprOpValue, MCExpr.getKind]
  | Target K Sub => simp [getExprOpValue, MCExpr.getKind]

/-! ## Byte emission: properties -/

theorem List.foldl_append_singleton {α β : Type} (f : β → α) (l : List β) (init : List α) :
    l.foldl (fun (acc : List α) (b : β) => acc ++ [f b]) init = init ++ l.map f := by
  induction l generalizing init with
  | nil => simp
  | cons x xs ih => simp [ih]

theorem shiftRight_and_0xff (x s : Nat) : ((x >>> s) &&& 0xff) % 256 = x / 2 ^ s % 256 := by
  have h : (255 : Nat) = 2 ^ 8 - 1 := by norm_num
  rw [Nat.shiftRight_eq_div_pow, h, Nat.and_pow_two_sub_one_eq_mod]
  norm_num

theorem EmitInstruction_bytes (E : AVRMCCodeEmitter) (Val Size : Nat) (OS : List Nat) :
    EmitInstruction E Val Size OS
      = OS ++ (List.range Size).map
          (fun i => Val / 2 ^ (if E.IsLittleEndian then (Size - 1 - i) * 8 else i * 8) % 256) := by
  unfold EmitInstruction EmitByte
  rw [List.foldl_append_singleton]
  congr 1
  apply List.map_congr_left
  intro i _
  rw [shiftRight_and_0xff]
  cases E.IsLittleEndian <;> simp

theorem shiftRight_and_0xff_eq (x s : Nat) : (x >>> s) &&& 0xff = x / 2 ^ s % 256 := by
  have h : (255 : Nat) = 2 ^ 8 - 1 := by norm_num
  rw [Nat.shiftRight_eq_div_pow, h, Nat.and_pow_two_sub_one_eq_mod]

/-- C16 fails as stated: with the flag `IsLittleEndian` clear, as
`createAVRMCCodeEmitter` builds the emitter, `EmitInstruction` writes the two
bytes of 0x1234 least significant byte first, not most significant byte first;
and with the flag set it writes them most significant byte first, not least
significant byte first. -/
theorem EmitInstruction_flag_clear_lsb_first :
    createAVRMCCodeEmitter.IsLittleEndian = false
    ∧ EmitInstruction createAVRMCCodeEmitter 0x1234 2 [] = [0x34, 0x12]
    ∧ EmitInstruction createAVRMCCodeEmitter 0x1234 2 []
        ≠ (List.range 2).map (fun i => (0x1234 >>> (8 * (2 - 1 - i))) &&& 0xff)
    ∧ EmitInstruction (AVRMCCodeEmitter.mk true) 0x1234 2 [] = [0x12, 0x34]
    ∧ EmitInstruction (AVRMCCodeEmitter.mk true) 0x1234 2 []
        ≠ (List.range 2).map (fun i => (0x1234 >>> (8 * i)) &&& 0xff) := by
  refine ⟨rfl, ?_, ?_, ?_, ?_⟩ <;> decide

/-- C16 as amended: for every value `Val` and size `n` with `1 ≤ n ≤ 8`, when
the flag `IsLittleEndian` of the emitter is clear, `EmitInstruction` appends
the `n` low bytes of `Val` least significant byte first (byte `i` is
`(Val >> 8i) & 0xff`), and when the flag is set it appends them most
significant byte first (byte `i` is `(Val >> 8(n-1-i)) & 0xff`); in both cases
exactly `n` bytes are appended. -/
theorem EmitInstruction_byte_order (E : AVRMCCodeEmitter) (Val n : Nat) (OS : List Nat) :
    1 ≤ n → n ≤ 8 →
      (E.IsLittleEndian = false →
        EmitInstruction E Val n OS
          = OS ++ (List.range n).map (fun i => (Val >>> (8 * i)) &&& 0xff))
      ∧ (E.IsLittleEndian = true →
        EmitInstruction E Val n OS
          = OS ++ (List.range n).map (fun i => (Val >>> (8 * (n - 1 - i))) &&& 0xff))
      ∧ (EmitInstruction E Val n OS).length = OS.length + n := by
  intro _ _
  refine ⟨?_, ?_, ?_⟩
  · intro h
    rw [EmitInstruction_bytes, h]
    congr 1
    apply List.map_congr_left
    intro i _
    simp [shiftRight_and_0xff_eq, Nat.mul_comm]
  · intro h
    rw [EmitInstruction_bytes, h]
    congr 1
    apply List.map_congr_left
    intro i _
    simp [shiftRight_and_0xff_eq, Nat.mul_comm]
  · rw [EmitInstruction_bytes]
    simp

/-- The instance of C16 as amended at the value 0x1234 and the size 2: the
emitter built by `createAVRMCCodeEmitter`, whose flag is clear, appends 0x34,
0x12, and an emitter whose flag is set appends 0x12, 0x34. -/
theorem EmitInstruction_byte_order_witness :
    EmitInstruction createAVRMCCodeEmitter 0x1234 2 [0xff] = [0xff, 0x34, 0x12]
    ∧ EmitInstruction (AVRMCCodeEmitter.mk true) 0x1234 2 [0xff] = [0xff, 0x12, 0x34] :=
  ⟨(EmitInstruction_byte_order createAVRMCCodeEmitter 0x1234 2 [0xff] (by decide)
      (by decide)).1 rfl,
   (EmitInstruction_byte_order (AVRMCCodeEmitter.mk true) 0x1234 2 [0xff] (by decide)
      (by decide)).2.1 rfl⟩

/-- C15: for an instruction whose binary code is `B` and whose declared size
is `n`, `EncodeInstruction` with the emitter built by
`createAVRMCCodeEmitter` appends, for `1 ≤ n ≤ 4`, exactly `n` bytes to the
output, byte `i` being bits `8i .. 8i+7` of `B` (least significant byte
first); for `n = 0` it is a hard failure. -/
theorem EncodeInstruction_little_endian
    (getBinaryCodeForInstr : MCInst → List MCFixup → Except Fatal (Nat × List MCFixup))
    (getSize : Nat → Nat) (MI : MCInst) (OS : List Nat) (F F1 : List MCFixup) (B : Nat)
    (hB : getBinaryCodeForInstr MI F = Except.ok (B, F1)) (h32 : B < 2 ^ 32) :
    (1 ≤ getSize MI.Opcode → getSize MI.Opcode ≤ 4 →
      EncodeInstruction createAVRMCCodeEmitter getBinaryCodeForInstr getSize MI OS F
          = Except.ok
              (OS ++ (List.range (getSize MI.Opcode)).map (fun i => B / 2 ^ (8 * i) % 256), F1)
        ∧ ((List.range (getSize MI.Opcode)).map (fun i => B / 2 ^ (8 * i) % 256)).length
            = getSize MI.Opcode)
    ∧ (getSize MI.Opcode = 0 →
      EncodeInstruction createAVRMCCodeEmitter getBinaryCodeForInstr getSize MI OS F
        = Except.error Fatal.sizeZero) := by
  have hmod : B % 2 ^ 32 = B := Nat.mod_eq_of_lt h32
  constructor
  · intro h1 h4
    have hne : getSize MI.Opcode ≠ 0 := by omega
    refine ⟨?_, by simp⟩
    simp only [EncodeInstruction, hB, hmod, hne, if_false, EmitInstruction_bytes,
      createAVRMCCodeEmitter]
    simp [Nat.mul_comm]
  · intro h0
    simp [EncodeInstruction, hB, h0]

/-- The instance of C15 at the binary code 0x1234 of a two-byte instruction:
the bytes 0x34, 0x12 are appended. -/
theorem EncodeInstruction_little_endian_witness :
    EncodeInstruction createAVRMCCodeEmitter (fun _ F => Except.ok (0x1234, F)) (fun _ => 2)
        (MCInst.mk 0 [] 0) [0xff] []
      = Except.ok ([0xff, 0x34, 0x12], []) :=
  ((EncodeInstruction_little_endian (fun _ F => Except.ok (0x1234, F)) (fun _ => 2)
    (MCInst.mk 0 [] 0) [0xff] [] [] 0x1234 rfl (by decide)).1 (by decide) (by decide)).1

/-! ## The store case of the dispatcher: properties -/

theorem Select_store_eq (SelectCode : SDNode → Except Fatal SelectResult) (vts : List MVT)
    (ops : List SDValue) (info : NodeInfo) :
    Select SelectCode (SDNode.mk (Opcode.isd ISD.NodeType.STORE) vts ops info)
      = SelectStore (SelectCode (SDNode.mk (Opcode.isd ISD.NodeType.STORE) vts ops info))
          (SDNode.mk (Opcode.isd ISD.NodeType.STORE) vts ops info) := by
  simp [Select, SDNode.isMachineOpcode]

theorem SelectStore_frame_or_const (F : Except Fatal SelectResult) (vts : List MVT)
    (Chain Val BasePtr : SDValue) (rest : List SDValue) (m : MemInfo)
    (h : (dyn_cast_FrameIndexSDNode BasePtr.getNode).isSome = true
      ∨ (dyn_cast_ConstantSDNode BasePtr.getNode).isSome = true) :
    SelectStore F (SDNode.mk (Opcode.isd ISD.NodeType.STORE) vts
        (Chain :: Val :: BasePtr :: rest) (NodeInfo.mem m)) = F := by
  simp [SelectStore, dyn_cast_StoreSDNode, checkedCast, SDNode.getOperand, h]

theorem SelectStore_not_sp (F : Except Fatal SelectResult) (vts : List MVT)
    (Chain Val BasePtr : SDValue) (rest : List SDValue) (m : MemInfo) (Base0 : SDValue)
    (h : ¬ ((dyn_cast_FrameIndexSDNode BasePtr.getNode).isSome = true
      ∨ (dyn_cast_ConstantSDNode BasePtr.getNode).isSome = true))
    (h0 : BasePtr.getOperand 0 = Except.ok Base0)
    (hR : dyn_cast_RegisterSDNode Base0.getNode ≠ some Reg.SP) :
    SelectStore F (SDNode.mk (Opcode.isd ISD.NodeType.STORE) vts
        (Chain :: Val :: BasePtr :: rest) (NodeInfo.mem m)) = F := by
  simp [SelectStore, dyn_cast_StoreSDNode, checkedCast, SDNode.getOperand, h, h0, hR]

theorem SelectStore_sp_const (F : Except Fatal SelectResult) (vts : List MVT)
    (Chain Val BasePtr : SDValue) (rest : List SDValue) (m : MemInfo) (Base0 Base1 : SDValue)
    (C : APInt) (svt : MVT)
    (h : ¬ ((dyn_cast_FrameIndexSDNode BasePtr.getNode).isSome = true
      ∨ (dyn_cast_ConstantSDNode BasePtr.getNode).isSome = true))
    (h0 : BasePtr.getOperand 0 = Except.ok Base0)
    (hR : dyn_cast_RegisterSDNode Base0.getNode = some Reg.SP)
    (h1 : BasePtr.getOperand 1 = Except.ok Base1)
    (hC : dyn_cast_ConstantSDNode Base1.getNode = some C)
    (hV : Val.getValueType = Except.ok svt) :
    SelectStore F (SDNode.mk (Opcode.isd ISD.NodeType.STORE) vts
        (Chain :: Val :: BasePtr :: rest) (NodeInfo.mem m))
      = Except.ok (SelectResult.mk
          (some (expectedSPStore Base0 (toInt32 C.getZExtValue) Val Chain svt m.MMO))
          [(SDValue.mk (SDNode.mk (Opcode.isd ISD.NodeType.STORE) vts
              (Chain :: Val :: BasePtr :: rest) (NodeInfo.mem m)) 0,
            SDValue.mk (expectedSPStore Base0 (toInt32 C.getZExtValue) Val Chain svt m.MMO)
              0)]) := by
  simp [SelectStore, dyn_cast_StoreSDNode, checkedCast, SDNode.getOperand, h, h0, hR, h1, hC,
    hV, expectedSPStore, getMachineNode, setMemRefs]

theorem SelectStore_trichotomy (F : Except Fatal SelectResult) (vts : List MVT)
    (Chain Val BasePtr : SDValue) (rest : List SDValue) (m : MemInfo) :
    SelectStore F (SDNode.mk (Opcode.isd ISD.NodeType.STORE) vts
        (Chain :: Val :: BasePtr :: rest) (NodeInfo.mem m)) = F
    ∨ (∃ e : Fatal, SelectStore F (SDNode.mk (Opcode.isd ISD.NodeType.STORE) vts
        (Chain :: Val :: BasePtr :: rest) (NodeInfo.mem m)) = Except.error e)
    ∨ ∃ (Base0 Base1 : SDValue) (C : APInt) (svt : MVT),
        ¬ ((dyn_cast_FrameIndexSDNode BasePtr.getNode).isSome = true
          ∨ (dyn_cast_ConstantSDNode BasePtr.getNode).isSome = true)
        ∧ BasePtr.getOperand 0 = Except.ok Base0
        ∧ dyn_cast_RegisterSDNode Base0.getNode = some Reg.SP
        ∧ BasePtr.getOperand 1 = Except.ok Base1
        ∧ dyn_cast_ConstantSDNode Base1.getNode = some C
        ∧ Val.getValueType = Except.ok svt
        ∧ SelectStore F (SDNode.mk (Opcode.isd ISD.NodeType.STORE) vts
            (Chain :: Val :: BasePtr :: rest) (NodeInfo.mem m))
          = Except.ok (SelectResult.mk
              (some (expectedSPStore Base0 (toInt32 C.getZExtValue) Val Chain svt m.MMO))
              [(SDValue.mk (SDNode.mk (Opcode.isd ISD.NodeType.STORE) vts
                  (Chain :: Val :: BasePtr :: rest) (NodeInfo.mem m)) 0,
                SDValue.mk
                  (expectedSPStore Base0 (toInt32 C.getZExtValue) Val Chain svt m.MMO) 0)]) := by
  by_cases h : (dyn_cast_FrameIndexSDNode BasePtr.getNode).isSome = true
      ∨ (dyn_cast_ConstantSDNode BasePtr.getNode).isSome = true
  · exact Or.inl (SelectStore_frame_or_const F vts Chain Val BasePtr rest m h)
  · rcases h0 : BasePtr.getOperand 0 with e | Base0
    · right; left
      exact ⟨e, by simp [SelectStore, dyn_cast_StoreSDNode, checkedCast, SDNode.getOperand, h, h0]⟩
    · by_cases hR : dyn_cast_RegisterSDNode Base0.getNode = some Reg.SP
      · rcases h1 : BasePtr.getOperand 1 with e | Base1
        · right; left
          exact ⟨e, by
            simp [SelectStore, dyn_cast_StoreSDNode, checkedCast, SDNode.getOperand, h, h0, hR,
              h1]⟩
        · rcases hC : dyn_cast_ConstantSDNode Base1.getNode with _ | C
          · right; left
            exact ⟨Fatal.castFailed, by
              simp [SelectStore, dyn_cast_StoreSDNode, checkedCast, SDNode.getOperand, h, h0,
                hR, h1, hC]⟩
          · rcases hV : Val.getValueType with e | svt
            · right; left
              exact ⟨e, by
                simp [SelectStore, dyn_cast_StoreSDNode, checkedCast, SDNode.getOperand, h, h0,
                  hR, h1, hC, hV]⟩
            · right; right
              exact ⟨Base0, Base1, C, svt, h, rfl, hR, rfl, hC, rfl,
                SelectStore_sp_const F vts Chain Val BasePtr rest m Base0 Base1 C svt h h0 hR h1
                  hC hV⟩
      · exact Or.inl (SelectStore_not_sp F vts Chain Val BasePtr rest m Base0 h h0 hR)

/-- C13: the store case never looks at the opcode of the base address.  A
store whose base address is the subtraction `SP - 4` is given the
stack-pointer store lowering with the displacement 4, the very instruction
that a store to `SP + 4` is given, whereas `SelectAddr` negates the constant
of a SUB (for a frame index minus 4 it returns the displacement -4); and a
store whose base address is `SP` plus a value that is not a constant is a
hard failure of the cast of the second operand. -/
theorem Select_store_sp_sub_lowered :
    (sampleSub sampleSP (sampleConst 4)).getOpcode = Opcode.isd ISD.NodeType.SUB
    ∧ Select sampleOracle (sampleStore sampleVal8 (sampleSub sampleSP (sampleConst 4)))
        = Except.ok (SelectResult.mk
            (some (expectedSPStore sampleSP 4 sampleVal8 sampleChain MVT.i8
              (sampleMem MVT.i8).MMO))
            [(SDValue.mk (sampleStore sampleVal8 (sampleSub sampleSP (sampleConst 4))) 0,
              SDValue.mk (expectedSPStore sampleSP 4 sampleVal8 sampleChain MVT.i8
                (sampleMem MVT.i8).MMO) 0)])
    ∧ Except.map SelectResult.ResNode
          (Select sampleOracle (sampleStore sampleVal8 (sampleSub sampleSP (sampleConst 4))))
        = Except.map SelectResult.ResNode
          (Select sampleOracle (sampleStore sampleVal8 (sampleAdd sampleSP (sampleConst 4))))
    ∧ SelectAddr (fun _ => false)
          (sampleStore sampleVal8 (sampleSub (sampleFrameIndex 0) (sampleConst 4)))
          (sampleSub (sampleFrameIndex 0) (sampleConst 4))
        = Except.ok (some (getTargetFrameIndex 0 MVT.i16, getTargetConstant (-4) MVT.i16))
    ∧ Select sampleOracle (sampleStore sampleVal8 (sampleAdd sampleSP sampleBase))
        = Except.error Fatal.castFailed :=
  ⟨rfl, rfl, rfl, rfl, rfl⟩

/-- The store case in general: `Select` on a store either returns what the generic
matcher returns, or fails, or gives the stack-pointer store lowering, and the
last only when the base address is neither a frame index nor a constant, its
first operand is the register SP and its second operand is a constant `c`
(the opcode of the base is not looked at); the instruction then has the
operands (SP, `c`, stored value, chain) and the memory reference of the store.
A store whose base address is a frame index or a constant, or has a first
operand that is not the register SP, goes to the generic matcher. -/
theorem Select_store_sp_lowering (SelectCode : SDNode → Except Fatal SelectResult)
    (vts : List MVT) (Chain Val BasePtr : SDValue) (rest : List SDValue) (m : MemInfo) :
    (Select SelectCode (SDNode.mk (Opcode.isd ISD.NodeType.STORE) vts
          (Chain :: Val :: BasePtr :: rest) (NodeInfo.mem m))
        = SelectCode (SDNode.mk (Opcode.isd ISD.NodeType.STORE) vts
            (Chain :: Val :: BasePtr :: rest) (NodeInfo.mem m))
      ∨ (∃ e : Fatal, Select SelectCode (SDNode.mk (Opcode.isd ISD.NodeType.STORE) vts
          (Chain :: Val :: BasePtr :: rest) (NodeInfo.mem m)) = Except.error e)
      ∨ ∃ (Base0 Base1 : SDValue) (C : APInt) (svt : MVT),
          ¬ ((dyn_cast_FrameIndexSDNode BasePtr.getNode).isSome = true
            ∨ (dyn_cast_ConstantSDNode BasePtr.getNode).isSome = true)
          ∧ BasePtr.getOperand 0 = Except.ok Base0
          ∧ dyn_cast_RegisterSDNode Base0.getNode = some Reg.SP
          ∧ BasePtr.getOperand 1 = Except.ok Base1
          ∧ dyn_cast_ConstantSDNode Base1.getNode = some C
          ∧ Val.getValueType = Except.ok svt
          ∧ Select SelectCode (SDNode.mk (Opcode.isd ISD.NodeType.STORE) vts
              (Chain :: Val :: BasePtr :: rest) (NodeInfo.mem m))
            = Except.ok (SelectResult.mk
                (some (expectedSPStore Base0 (toInt32 C.getZExtValue) Val Chain svt m.MMO))
                [(SDValue.mk (SDNode.mk (Opcode.isd ISD.NodeType.STORE) vts
                    (Chain :: Val :: BasePtr :: rest) (NodeInfo.mem m)) 0,
                  SDValue.mk
                    (expectedSPStore Base0 (toInt32 C.getZExtValue) Val Chain svt m.MMO) 0)]))
    ∧ (((dyn_cast_FrameIndexSDNode BasePtr.getNode).isSome = true
          ∨ (dyn_cast_ConstantSDNode BasePtr.getNode).isSome = true) →
        Select SelectCode (SDNode.mk (Opcode.isd ISD.NodeType.STORE) vts
            (Chain :: Val :: BasePtr :: rest) (NodeInfo.mem m))
          = SelectCode (SDNode.mk (Opcode.isd ISD.NodeType.STORE) vts
              (Chain :: Val :: BasePtr :: rest) (NodeInfo.mem m)))
    ∧ (∀ Base0 : SDValue,
        ¬ ((dyn_cast_FrameIndexSDNode BasePtr.getNode).isSome = true
          ∨ (dyn_cast_ConstantSDNode BasePtr.getNode).isSome = true) →
        BasePtr.getOperand 0 = Except.ok Base0 →
        dyn_cast_RegisterSDNode Base0.getNode ≠ some Reg.SP →
        Select SelectCode (SDNode.mk (Opcode.isd ISD.NodeType.STORE) vts
            (Chain :: Val :: BasePtr :: rest) (NodeInfo.mem m))
          = SelectCode (SDNode.mk (Opcode.isd ISD.NodeType.STORE) vts
              (Chain :: Val :: BasePtr :: rest) (NodeInfo.mem m)))
    ∧ (∀ (Base0 Base1 : SDValue) (C : APInt) (svt : MVT),
        ¬ ((dyn_cast_FrameIndexSDNode BasePtr.getNode).isSome = true
          ∨ (dyn_cast_ConstantSDNode BasePtr.getNode).isSome = true) →
        BasePtr.getOperand 0 = Except.ok Base0 →
        dyn_cast_RegisterSDNode Base0.getNode = some Reg.SP →
        BasePtr.getOperand 1 = Except.ok Base1 →
        dyn_cast_ConstantSDNode Base1.getNode = some C →
        Val.getValueType = Except.ok svt →
        Select SelectCode (SDNode.mk (Opcode.isd ISD.NodeType.STORE) vts
            (Chain :: Val :: BasePtr :: rest) (NodeInfo.mem m))
          = Except.ok (SelectResult.mk
              (some (expectedSPStore Base0 (toInt32 C.getZExtValue) Val Chain svt m.MMO))
              [(SDValue.mk (SDNode.mk (Opcode.isd ISD.NodeType.STORE) vts
                  (Chain :: Val :: BasePtr :: rest) (NodeInfo.mem m)) 0,
                SDValue.mk
                  (expectedSPStore Base0 (toInt32 C.getZExtValue) Val Chain svt m.MMO) 0)])) := by
  rw [Select_store_eq]
  refine ⟨SelectStore_trichotomy _ vts Chain Val BasePtr rest m, ?_, ?_, ?_⟩
  · intro h
    exact SelectStore_frame_or_const _ vts Chain Val BasePtr rest m h
  · intro Base0 h h0 hR
    exact SelectStore_not_sp _ vts Chain Val BasePtr rest m Base0 h h0 hR
  · intro Base0 Base1 C svt h h0 hR h1 hC hV
    exact SelectStore_sp_const _ vts Chain Val BasePtr rest m Base0 Base1 C svt h h0 hR h1 hC hV

/-- The store case at a store of an 8-bit value to `SP + 4`: the
stack-pointer store lowering with the displacement 4. -/
theorem Select_store_sp_lowering_witness :
    Select sampleOracle (sampleStore sampleVal8 (sampleAdd sampleSP (sampleConst 4)))
      = Except.ok (SelectResult.mk
          (some (expectedSPStore sampleSP 4 sampleVal8 sampleChain MVT.i8
            (sampleMem MVT.i8).MMO))
          [(SDValue.mk (sampleStore sampleVal8 (sampleAdd sampleSP (sampleConst 4))) 0,
            SDValue.mk (expectedSPStore sampleSP 4 sampleVal8 sampleChain MVT.i8
              (sampleMem MVT.i8).MMO) 0)]) :=
  (Select_store_sp_lowering sampleOracle [MVT.Other] sampleChain sampleVal8
    (sampleAdd sampleSP (sampleConst 4)) [sampleUndef] (sampleMem MVT.i8)).2.2.2
    sampleSP (sampleConst 4) (APInt.mk 16 4) MVT.i8 (by decide) rfl rfl rfl rfl rfl

/-- C14 fails as stated: a store of the constant 7 to `SP + 4`, and a store
of a frame index to `SP + 4`, are given the stack-pointer store lowering and
not left to the generic matcher. -/
theorem Select_store_sp_constant_value_lowered :
    (dyn_cast_ConstantSDNode (sampleConst8 7).getNode).isSome = true
    ∧ Select sampleOracle (sampleStore (sampleConst8 7) (sampleAdd sampleSP (sampleConst 4)))
        = Except.ok (SelectResult.mk
            (some (expectedSPStore sampleSP 4 (sampleConst8 7) sampleChain MVT.i8
              (sampleMem MVT.i8).MMO))
            [(SDValue.mk (sampleStore (sampleConst8 7) (sampleAdd sampleSP (sampleConst 4))) 0,
              SDValue.mk (expectedSPStore sampleSP 4 (sampleConst8 7) sampleChain MVT.i8
                (sampleMem MVT.i8).MMO) 0)])
    ∧ (dyn_cast_FrameIndexSDNode (sampleFrameIndex 3).getNode).isSome = true
    ∧ Select sampleOracle
          (sampleStore (sampleFrameIndex 3) (sampleAdd sampleSP (sampleConst 4)))
        = Except.ok (SelectResult.mk
            (some (expectedSPStore sampleSP 4 (sampleFrameIndex 3) sampleChain MVT.i16
              (sampleMem MVT.i8).MMO))
            [(SDValue.mk
                (sampleStore (sampleFrameIndex 3) (sampleAdd sampleSP (sampleConst 4))) 0,
              SDValue.mk (expectedSPStore sampleSP 4 (sampleFrameIndex 3) sampleChain MVT.i16
                (sampleMem MVT.i8).MMO) 0)]) :=
  ⟨rfl, rfl, rfl, rfl⟩

/-- C14 as amended: a store whose base address is the addition of the register
SP and a constant `c` is given the stack-pointer store lowering whatever the
stored value is (a frame index or a constant included); the test for a frame
index or a constant is made on the base address: a store whose base address
is a frame index or a constant is left to the generic matcher. -/
theorem Select_store_sp_any_value (SelectCode : SDNode → Except Fatal SelectResult)
    (vts bvts : List MVT) (binfo : NodeInfo) (r : Nat) (Chain Val SP Cst : SDValue)
    (rest : List SDValue) (m : MemInfo) (C : APInt) (svt : MVT)
    (hSP : dyn_cast_RegisterSDNode SP.getNode = some Reg.SP)
    (hC : dyn_cast_ConstantSDNode Cst.getNode = some C)
    (hV : Val.getValueType = Except.ok svt) :
    Select SelectCode (SDNode.mk (Opcode.isd ISD.NodeType.STORE) vts
        (Chain :: Val
          :: SDValue.mk (SDNode.mk (Opcode.isd ISD.NodeType.ADD) bvts [SP, Cst] binfo) r
          :: rest) (NodeInfo.mem m))
      = Except.ok (SelectResult.mk
          (some (expectedSPStore SP (toInt32 C.getZExtValue) Val Chain svt m.MMO))
          [(SDValue.mk (SDNode.mk (Opcode.isd ISD.NodeType.STORE) vts
              (Chain :: Val
                :: SDValue.mk (SDNode.mk (Opcode.isd ISD.NodeType.ADD) bvts [SP, Cst] binfo) r
                :: rest) (NodeInfo.mem m)) 0,
            SDValue.mk (expectedSPStore SP (toInt32 C.getZExtValue) Val Chain svt m.MMO) 0)])
    ∧ ∀ BasePtr : SDValue,
        ((dyn_cast_FrameIndexSDNode BasePtr.getNode).isSome = true
          ∨ (dyn_cast_ConstantSDNode BasePtr.getNode).isSome = true) →
        Select SelectCode (SDNode.mk (Opcode.isd ISD.NodeType.STORE) vts
            (Chain :: Val :: BasePtr :: rest) (NodeInfo.mem m))
          = SelectCode (SDNode.mk (Opcode.isd ISD.NodeType.STORE) vts
              (Chain :: Val :: BasePtr :: rest) (NodeInfo.mem m)) := by
  constructor
  · rw [Select_store_eq]
    exact SelectStore_sp_const _ vts Chain Val _ rest m SP Cst C svt
      (by simp [dyn_cast_FrameIndexSDNode, dyn_cast_ConstantSDNode]) rfl hSP rfl hC hV
  · intro BasePtr h
    rw [Select_store_eq]
    exact SelectStore_frame_or_const _ vts Chain Val BasePtr rest m h

/-- The instance of the amended C14 at a store of the constant 7 to
`SP + 4`. -/
theorem Select_store_sp_any_value_witness :
    Select sampleOracle (sampleStore (sampleConst8 7) (sampleAdd sampleSP (sampleConst 4)))
      = Except.ok (SelectResult.mk
          (some (expectedSPStore sampleSP 4 (sampleConst8 7) sampleChain MVT.i8
            (sampleMem MVT.i8).MMO))
          [(SDValue.mk (sampleStore (sampleConst8 7) (sampleAdd sampleSP (sampleConst 4))) 0,
            SDValue.mk (expectedSPStore sampleSP 4 (sampleConst8 7) sampleChain MVT.i8
              (sampleMem MVT.i8).MMO) 0)]) :=
  (Select_store_sp_any_value sampleOracle [MVT.Other] [MVT.i16] NodeInfo.none 0 sampleChain
    (sampleConst8 7) sampleSP (sampleConst 4) [sampleUndef] (sampleMem MVT.i8) (APInt.mk 16 4)
    MVT.i8 rfl rfl rfl).1

/-! ## The load case of the dispatcher: properties -/

theorem Select_load_eq (SelectCode : SDNode → Except Fatal SelectResult) (vts : List MVT)
    (ops : List SDValue) (info : NodeInfo) :
    Select SelectCode (SDNode.mk (Opcode.isd ISD.NodeType.LOAD) vts ops info)
      = SelectLoad (SelectCode (SDNode.mk (Opcode.isd ISD.NodeType.LOAD) vts ops info))
          (SDNode.mk (Opcode.isd ISD.NodeType.LOAD) vts ops info) := by
  simp [Select, SDNode.isMachineOpcode]

theorem SelectLoad_progmem (F : Except Fatal SelectResult) (vts : List MVT)
    (ops : List SDValue) (VT : MVT) (AM : ISD.MemIndexedMode) (Ext : ISD.LoadExtType)
    (id : Nat) :
    SelectLoad F (SDNode.mk (Opcode.isd ISD.NodeType.LOAD) vts ops
        (NodeInfo.mem (MemInfo.mk VT AM Ext (MachineMemOperand.mk (some (IRType.pointer 1)) id))))
      = SelectProgMemLoad (SDNode.mk (Opcode.isd ISD.NodeType.LOAD) vts ops
          (NodeInfo.mem (MemInfo.mk VT AM Ext
            (MachineMemOperand.mk (some (IRType.pointer 1)) id))))
          (MemInfo.mk VT AM Ext (MachineMemOperand.mk (some (IRType.pointer 1)) id)) := by
  simp [SelectLoad, dyn_cast_LoadSDNode, checkedCast, isProgMemValue]

/-- C11 fails as stated: for the unindexed 8-bit load from program memory the
second operand of the emitted `LPMRdZ` is result 1 of the read back of
R31R30, which is its chain; the glue of the read back is result 2 and is not
an operand, and no operand of the instruction is a glue. -/
theorem Select_progmem_load_second_operand_is_chain :
    Except.map SelectResult.ResNode (Select sampleOracle (sampleProgMemLoad MVT.i8))
      = Except.ok (some (expectedLPM AVR.Instr.LPMRdZ [MVT.i8, MVT.Other]
          (expectedProgMemRead (expectedProgMemCopy sampleChain sampleBase MVT.i16))
          (sampleProgMem MVT.i8 ISD.MemIndexedMode.UNINDEXED).MMO))
    ∧ (expectedLPM AVR.Instr.LPMRdZ [MVT.i8, MVT.Other]
          (expectedProgMemRead (expectedProgMemCopy sampleChain sampleBase MVT.i16))
          (sampleProgMem MVT.i8 ISD.MemIndexedMode.UNINDEXED).MMO).getOperand 1
      = Except.ok (SDValue.mk
          (expectedProgMemRead (expectedProgMemCopy sampleChain sampleBase MVT.i16)) 1)
    ∧ (SDValue.mk
        (expectedProgMemRead (expectedProgMemCopy sampleChain sampleBase MVT.i16))
        1).getValueType = Except.ok MVT.Other
    ∧ (SDValue.mk
        (expectedProgMemRead (expectedProgMemCopy sampleChain sampleBase MVT.i16))
        2).getValueType = Except.ok MVT.Glue
    ∧ SDValue.mk (expectedProgMemRead (expectedProgMemCopy sampleChain sampleBase MVT.i16)) 2
        ∉ (expectedLPM AVR.Instr.LPMRdZ [MVT.i8, MVT.Other]
          (expectedProgMemRead (expectedProgMemCopy sampleChain sampleBase MVT.i16))
          (sampleProgMem MVT.i8 ISD.MemIndexedMode.UNINDEXED).MMO).getOps
    ∧ ∀ v ∈ (expectedLPM AVR.Instr.LPMRdZ [MVT.i8, MVT.Other]
          (expectedProgMemRead (expectedProgMemCopy sampleChain sampleBase MVT.i16))
          (sampleProgMem MVT.i8 ISD.MemIndexedMode.UNINDEXED).MMO).getOps,
        v.getValueType ≠ Except.ok MVT.Glue := by
  refine ⟨rfl, rfl, rfl, rfl, ?_, ?_⟩
  · simp [expectedLPM]
  · intro v hv
    simp only [expectedLPM, SDNode.getOps_mk, List.mem_cons, List.mem_singleton,
      List.not_mem_nil, or_false] at hv
    rcases hv with h | h <;> subst h <;> intro hg <;> cases hg

theorem SelectProgMemLoad_unfold (vts : List MVT) (Chain0 Ptr0 Offset : SDValue) (LD : MemInfo)
    (info : NodeInfo) (pvt : MVT) (hP : Ptr0.getValueType = Except.ok pvt) :
    SelectProgMemLoad
        (SDNode.mk (Opcode.isd ISD.NodeType.LOAD) vts [Chain0, Ptr0, Offset] info) LD
      = match SelectIndexedProgMemLoad
            (SDNode.mk (Opcode.isd ISD.NodeType.LOAD) vts [Chain0, Ptr0, Offset] info)
            LD.MemoryVT with
        | Except.error e => Except.error e
        | Except.ok (some LPMOpc) =>
          Except.ok (SelectResult.mk
            (some (expectedLPM LPMOpc [LD.MemoryVT, MVT.i16, MVT.Other]
              (expectedProgMemRead (expectedProgMemCopy Chain0 Ptr0 pvt)) LD.MMO))
            [(SDValue.mk
                (SDNode.mk (Opcode.isd ISD.NodeType.LOAD) vts [Chain0, Ptr0, Offset] info) 2,
              SDValue.mk (expectedLPM LPMOpc [LD.MemoryVT, MVT.i16, MVT.Other]
                (expectedProgMemRead (expectedProgMemCopy Chain0 Ptr0 pvt)) LD.MMO) 2),
             (SDValue.mk
                (SDNode.mk (Opcode.isd ISD.NodeType.LOAD) vts [Chain0, Ptr0, Offset] info) 0,
              SDValue.mk (expectedLPM LPMOpc [LD.MemoryVT, MVT.i16, MVT.Other]
                (expectedProgMemRead (expectedProgMemCopy Chain0 Ptr0 pvt)) LD.MMO) 0),
             (SDValue.mk
                (SDNode.mk (Opcode.isd ISD.NodeType.LOAD) vts [Chain0, Ptr0, Offset] info) 1,
              SDValue.mk (expectedLPM LPMOpc [LD.MemoryVT, MVT.i16, MVT.Other]
                (expectedProgMemRead (expectedProgMemCopy Chain0 Ptr0 pvt)) LD.MMO) 1)])
        | Except.ok none =>
          match LD.MemoryVT with
          | MVT.i8 =>
            Except.ok (SelectResult.mk
              (some (expectedLPM AVR.Instr.LPMRdZ [MVT.i8, MVT.Other]
                (expectedProgMemRead (expectedProgMemCopy Chain0 Ptr0 pvt)) LD.MMO))
              [(SDValue.mk
                  (SDNode.mk (Opcode.isd ISD.NodeType.LOAD) vts [Chain0, Ptr0, Offset] info) 0,
                SDValue.mk (expectedLPM AVR.Instr.LPMRdZ [MVT.i8, MVT.Other]
                  (expectedProgMemRead (expectedProgMemCopy Chain0 Ptr0 pvt)) LD.MMO) 0),
               (SDValue.mk
                  (SDNode.mk (Opcode.isd ISD.NodeType.LOAD) vts [Chain0, Ptr0, Offset] info) 1,
                SDValue.mk (expectedLPM AVR.Instr.LPMRdZ [MVT.i8, MVT.Other]
                  (expectedProgMemRead (expectedProgMemCopy Chain0 Ptr0 pvt)) LD.MMO) 1)])
          | MVT.i16 =>
            Except.ok (SelectResult.mk
              (some (expectedLPM AVR.Instr.LPMWRdZ [MVT.i16, MVT.i16, MVT.Other]
                (expectedProgMemRead (expectedProgMemCopy Chain0 Ptr0 pvt)) LD.MMO))
              [(SDValue.mk
                  (SDNode.mk (Opcode.isd ISD.NodeType.LOAD) vts [Chain0, Ptr0, Offset] info) 2,
                SDValue.mk (expectedLPM AVR.Instr.LPMWRdZ [MVT.i16, MVT.i16, MVT.Other]
                  (expectedProgMemRead (expectedProgMemCopy Chain0 Ptr0 pvt)) LD.MMO) 2),
               (SDValue.mk
                  (SDNode.mk (Opcode.isd ISD.NodeType.LOAD) vts [Chain0, Ptr0, Offset] info) 0,
                SDValue.mk (expectedLPM AVR.Instr.LPMWRdZ [MVT.i16, MVT.i16, MVT.Other]
                  (expectedProgMemRead (expectedProgMemCopy Chain0 Ptr0 pvt)) LD.MMO) 0),
               (SDValue.mk
                  (SDNode.mk (Opcode.isd ISD.NodeType.LOAD) vts [Chain0, Ptr0, Offset] info) 1,
                SDValue.mk (expectedLPM AVR.Instr.LPMWRdZ [MVT.i16, MVT.i16, MVT.Other]
                  (expectedProgMemRead (expectedProgMemCopy Chain0 Ptr0 pvt)) LD.MMO) 1)])
          | _ => Except.error Fatal.unsupportedVT := by
  simp only [SelectProgMemLoad, SDNode.getOperand, SDNode.getOps_mk, List.get?,
    getCopyToRegGlue, hP, Option.toList, List.append_nil, getCopyFromRegGlue,
    SDValue.getValue, SDValue.getNode_mk, List.cons_append, List.nil_append, setMemRefs,
    getMachineNode, expectedLPM, expectedProgMemRead, expectedProgMemCopy]

/-- C11 as amended: for a load whose memory reference is tagged with address
space 1 and whose memory type is `VT`, `Select` copies the base pointer into
R31R30 and reads it back, and returns the instruction with the opcode given
by `SelectIndexedProgMemLoad` when that is not 0, otherwise `LPMRdZ` for i8
and `LPMWRdZ` for i16, and fails for any other `VT`; the operands are result
0 (the pointer) and result 1 (the chain, not the glue, which is result 2) of
the read back, and the memory reference of the load is attached. The result
does not depend on the generic matcher. -/
theorem Select_progmem_load (SelectCode : SDNode → Except Fatal SelectResult)
    (vts : List MVT) (Chain0 Ptr0 Offset : SDValue) (VT : MVT) (AM : ISD.MemIndexedMode)
    (Ext : ISD.LoadExtType) (id : Nat) (pvt : MVT)
    (hP : Ptr0.getValueType = Except.ok pvt) :
    (∀ Opc : AVR.Instr,
      SelectIndexedProgMemLoad
          (SDNode.mk (Opcode.isd ISD.NodeType.LOAD) vts [Chain0, Ptr0, Offset]
            (NodeInfo.mem (MemInfo.mk VT AM Ext
              (MachineMemOperand.mk (some (IRType.pointer 1)) id)))) VT
        = Except.ok (some Opc) →
      Except.map SelectResult.ResNode
          (Select SelectCode
            (SDNode.mk (Opcode.isd ISD.NodeType.LOAD) vts [Chain0, Ptr0, Offset]
              (NodeInfo.mem (MemInfo.mk VT AM Ext
                (MachineMemOperand.mk (some (IRType.pointer 1)) id)))))
        = Except.ok (some (expectedLPM Opc [VT, MVT.i16, MVT.Other]
            (expectedProgMemRead (expectedProgMemCopy Chain0 Ptr0 pvt))
            (MachineMemOperand.mk (some (IRType.pointer 1)) id))))
    ∧ (SelectIndexedProgMemLoad
          (SDNode.mk (Opcode.isd ISD.NodeType.LOAD) vts [Chain0, Ptr0, Offset]
            (NodeInfo.mem (MemInfo.mk VT AM Ext
              (MachineMemOperand.mk (some (IRType.pointer 1)) id)))) VT
        = Except.ok none →
      (VT = MVT.i8 →
        Except.map SelectResult.ResNode
            (Select SelectCode
              (SDNode.mk (Opcode.isd ISD.NodeType.LOAD) vts [Chain0, Ptr0, Offset]
                (NodeInfo.mem (MemInfo.mk VT AM Ext
                  (MachineMemOperand.mk (some (IRType.pointer 1)) id)))))
          = Except.ok (some (expectedLPM AVR.Instr.LPMRdZ [MVT.i8, MVT.Other]
              (expectedProgMemRead (expectedProgMemCopy Chain0 Ptr0 pvt))
              (MachineMemOperand.mk (some (IRType.pointer 1)) id))))
      ∧ (VT = MVT.i16 →
        Except.map SelectResult.ResNode
            (Select SelectCode
              (SDNode.mk (Opcode.isd ISD.NodeType.LOAD) vts [Chain0, Ptr0, Offset]
                (NodeInfo.mem (MemInfo.mk VT AM Ext
                  (MachineMemOperand.mk (some (IRType.pointer 1)) id)))))
          = Except.ok (some (expectedLPM AVR.Instr.LPMWRdZ [MVT.i16, MVT.i16, MVT.Other]
              (expectedProgMemRead (expectedProgMemCopy Chain0 Ptr0 pvt))
              (MachineMemOperand.mk (some (IRType.pointer 1)) id))))
      ∧ (VT ≠ MVT.i8 → VT ≠ MVT.i16 →
        Select SelectCode
            (SDNode.mk (Opcode.isd ISD.NodeType.LOAD) vts [Chain0, Ptr0, Offset]
              (NodeInfo.mem (MemInfo.mk VT AM Ext
                (MachineMemOperand.mk (some (IRType.pointer 1)) id))))
          = Except.error Fatal.unsupportedVT))
    ∧ (SDValue.mk (expectedProgMemRead (expectedProgMemCopy Chain0 Ptr0 pvt)) 0).getValueType
        = Except.ok MVT.i16
    ∧ (SDValue.mk (expectedProgMemRead (expectedProgMemCopy Chain0 Ptr0 pvt)) 1).getValueType
        = Except.ok MVT.Other
    ∧ (SDValue.mk (expectedProgMemRead (expectedProgMemCopy Chain0 Ptr0 pvt)) 2).getValueType
        = Except.ok MVT.Glue := by
  rw [Select_load_eq, SelectLoad_progmem, SelectProgMemLoad_unfold _ _ _ _ _ _ pvt hP]
  refine ⟨?_, ?_, rfl, rfl, rfl⟩
  · intro Opc h
    simp only [h]
    rfl
  · intro h
    simp only [h]
    refine ⟨?_, ?_, ?_⟩
    · intro hvt
      subst hvt
      rfl
    · intro hvt
      subst hvt
      rfl
    · intro h8 h16
      cases VT <;> simp at h8 h16 ⊢

/-- The instance of the amended C11 at the unindexed 16-bit load from program
memory: `LPMWRdZ` is emitted. -/
theorem Select_progmem_load_witness :
    Except.map SelectResult.ResNode (Select sampleOracle (sampleProgMemLoad MVT.i16))
      = Except.ok (some (expectedLPM AVR.Instr.LPMWRdZ [MVT.i16, MVT.i16, MVT.Other]
          (expectedProgMemRead (expectedProgMemCopy sampleChain sampleBase MVT.i16))
          (MachineMemOperand.mk (some (IRType.pointer 1)) 1))) :=
  ((Select_progmem_load sampleOracle [MVT.i16, MVT.Other] sampleChain sampleBase sampleUndef
    MVT.i16 ISD.MemIndexedMode.UNINDEXED ISD.LoadExtType.NON_EXTLOAD 1 MVT.i16 rfl).2.1
    rfl).2.1 rfl

/-- C12 on the code: for the unindexed 16-bit load from program memory, whose
results are the loaded value (0) and the chain (1), `Select` replaces result
2, which the load does not have, and replaces the chain, result 1, by result
1 of `LPMWRdZ`, which is the 16-bit pointer and not the chain (result 2). -/
theorem Select_progmem_load_i16_chain_to_pointer :
    Select sampleOracle (sampleProgMemLoad MVT.i16)
      = Except.ok (SelectResult.mk
          (some (expectedLPM AVR.Instr.LPMWRdZ [MVT.i16, MVT.i16, MVT.Other]
            (expectedProgMemRead (expectedProgMemCopy sampleChain sampleBase MVT.i16))
            (MachineMemOperand.mk (some (IRType.pointer 1)) 1)))
          [(SDValue.mk (sampleProgMemLoad MVT.i16) 2,
            SDValue.mk (expectedLPM AVR.Instr.LPMWRdZ [MVT.i16, MVT.i16, MVT.Other]
              (expectedProgMemRead (expectedProgMemCopy sampleChain sampleBase MVT.i16))
              (MachineMemOperand.mk (some (IRType.pointer 1)) 1)) 2),
           (SDValue.mk (sampleProgMemLoad MVT.i16) 0,
            SDValue.mk (expectedLPM AVR.Instr.LPMWRdZ [MVT.i16, MVT.i16, MVT.Other]
              (expectedProgMemRead (expectedProgMemCopy sampleChain sampleBase MVT.i16))
              (MachineMemOperand.mk (some (IRType.pointer 1)) 1)) 0),
           (SDValue.mk (sampleProgMemLoad MVT.i16) 1,
            SDValue.mk (expectedLPM AVR.Instr.LPMWRdZ [MVT.i16, MVT.i16, MVT.Other]
              (expectedProgMemRead (expectedProgMemCopy sampleChain sampleBase MVT.i16))
              (MachineMemOperand.mk (some (IRType.pointer 1)) 1)) 1)])
    ∧ (SDValue.mk (sampleProgMemLoad MVT.i16) 1).getValueType = Except.ok MVT.Other
    ∧ (SDValue.mk (expectedLPM AVR.Instr.LPMWRdZ [MVT.i16, MVT.i16, MVT.Other]
          (expectedProgMemRead (expectedProgMemCopy sampleChain sampleBase MVT.i16))
          (MachineMemOperand.mk (some (IRType.pointer 1)) 1)) 1).getValueType
        = Except.ok MVT.i16
    ∧ (SDValue.mk (sampleProgMemLoad MVT.i16) 2).getValueType
        = Except.error Fatal.valueOutOfRange :=
  ⟨rfl, rfl, rfl, rfl⟩

/-- The sibling case of C12: for the unindexed 8-bit load from program memory
the value (result 0) is replaced by the value and the chain (result 1) by the
chain of `LPMRdZ`. -/
theorem Select_progmem_load_i8_kind_preserving :
    Select sampleOracle (sampleProgMemLoad MVT.i8)
      = Except.ok (SelectResult.mk
          (some (expectedLPM AVR.Instr.LPMRdZ [MVT.i8, MVT.Other]
            (expectedProgMemRead (expectedProgMemCopy sampleChain sampleBase MVT.i16))
            (MachineMemOperand.mk (some (IRType.pointer 1)) 1)))
          [(SDValue.mk (sampleProgMemLoad MVT.i8) 0,
            SDValue.mk (expectedLPM AVR.Instr.LPMRdZ [MVT.i8, MVT.Other]
              (expectedProgMemRead (expectedProgMemCopy sampleChain sampleBase MVT.i16))
              (MachineMemOperand.mk (some (IRType.pointer 1)) 1)) 0),
           (SDValue.mk (sampleProgMemLoad MVT.i8) 1,
            SDValue.mk (expectedLPM AVR.Instr.LPMRdZ [MVT.i8, MVT.Other]
              (expectedProgMemRead (expectedProgMemCopy sampleChain sampleBase MVT.i16))
              (MachineMemOperand.mk (some (IRType.pointer 1)) 1)) 1)])
    ∧ (SDValue.mk (sampleProgMemLoad MVT.i8) 1).getValueType = Except.ok MVT.Other
    ∧ (SDValue.mk (expectedLPM AVR.Instr.LPMRdZ [MVT.i8, MVT.Other]
          (expectedProgMemRead (expectedProgMemCopy sampleChain sampleBase MVT.i16))
          (MachineMemOperand.mk (some (IRType.pointer 1)) 1)) 1).getValueType
        = Except.ok MVT.Other :=
  ⟨rfl, rfl, rfl⟩

/-! ## Inline assembly memory operands: properties -/

theorem SDValue.getOpcode_of_mk (o : Opcode) (vts : List MVT) (ops : List SDValue)
    (info : NodeInfo) (r : Nat) : (SDValue.mk (SDNode.mk o vts ops info) r).getOpcode = o := rfl

theorem SDValue.getOperand_mk_zero (o : Opcode) (vts : List MVT) (a : SDValue)
    (rest : List SDValue) (info : NodeInfo) (r : Nat) :
    (SDValue.mk (SDNode.mk o vts (a :: rest) info) r).getOperand 0 = Except.ok a := rfl

theorem SDValue.getOperand_mk_one (o : Opcode) (vts : List MVT) (a b : SDValue)
    (rest : List SDValue) (info : NodeInfo) (r : Nat) :
    (SDValue.mk (SDNode.mk o vts (a :: b :: rest) info) r).getOperand 1 = Except.ok b := rfl

/-- The register-plus-constant case when the lookup of the class succeeds:
for an inline memory operand that is an ADD or SUB of a
`CopyFromReg` of register `r` and a constant `c < 64`, where `r` is a virtual
register or a member of `PTRDISPREGS` and has a register class,
`SelectInlineAsmMemoryOperand` reports success and appends the two operands
(Base, Disp). Disp is a constant of value `c` and type i8. When the class of
`r` is `PTRDISPREGS`, Base is the original `CopyFromReg` and the register
information is unchanged; otherwise one virtual register of class
`PTRDISPREGS` is created, the original value is copied into it, and Base is
the `CopyFromReg` of that register. -/
theorem SelectInlineAsmMemoryOperand_reg_imm (PTRDISPREGS_contains : Reg → Bool)
    (isBaseWithConstantOffset : SDValue → Bool) (RI : MachineRegisterInfo)
    (opc : ISD.NodeType) (vts : List MVT) (info : NodeInfo) (r : Nat)
    (CFR ImmOp RegOp : SDValue) (RegNo : Reg) (C : APInt) (ivt cvt : MVT) (RC : RegClass)
    (OutOps : List SDValue)
    (hOpc : opc = ISD.NodeType.ADD ∨ opc = ISD.NodeType.SUB)
    (hCFR : CFR.getOpcode = Opcode.isd ISD.NodeType.CopyFromReg)
    (hRegOp : CFR.getOperand 1 = Except.ok RegOp)
    (hReg : dyn_cast_RegisterSDNode RegOp.getNode = some RegNo)
    (hC : dyn_cast_ConstantSDNode ImmOp.getNode = some C)
    (h64 : C.getZExtValue < 64)
    (hivt : ImmOp.getNode.getValueType 0 = Except.ok ivt)
    (hcvt : CFR.getValueType = Except.ok cvt)
    (hElig : isVirtualRegister RegNo = true ∨ PTRDISPREGS_contains RegNo = true)
    (hRC : RI.getRegClass RegNo = Except.ok RC) :
    (RC = RegClass.PTRDISPREGS →
      SelectInlineAsmMemoryOperand PTRDISPREGS_contains isBaseWithConstantOffset RI
          (SDValue.mk (SDNode.mk (Opcode.isd opc) vts [CFR, ImmOp] info) r) 'm' OutOps
        = Except.ok (false,
            OutOps ++ [CFR,
              if ivt ≠ MVT.i8 then getTargetConstant C.getZExtValue MVT.i8 else ImmOp],
            RI))
    ∧ (RC ≠ RegClass.PTRDISPREGS →
      SelectInlineAsmMemoryOperand PTRDISPREGS_contains isBaseWithConstantOffset RI
          (SDValue.mk (SDNode.mk (Opcode.isd opc) vts [CFR, ImmOp] info) r) 'm' OutOps
        = Except.ok (false,
            OutOps ++ [getCopyFromReg
                (SDValue.mk (SDNode.mk (Opcode.isd ISD.NodeType.CopyToReg) [MVT.Other]
                  [CFR, getRegister (Reg.virt RI.NumVirtRegs) cvt, CFR] NodeInfo.none) 0)
                (Reg.virt RI.NumVirtRegs) MVT.i16,
              if ivt ≠ MVT.i8 then getTargetConstant C.getZExtValue MVT.i8 else ImmOp],
            (createVirtualRegister RI RegClass.PTRDISPREGS).2))
    ∧ (∃ D : APInt,
        dyn_cast_ConstantSDNode
            (if ivt ≠ MVT.i8 then getTargetConstant C.getZExtValue MVT.i8 else ImmOp).getNode
          = some D
        ∧ D.getZExtValue = C.getZExtValue)
    ∧ (if ivt ≠ MVT.i8 then getTargetConstant C.getZExtValue MVT.i8
        else ImmOp).getNode.getValueType 0 = Except.ok MVT.i8
    ∧ (createVirtualRegister RI RegClass.PTRDISPREGS).1 = Reg.virt RI.NumVirtRegs
    ∧ (createVirtualRegister RI RegClass.PTRDISPREGS).2.getRegClass (Reg.virt RI.NumVirtRegs)
        = Except.ok RegClass.PTRDISPREGS
    ∧ (createVirtualRegister RI RegClass.PTRDISPREGS).2.NumVirtRegs = RI.NumVirtRegs + 1 := by
  have hN : dyn_cast_RegisterSDNode (SDNode.mk (Opcode.isd opc) vts [CFR, ImmOp] info)
      = none := by
    rcases hOpc with h | h <;> subst h <;> rfl
  have hNotFI : Opcode.isd opc ≠ Opcode.isd ISD.NodeType.FrameIndex := by
    rcases hOpc with h | h <;> subst h <;> decide
  have hAS : Opcode.isd opc = Opcode.isd ISD.NodeType.ADD
      ∨ Opcode.isd opc = Opcode.isd ISD.NodeType.SUB := by
    rcases hOpc with h | h <;> subst h <;> simp
  have hCan : (isVirtualRegister RegNo || PTRDISPREGS_contains RegNo) = true := by
    rcases hElig with h | h <;> simp [h]
  have h64d : decide (C.getZExtValue < 64) = true := by simpa using h64
  refine ⟨?_, ?_, ?_, ?_, rfl, ?_, rfl⟩
  · intro hPD
    simp only [SelectInlineAsmMemoryOperand, SDValue.getNode_mk, hN, SDValue.getOpcode_of_mk,
      hNotFI, hAS, SelectInlineAsmRegImm, SDValue.getOperand_mk_zero,
      SDValue.getOperand_mk_one, hC, h64d, hCFR, hRegOp, checkedCast, hReg, hCan, hRC, hPD,
      hivt]
    simp [hRC, hPD]
  · intro hPD
    simp only [SelectInlineAsmMemoryOperand, SDValue.getNode_mk, hN, SDValue.getOpcode_of_mk,
      hNotFI, hAS, SelectInlineAsmRegImm, SDValue.getOperand_mk_zero,
      SDValue.getOperand_mk_one, hC, h64d, hCFR, hRegOp, checkedCast, hReg, hCan, hRC, hPD,
      hivt]
    simp [hRC, hPD, getCopyToReg, hcvt, createVirtualRegister, getPointerTy]
  · by_cases h8 : ivt = MVT.i8
    · exact ⟨C, by simp [h8, hC], rfl⟩
    · refine ⟨APInt.mk 8 C.getZExtValue, by simp [h8, getTargetConstant,
        dyn_cast_ConstantSDNode, MVT.getSizeInBits], ?_⟩
      have h0 : 0 ≤ C.getZExtValue := by
        unfold APInt.getZExtValue
        exact Int.emod_nonneg _ (by positivity)
      simp only [APInt.getZExtValue]
      exact Int.emod_eq_of_lt (by simpa [APInt.getZExtValue] using h0)
        (by simp only [APInt.getZExtValue] at h64; omega)
  · by_cases h8 : ivt = MVT.i8
    · simp [h8, hivt]
    · simp [h8, getTargetConstant, SDNode.getValueType]
  · simp [createVirtualRegister]

/-- The register-plus-constant case at the operand `v0 + 5`, `v0` a virtual
register of another class: one register is created and the pair (read of the
new register, 5) is appended. -/
theorem SelectInlineAsmMemoryOperand_reg_imm_witness :
    SelectInlineAsmMemoryOperand samplePtrDispRegs (fun _ => false) sampleRegInfo
        (sampleAdd sampleBase (sampleConst 5)) 'm' []
      = Except.ok (false,
          [getCopyFromReg
              (SDValue.mk (SDNode.mk (Opcode.isd ISD.NodeType.CopyToReg) [MVT.Other]
                [sampleBase, getRegister (Reg.virt 2) MVT.i16, sampleBase] NodeInfo.none) 0)
              (Reg.virt 2) MVT.i16,
            getTargetConstant 5 MVT.i8],
          (createVirtualRegister sampleRegInfo RegClass.PTRDISPREGS).2) :=
  (SelectInlineAsmMemoryOperand_reg_imm samplePtrDispRegs (fun _ => false) sampleRegInfo
    ISD.NodeType.ADD [MVT.i16] NodeInfo.none 0 sampleBase (sampleConst 5)
    (getRegister (Reg.virt 0) MVT.i16) (Reg.virt 0) (APInt.mk 16 5) MVT.i16 MVT.i16
    (RegClass.other 0) [] (Or.inl rfl) rfl rfl rfl rfl (by decide) rfl rfl (Or.inl rfl)
    rfl).2.1 (by decide)

/-- The register-plus-constant case when the lookup of the class fails: the
register passes the test "virtual or member of `PTRDISPREGS`" and the method
then asks the register information for its class; a failure of that lookup
is the failure of the method. -/
theorem SelectInlineAsmMemoryOperand_lookup_fails (PTRDISPREGS_contains : Reg → Bool)
    (isBaseWithConstantOffset : SDValue → Bool) (RI : MachineRegisterInfo)
    (opc : ISD.NodeType) (vts : List MVT) (info : NodeInfo) (r : Nat)
    (CFR ImmOp RegOp : SDValue) (RegNo : Reg) (C : APInt) (e : Fatal)
    (OutOps : List SDValue)
    (hOpc : opc = ISD.NodeType.ADD ∨ opc = ISD.NodeType.SUB)
    (hCFR : CFR.getOpcode = Opcode.isd ISD.NodeType.CopyFromReg)
    (hRegOp : CFR.getOperand 1 = Except.ok RegOp)
    (hReg : dyn_cast_RegisterSDNode RegOp.getNode = some RegNo)
    (hC : dyn_cast_ConstantSDNode ImmOp.getNode = some C)
    (h64 : C.getZExtValue < 64)
    (hElig : isVirtualRegister RegNo = true ∨ PTRDISPREGS_contains RegNo = true)
    (hRC : RI.getRegClass RegNo = Except.error e) :
    SelectInlineAsmMemoryOperand PTRDISPREGS_contains isBaseWithConstantOffset RI
        (SDValue.mk (SDNode.mk (Opcode.isd opc) vts [CFR, ImmOp] info) r) 'm' OutOps
      = Except.error e := by
  have hN : dyn_cast_RegisterSDNode (SDNode.mk (Opcode.isd opc) vts [CFR, ImmOp] info)
      = none := by
    rcases hOpc with h | h <;> subst h <;> rfl
  have hNotFI : Opcode.isd opc ≠ Opcode.isd ISD.NodeType.FrameIndex := by
    rcases hOpc with h | h <;> subst h <;> decide
  have hAS : Opcode.isd opc = Opcode.isd ISD.NodeType.ADD
      ∨ Opcode.isd opc = Opcode.isd ISD.NodeType.SUB := by
    rcases hOpc with h | h <;> subst h <;> simp
  have hCan : (isVirtualRegister RegNo || PTRDISPREGS_contains RegNo) = true := by
    rcases hElig with h | h <;> simp [h]
  have h64d : decide (C.getZExtValue < 64) = true := by simpa using h64
  simp only [SelectInlineAsmMemoryOperand, SDValue.getNode_mk, hN, SDValue.getOpcode_of_mk,
    hNotFI, hAS, SelectInlineAsmRegImm, SDValue.getOperand_mk_zero,
    SDValue.getOperand_mk_one, hC, h64d, hCFR, hRegOp, checkedCast, hReg, hCan, hRC]
  simp [hRC]

/-- The failure of the lookup at the operand `Y + 5` with the register
information of the samples, which holds classes for its virtual registers
only. -/
theorem SelectInlineAsmMemoryOperand_lookup_fails_witness :
    SelectInlineAsmMemoryOperand samplePtrDispRegs (fun _ => false) sampleRegInfo
        (sampleAdd (samplePhysBase Reg.R29R28) (sampleConst 5)) 'm' [sampleBase]
      = Except.error Fatal.assertion :=
  SelectInlineAsmMemoryOperand_lookup_fails samplePtrDispRegs (fun _ => false) sampleRegInfo
    ISD.NodeType.ADD [MVT.i16] NodeInfo.none 0 (samplePhysBase Reg.R29R28) (sampleConst 5)
    (getRegister Reg.R29R28 MVT.i16) Reg.R29R28 (APInt.mk 16 5) Fatal.assertion [sampleBase]
    (Or.inl rfl) rfl rfl rfl rfl (by decide) (Or.inr rfl) rfl

/-- C17: the register-plus-constant case fails for a physical pointer
register.  The registers Y (`R29R28`) and Z (`R31R30`) are not virtual and are
members of `PTRDISPREGS`, so they pass the test of the case; the method then
looks up their class in the register information, which holds the classes of
the virtual registers.  With a register information that has no class for a
physical register, the operands `Y + 5`, `Y - 5` and `Z + 5` are a hard
failure: no success is reported and no operand is appended. -/
theorem SelectInlineAsmMemoryOperand_physical_pointer_register_fails :
    isVirtualRegister Reg.R29R28 = false ∧ samplePtrDispRegs Reg.R29R28 = true
    ∧ isVirtualRegister Reg.R31R30 = false ∧ samplePtrDispRegs Reg.R31R30 = true
    ∧ sampleRegInfo.getRegClass Reg.R29R28 = Except.error Fatal.assertion
    ∧ sampleRegInfo.getRegClass Reg.R31R30 = Except.error Fatal.assertion
    ∧ SelectInlineAsmMemoryOperand samplePtrDispRegs (fun _ => false) sampleRegInfo
        (sampleAdd (samplePhysBase Reg.R29R28) (sampleConst 5)) 'm' []
      = Except.error Fatal.assertion
    ∧ SelectInlineAsmMemoryOperand samplePtrDispRegs (fun _ => false) sampleRegInfo
        (sampleSub (samplePhysBase Reg.R29R28) (sampleConst 5)) 'm' []
      = Except.error Fatal.assertion
    ∧ SelectInlineAsmMemoryOperand samplePtrDispRegs (fun _ => false) sampleRegInfo
        (sampleAdd (samplePhysBase Reg.R31R30) (sampleConst 5)) 'm' []
      = Except.error Fatal.assertion :=
  ⟨rfl, rfl, rfl, rfl, rfl, rfl, rfl, rfl, rfl⟩

/-- C18 on the code: for the operand `v0 + v0`, an ADD whose second operand is
not a constant, `SelectInlineAsmMemoryOperand` dereferences the null
`ImmNode` and fails, whereas for `v0 + 64` it takes the general fallback:
one virtual register is created and the read of it is the one operand
appended. -/
theorem SelectInlineAsmMemoryOperand_null_ImmNode (PTRDISPREGS_contains : Reg → Bool)
    (isBaseWithConstantOffset : SDValue → Bool) (RI : MachineRegisterInfo)
    (OutOps : List SDValue) :
    SelectInlineAsmMemoryOperand PTRDISPREGS_contains isBaseWithConstantOffset RI
        (sampleAdd sampleBase sampleBase) 'm' OutOps
      = Except.error Fatal.nullDereference
    ∧ SelectInlineAsmMemoryOperand PTRDISPREGS_contains isBaseWithConstantOffset RI
        (sampleAdd sampleBase (sampleConst 64)) 'm' OutOps
      = Except.ok (false,
          OutOps ++ [getCopyFromReg
            (SDValue.mk (SDNode.mk (Opcode.isd ISD.NodeType.CopyToReg) [MVT.Other]
              [sampleAdd sampleBase (sampleConst 64),
               getRegister (Reg.virt RI.NumVirtRegs) MVT.i16,
               sampleAdd sampleBase (sampleConst 64)] NodeInfo.none) 0)
            (Reg.virt RI.NumVirtRegs) MVT.i16],
          (createVirtualRegister RI RegClass.PTRDISPREGS).2) := by
  constructor
  · rfl
  · rfl

/-! ## Fall-through of the dispatcher: properties -/

/-- C19 on the code: a store whose base address is a node without operands
that is neither a frame index nor a constant (here an undefined value) is
none of the excepted shapes, yet `Select` does not return what the generic
matcher returns: the access to the first operand of the base address fails,
whatever the generic matcher is. -/
theorem Select_store_leaf_base_fails (SelectCode : SDNode → Except Fatal SelectResult) :
    (sampleStore sampleVal8 sampleUndef).isMachineOpcode = false
    ∧ (sampleStore sampleVal8 sampleUndef).getOpcode = Opcode.isd ISD.NodeType.STORE
    ∧ (sampleStore sampleVal8 sampleUndef).getOperand 2 = Except.ok sampleUndef
    ∧ (dyn_cast_FrameIndexSDNode sampleUndef.getNode).isSome = false
    ∧ (dyn_cast_ConstantSDNode sampleUndef.getNode).isSome = false
    ∧ sampleUndef.getNode.getNumOperands = 0
    ∧ Select SelectCode (sampleStore sampleVal8 sampleUndef)
        = Except.error Fatal.operandOutOfRange :=
  ⟨rfl, rfl, rfl, rfl, rfl, rfl, rfl⟩

/-- The part of C19 that holds: a node in machine form gives no replacement
whatever the generic matcher is; a node that is not in machine form and is
not a frame index, a store, a load, an `AVRISD::CALL` or an indirect branch
gives what the generic matcher gives, and so do a store whose base address is
a frame index or a constant or has a first operand other than the register
SP, a load that is not from address space 1 and that `SelectIndexedLoad`
does not match, and a call whose callee is a `TargetGlobalAddress` or a
`TargetExternalSymbol`. -/
theorem Select_falls_through (SelectCode : SDNode → Except Fatal SelectResult) :
    (∀ N : SDNode, N.isMachineOpcode = true →
      Select SelectCode N = Except.ok (SelectResult.mk none []))
    ∧ (∀ N : SDNode, N.isMachineOpcode = false →
        N.getOpcode ≠ Opcode.isd ISD.NodeType.FrameIndex →
        N.getOpcode ≠ Opcode.isd ISD.NodeType.STORE →
        N.getOpcode ≠ Opcode.isd ISD.NodeType.LOAD →
        N.getOpcode ≠ Opcode.avrisd AVRISD.NodeType.CALL →
        N.getOpcode ≠ Opcode.isd ISD.NodeType.BRIND →
        Select SelectCode N = SelectCode N)
    ∧ (∀ (vts : List MVT) (Chain Val BasePtr : SDValue) (rest : List SDValue) (m : MemInfo),
        ((dyn_cast_FrameIndexSDNode BasePtr.getNode).isSome = true
          ∨ (dyn_cast_ConstantSDNode BasePtr.getNode).isSome = true
          ∨ ∃ Base0 : SDValue, BasePtr.getOperand 0 = Except.ok Base0
              ∧ dyn_cast_RegisterSDNode Base0.getNode ≠ some Reg.SP) →
        Select SelectCode (SDNode.mk (Opcode.isd ISD.NodeType.STORE) vts
            (Chain :: Val :: BasePtr :: rest) (NodeInfo.mem m))
          = SelectCode (SDNode.mk (Opcode.isd ISD.NodeType.STORE) vts
              (Chain :: Val :: BasePtr :: rest) (NodeInfo.mem m)))
    ∧ (∀ (vts : List MVT) (ops : List SDValue) (m : MemInfo),
        isProgMemValue m.MMO.V = Except.ok false →
        SelectIndexedLoad (SDNode.mk (Opcode.isd ISD.NodeType.LOAD) vts ops (NodeInfo.mem m))
          = Except.ok none →
        Select SelectCode (SDNode.mk (Opcode.isd ISD.NodeType.LOAD) vts ops (NodeInfo.mem m))
          = SelectCode (SDNode.mk (Opcode.isd ISD.NodeType.LOAD) vts ops (NodeInfo.mem m)))
    ∧ (∀ (vts : List MVT) (Chain Callee : SDValue) (rest : List SDValue) (info : NodeInfo),
        (Callee.getOpcode = Opcode.isd ISD.NodeType.TargetGlobalAddress
          ∨ Callee.getOpcode = Opcode.isd ISD.NodeType.TargetExternalSymbol) →
        Select SelectCode (SDNode.mk (Opcode.avrisd AVRISD.NodeType.CALL) vts
            (Chain :: Callee :: rest) info)
          = SelectCode (SDNode.mk (Opcode.avrisd AVRISD.NodeType.CALL) vts
              (Chain :: Callee :: rest) info)) := by
  refine ⟨?_, ?_, ?_, ?_, ?_⟩
  · intro N hM
    simp [Select, hM]
  · intro N hM h1 h2 h3 h4 h5
    unfold Select
    simp only [hM]
    split <;> simp_all
  · intro vts Chain Val BasePtr rest m h
    rw [Select_store_eq]
    by_cases hc : (dyn_cast_FrameIndexSDNode BasePtr.getNode).isSome = true
        ∨ (dyn_cast_ConstantSDNode BasePtr.getNode).isSome = true
    · exact SelectStore_frame_or_const _ vts Chain Val BasePtr rest m hc
    · rcases h with h | h | ⟨Base0, h0, hR⟩
      · exact absurd (Or.inl h) hc
      · exact absurd (Or.inr h) hc
      · exact SelectStore_not_sp _ vts Chain Val BasePtr rest m Base0 hc h0 hR
  · intro vts ops m hPM hIdx
    rw [Select_load_eq]
    simp [SelectLoad, dyn_cast_LoadSDNode, checkedCast, hPM, hIdx]
  · intro vts Chain Callee rest info hD
    have hD1 : Callee.getNode.getOpcode = Opcode.isd ISD.NodeType.TargetGlobalAddress
        ∨ Callee.getNode.getOpcode = Opcode.isd ISD.NodeType.TargetExternalSymbol := hD
    simp [Select, SDNode.isMachineOpcode, SelectCall, SDNode.getOperand, SDValue.getOpcode, hD1]

/-! ## Resolved displacements and the encoder field: properties -/

theorem getTargetFrameIndex_isFrameIndex (FI : Int) (VT : MVT) :
    dyn_cast_FrameIndexSDNode (getTargetFrameIndex FI VT).getNode = some FI := rfl

theorem SelectAddr_non_frame_result (isBaseWithConstantOffset : SDValue → Bool)
    (Op : SDNode) (N Base Disp : SDValue)
    (hS : SelectAddr isBaseWithConstantOffset Op N = Except.ok (some (Base, Disp)))
    (hB : dyn_cast_FrameIndexSDNode Base.getNode = none) :
    ∃ (M : MemInfo) (d : Int), dyn_cast_MemSDNode Op = some M
      ∧ N.getOperand 0 = Except.ok Base
      ∧ Disp = getTargetConstant d MVT.i8
      ∧ 0 ≤ d ∧ d ≤ 63
      ∧ (M.MemoryVT = MVT.i8 ∨ (M.MemoryVT = MVT.i16 ∧ d ≤ 62)) := by
  rcases h1 : dyn_cast_FrameIndexSDNode N.getNode with _ | FIN
  swap
  · simp only [SelectAddr, h1, Except.ok.injEq, Option.some.injEq, Prod.mk.injEq] at hS
    rw [← hS.1, getTargetFrameIndex_isFrameIndex] at hB
    cases hB
  by_cases hc : N.getOpcode ≠ Opcode.isd ISD.NodeType.ADD
      ∧ N.getOpcode ≠ Opcode.isd ISD.NodeType.SUB ∧ isBaseWithConstantOffset N = false
  · simp [SelectAddr, h1, hc] at hS
  rcases h2 : N.getOperand 1 with e | Op1
  · simp [SelectAddr, h1, hc, h2] at hS
  rcases h3 : dyn_cast_ConstantSDNode Op1.getNode with _ | RHS
  · simp [SelectAddr, h1, hc, h2, h3] at hS
  rcases h4 : N.getOperand 0 with e | Op0
  · simp [SelectAddr, h1, hc, h2, h3, h4] at hS
  by_cases h5 : Op0.getOpcode = Opcode.isd ISD.NodeType.FrameIndex
  · rcases h6 : dyn_cast_FrameIndexSDNode Op0.getNode with _ | FI
    · simp [SelectAddr, h1, hc, h2, h3, h4, h5, h6, checkedCast] at hS
    · simp only [SelectAddr, h1, hc, h2, h3, h4, h5, h6, checkedCast, if_true, if_false,
        Except.ok.injEq, Option.some.injEq, Prod.mk.injEq] at hS
      rw [← hS.1, getTargetFrameIndex_isFrameIndex] at hB
      cases hB
  rcases h7 : dyn_cast_MemSDNode Op with _ | M
  · simp [SelectAddr, h1, hc, h2, h3, h4, h5, h7, checkedCast] at hS
  simp only [SelectAddr, h1, hc, h2, h3, h4, h5, h7, checkedCast, if_false] at hS
  generalize hd : (if N.getOpcode = Opcode.isd ISD.NodeType.SUB
      then -toInt32 RHS.getZExtValue else toInt32 RHS.getZExtValue) = d at hS
  have hr := toInt32_range RHS.getZExtValue
  have hdr : -2 ^ 63 ≤ d ∧ d < 2 ^ 63 := by
    rw [← hd]
    split <;> constructor <;> omega
  have hu := isUInt_six_toUInt64 d hdr.1 hdr.2
  split at hS
  · rename_i hcond
    simp only [Except.ok.injEq, Option.some.injEq, Prod.mk.injEq] at hS
    refine ⟨M, d, rfl, by rw [hS.1], hS.2.symm, ?_⟩
    rcases hcond with ⟨h8, hI⟩ | ⟨h16, hge, hlt⟩
    · have := hu.mp hI
      exact ⟨this.1, this.2, Or.inl h8⟩
    · exact ⟨hge, by omega, Or.inr ⟨h16, by omega⟩⟩
  · cases hS

theorem getMemriEncoding_Y_Z (Opc Loc : Nat) (pre post : List MCOperand)
    (Fixups : List MCFixup) (Imm : Int) :
    getMemriEncoding
        (MCInst.mk Opc (pre ++ [MCOperand.kRegister Reg.R29R28, MCOperand.kImmediate Imm] ++ post)
          Loc) pre.length Fixups
      = Except.ok ((((Imm % 256).toNat <<< 1) ||| 1) % 2 ^ 32, Fixups)
    ∧ getMemriEncoding
        (MCInst.mk Opc (pre ++ [MCOperand.kRegister Reg.R31R30, MCOperand.kImmediate Imm] ++ post)
          Loc) pre.length Fixups
      = Except.ok ((((Imm % 256).toNat <<< 1) ||| 0) % 2 ^ 32, Fixups) := by
  have h0 : ∀ R : Reg, (pre ++ [MCOperand.kRegister R, MCOperand.kImmediate Imm] ++ post).get?
      pre.length = some (MCOperand.kRegister R) := by
    intro R
    simpa using List.get?_append_cons_length pre (MCOperand.kRegister R)
      (MCOperand.kImmediate Imm :: post)
  have h1 : ∀ R : Reg, (pre ++ [MCOperand.kRegister R, MCOperand.kImmediate Imm] ++ post).get?
      (pre.length + 1) = some (MCOperand.kImmediate Imm) := by
    intro R
    simpa using List.get?_append_cons_length_succ pre (MCOperand.kRegister R)
      (MCOperand.kImmediate Imm) post
  constructor
  · simp only [getMemriEncoding, MCInst.getOperand, h0, h1, MCOperand.isReg, MCOperand.isImm,
      MCOperand.getImm, MCOperand.getReg]
    simp
  · simp only [getMemriEncoding, MCInst.getOperand, h0, h1, MCOperand.isReg, MCOperand.isImm,
      MCOperand.getImm, MCOperand.getReg]
    simp

/-- C21: whatever the memory operation and the address, if `SelectAddr`
succeeds with a base that is not a frame index, then the displacement it
returns is a target constant `d` of type i8 with `0 ≤ d ≤ 63` (and `d ≤ 62`
when the access is 16-bit); and `getMemriEncoding` of (R29R28, `d`) and of
(R31R30, `d`) loses nothing: the encoding is `(d << 1) | selector`, it is
below 128, shifting it right by one gives `d` back and its lowest bit is the
register selector. -/
theorem SelectAddr_displacement_fits_encoder (isBaseWithConstantOffset : SDValue → Bool)
    (Op : SDNode) (N Base Disp : SDValue)
    (hS : SelectAddr isBaseWithConstantOffset Op N = Except.ok (some (Base, Disp)))
    (hB : dyn_cast_FrameIndexSDNode Base.getNode = none) :
    ∃ (M : MemInfo) (d : Nat), dyn_cast_MemSDNode Op = some M
      ∧ Disp = getTargetConstant (d : Int) MVT.i8
      ∧ d ≤ 63
      ∧ (M.MemoryVT = MVT.i8 ∨ (M.MemoryVT = MVT.i16 ∧ d ≤ 62))
      ∧ (∀ (Opc Loc : Nat) (pre post : List MCOperand) (Fixups : List MCFixup),
          getMemriEncoding
              (MCInst.mk Opc
                (pre ++ [MCOperand.kRegister Reg.R29R28, MCOperand.kImmediate d] ++ post) Loc)
              pre.length Fixups
            = Except.ok ((d <<< 1) ||| 1, Fixups)
          ∧ getMemriEncoding
              (MCInst.mk Opc
                (pre ++ [MCOperand.kRegister Reg.R31R30, MCOperand.kImmediate d] ++ post) Loc)
              pre.length Fixups
            = Except.ok ((d <<< 1) ||| 0, Fixups))
      ∧ ((d <<< 1) ||| 1) < 128 ∧ ((d <<< 1) ||| 0) < 128
      ∧ ((d <<< 1) ||| 1) >>> 1 = d ∧ ((d <<< 1) ||| 0) >>> 1 = d
      ∧ ((d <<< 1) ||| 1) % 2 = 1 ∧ ((d <<< 1) ||| 0) % 2 = 0 := by
  obtain ⟨M, d, hM, _, hD, h0, h63, hVT⟩ :=
    SelectAddr_non_frame_result isBaseWithConstantOffset Op N Base Disp hS hB
  have hcast : ((d.toNat : Nat) : Int) = d := Int.toNat_of_nonneg h0
  have hle : d.toNat ≤ 63 := by omega
  have hb := memri_bits d.toNat hle
  have hlt1 : ((d.toNat <<< 1) ||| 1) % 2 ^ 32 = (d.toNat <<< 1) ||| 1 :=
    Nat.mod_eq_of_lt (by omega)
  have hlt0 : ((d.toNat <<< 1) ||| 0) % 2 ^ 32 = (d.toNat <<< 1) ||| 0 :=
    Nat.mod_eq_of_lt (by omega)
  refine ⟨M, d.toNat, hM, by rw [hcast]; exact hD, hle, ?_, ?_,
    hb.2.1, hb.2.2.1, hb.2.2.2.2.2.1, hb.2.2.2.2.2.2, hb.2.2.2.1, hb.2.2.2.2.1⟩
  · rcases hVT with h | ⟨h, h62⟩
    · exact Or.inl h
    · exact Or.inr ⟨h, by omega⟩
  · intro Opc Loc pre post Fixups
    have hE := getMemriEncoding_Y_Z Opc Loc pre post Fixups (d.toNat : Int)
    rw [hb.1, hlt1, hlt0] at hE
    exact hE

/-- The instance of C21 at the 8-bit load from `v0 + 63`. -/
theorem SelectAddr_displacement_fits_encoder_witness :
    ∃ (M : MemInfo) (d : Nat),
      dyn_cast_MemSDNode (sampleLoad MVT.i8 (sampleAdd sampleBase (sampleConst 63))) = some M
      ∧ getTargetConstant 63 MVT.i8 = getTargetConstant (d : Int) MVT.i8
      ∧ d ≤ 63
      ∧ (M.MemoryVT = MVT.i8 ∨ (M.MemoryVT = MVT.i16 ∧ d ≤ 62))
      ∧ (∀ (Opc Loc : Nat) (pre post : List MCOperand) (Fixups : List MCFixup),
          getMemriEncoding
              (MCInst.mk Opc
                (pre ++ [MCOperand.kRegister Reg.R29R28, MCOperand.kImmediate d] ++ post) Loc)
              pre.length Fixups
            = Except.ok ((d <<< 1) ||| 1, Fixups)
          ∧ getMemriEncoding
              (MCInst.mk Opc
                (pre ++ [MCOperand.kRegister Reg.R31R30, MCOperand.kImmediate d] ++ post) Loc)
              pre.length Fixups
            = Except.ok ((d <<< 1) ||| 0, Fixups))
      ∧ ((d <<< 1) ||| 1) < 128 ∧ ((d <<< 1) ||| 0) < 128
      ∧ ((d <<< 1) ||| 1) >>> 1 = d ∧ ((d <<< 1) ||| 0) >>> 1 = d
      ∧ ((d <<< 1) ||| 1) % 2 = 1 ∧ ((d <<< 1) ||| 0) % 2 = 0 :=
  SelectAddr_displacement_fits_encoder (fun _ => false)
    (sampleLoad MVT.i8 (sampleAdd sampleBase (sampleConst 63)))
    (sampleAdd sampleBase (sampleConst 63)) sampleBase (getTargetConstant 63 MVT.i8) rfl rfl

/-! ## Inline assembly memory operands: the address denoted -/

/-- C22: the register-plus-constant case does not preserve the address of a
SUB.  For the operand `SUB(CopyFromReg v0, 5)` the method reports success with
the pair (read of the fresh register 2 holding `v0`, target constant 5 of
type i8), the same pair as for `ADD(CopyFromReg v0, 5)`; whatever the register
contents, the pair denotes `v0 + 5` while the operand denotes `v0 - 5`
(modulo 2^16), and the two differ.  For the ADD the pair and the operand
denote the same address. -/
theorem SelectInlineAsmMemoryOperand_sub_displacement_not_negated (regs : Reg → Nat) :
    SelectInlineAsmMemoryOperand samplePtrDispRegs (fun _ => false) sampleRegInfo
        (sampleSub sampleBase (sampleConst 5)) 'm' []
      = Except.ok (false, [samplePromotedBase, getTargetConstant 5 MVT.i8],
          (createVirtualRegister sampleRegInfo RegClass.PTRDISPREGS).2)
    ∧ SelectInlineAsmMemoryOperand samplePtrDispRegs (fun _ => false) sampleRegInfo
        (sampleAdd sampleBase (sampleConst 5)) 'm' []
      = Except.ok (false, [samplePromotedBase, getTargetConstant 5 MVT.i8],
          (createVirtualRegister sampleRegInfo RegClass.PTRDISPREGS).2)
    ∧ denotedValue regs 3 samplePromotedBase = some (regs (Reg.virt 0) % 2 ^ 16)
    ∧ denotedAddress regs 3 samplePromotedBase (getTargetConstant 5 MVT.i8)
      = some ((regs (Reg.virt 0) % 2 ^ 16 + 5) % 2 ^ 16)
    ∧ denotedValue regs 3 (sampleSub sampleBase (sampleConst 5))
      = some ((regs (Reg.virt 0) % 2 ^ 16 + 2 ^ 16 - 5) % 2 ^ 16)
    ∧ denotedAddress regs 3 samplePromotedBase (getTargetConstant 5 MVT.i8)
      ≠ denotedValue regs 3 (sampleSub sampleBase (sampleConst 5))
    ∧ denotedAddress regs 3 samplePromotedBase (getTargetConstant 5 MVT.i8)
      = denotedValue regs 3 (sampleAdd sampleBase (sampleConst 5)) := by
  have hA : denotedAddress regs 3 samplePromotedBase (getTargetConstant 5 MVT.i8)
      = some ((regs (Reg.virt 0) % 2 ^ 16 + 5) % 2 ^ 16) := rfl
  have hV : denotedValue regs 3 (sampleSub sampleBase (sampleConst 5))
      = some ((regs (Reg.virt 0) % 2 ^ 16 + 2 ^ 16 - 5) % 2 ^ 16) := rfl
  refine ⟨rfl, rfl, rfl, hA, hV, ?_, rfl⟩
  rw [hA, hV]
  intro h
  injection h with h
  omega
